import Mathlib

/-!
# Linux fbdev display backend (`ui/fbdev.c`)

A shallow embedding of `ui/fbdev.c`: the keyboard decoder, the scancode
translator, the console-switch state machine, the refresh path, start-up
and teardown.

File-scope C variables become fields of `State`.  Every interaction with
the outside (device calls, events handed to the input sink, text written to
stderr, `exit`) is appended to `State.trace`.  Answers of the outside
(console mode, ioctl results, callbacks made by collaborators) are oracles
in `Env`; each oracle is a function of the trace so far.

A `double` is the rational number it holds; every `double` operation gives
the exact result rounded by `to_double` (IEEE 754 binary64, round to nearest,
ties to even, each operation rounded on its own).
-/

namespace Fbdev

/-! ## Key codes of `linux/input.h` -/

def KEY_ESC : Nat := 1
def KEY_1 : Nat := 2
def KEY_2 : Nat := 3
def KEY_3 : Nat := 4
def KEY_4 : Nat := 5
def KEY_5 : Nat := 6
def KEY_6 : Nat := 7
def KEY_7 : Nat := 8
def KEY_8 : Nat := 9
def KEY_9 : Nat := 10
def KEY_0 : Nat := 11
def KEY_MINUS : Nat := 12
def KEY_EQUAL : Nat := 13
def KEY_BACKSPACE : Nat := 14
def KEY_TAB : Nat := 15
def KEY_Q : Nat := 16
def KEY_W : Nat := 17
def KEY_E : Nat := 18
def KEY_R : Nat := 19
def KEY_T : Nat := 20
def KEY_Y : Nat := 21
def KEY_U : Nat := 22
def KEY_I : Nat := 23
def KEY_O : Nat := 24
def KEY_P : Nat := 25
def KEY_LEFTBRACE : Nat := 26
def KEY_RIGHTBRACE : Nat := 27
def KEY_ENTER : Nat := 28
def KEY_LEFTCTRL : Nat := 29
def KEY_A : Nat := 30
def KEY_S : Nat := 31
def KEY_D : Nat := 32
def KEY_F : Nat := 33
def KEY_G : Nat := 34
def KEY_H : Nat := 35
def KEY_J : Nat := 36
def KEY_K : Nat := 37
def KEY_L : Nat := 38
def KEY_SEMICOLON : Nat := 39
def KEY_APOSTROPHE : Nat := 40
def KEY_GRAVE : Nat := 41
def KEY_LEFTSHIFT : Nat := 42
def KEY_BACKSLASH : Nat := 43
def KEY_Z : Nat := 44
def KEY_X : Nat := 45
def KEY_C : Nat := 46
def KEY_V : Nat := 47
def KEY_B : Nat := 48
def KEY_N : Nat := 49
def KEY_M : Nat := 50
def KEY_COMMA : Nat := 51
def KEY_DOT : Nat := 52
def KEY_SLASH : Nat := 53
def KEY_RIGHTSHIFT : Nat := 54
def KEY_KPASTERISK : Nat := 55
def KEY_LEFTALT : Nat := 56
def KEY_SPACE : Nat := 57
def KEY_CAPSLOCK : Nat := 58
def KEY_F1 : Nat := 59
def KEY_F2 : Nat := 60
def KEY_F3 : Nat := 61
def KEY_F4 : Nat := 62
def KEY_F5 : Nat := 63
def KEY_F6 : Nat := 64
def KEY_F7 : Nat := 65
def KEY_F8 : Nat := 66
def KEY_F9 : Nat := 67
def KEY_F10 : Nat := 68
def KEY_NUMLOCK : Nat := 69
def KEY_SCROLLLOCK : Nat := 70
def KEY_KP7 : Nat := 71
def KEY_KP8 : Nat := 72
def KEY_KP9 : Nat := 73
def KEY_KPMINUS : Nat := 74
def KEY_KP4 : Nat := 75
def KEY_KP5 : Nat := 76
def KEY_KP6 : Nat := 77
def KEY_KPPLUS : Nat := 78
def KEY_KP1 : Nat := 79
def KEY_KP2 : Nat := 80
def KEY_KP3 : Nat := 81
def KEY_KP0 : Nat := 82
def KEY_KPDOT : Nat := 83
def KEY_102ND : Nat := 86
def KEY_F11 : Nat := 87
def KEY_F12 : Nat := 88
def KEY_KPENTER : Nat := 96
def KEY_RIGHTCTRL : Nat := 97
def KEY_KPSLASH : Nat := 98
def KEY_SYSRQ : Nat := 99
def KEY_RIGHTALT : Nat := 100
def KEY_HOME : Nat := 102
def KEY_UP : Nat := 103
def KEY_PAGEUP : Nat := 104
def KEY_LEFT : Nat := 105
def KEY_RIGHT : Nat := 106
def KEY_END : Nat := 107
def KEY_DOWN : Nat := 108
def KEY_PAGEDOWN : Nat := 109
def KEY_INSERT : Nat := 110
def KEY_DELETE : Nat := 111
def KEY_LEFTMETA : Nat := 125
def KEY_RIGHTMETA : Nat := 126
def KEY_COMPOSE : Nat := 127
def KEY_MAX : Nat := 0x2ff
def KEY_CNT : Nat := KEY_MAX + 1

/-! ## Console-switch states -/

def FB_ACTIVE : Nat := 0
def FB_REL_REQ : Nat := 1
def FB_INACTIVE : Nat := 2
def FB_ACQ_REQ : Nat := 3

/-! ## Constants of `linux/kd.h`, `linux/vt.h`, `termios.h`, `fcntl.h` -/

def KD_GRAPHICS : Int := 1
def K_MEDIUMRAW : Int := 2
def VT_ACKACQ : Int := 2
def IXON : Nat := 0o2000
def IXOFF : Nat := 0o10000
def ISIG : Nat := 0o1
def ICANON : Nat := 0o2
def ECHO : Nat := 0o10
def O_NONBLOCK : Nat := 0o4000
def TCSANOW : Int := 0
def TCSAFLUSH : Int := 2
def VT_PROCESS : Int := 1
def FB_TYPE_PACKED_PIXELS : Nat := 0
def MAP_FAILED : Int := -1
def SIGQUIT : Int := 3
def SIGILL : Int := 4
def SIGABRT : Int := 6
def SIGBUS : Int := 7
def SIGFPE : Int := 8
def SIGSEGV : Int := 11

/-! ## Data -/

/-- The fields of `struct termios` that `start_mediumraw` touches; the rest
of the structure is carried along in `other`. -/
structure Termios where
  c_iflag : Nat
  c_cflag : Nat
  c_lflag : Nat
  vmin : Nat
  vtime : Nat
  other : Nat
deriving DecidableEq

/-- A rectangle `x, y, w, h`. -/
structure Rect where
  x : Int
  y : Int
  w : Int
  h : Int
deriving DecidableEq

/-- What the module reads of a `QEMUCursor`. -/
structure Cursor where
  width : Int
  height : Int
  hot_x : Int
  hot_y : Int
deriving DecidableEq

/-- The working image `swork`: a clone of the guest surface image carrying
the transform built by `fbdev_update` (translation by `-cx, -cy`, then a
scale by `1/scale` when scaling is on) and the filter. -/
structure Work where
  width : Nat
  height : Nat
  tx : Int
  ty : Int
  scaled : Bool
  factor : ℚ
deriving DecidableEq

/-- The fields of `struct fb_var_screeninfo` that the module reads or
writes; `pixel` stands for the colour bitfields and `other` for the rest of
the structure. -/
structure ScreenVar where
  xres : Nat
  yres : Nat
  xoffset : Nat
  yoffset : Nat
  bits_per_pixel : Nat
  pixel : Nat
  other : Nat
deriving DecidableEq

/-- The fields of `struct fb_fix_screeninfo` that the module reads. -/
structure ScreenFix where
  smem_start : Nat
  smem_len : Nat
  fb_type : Nat
  line_length : Nat
deriving DecidableEq

/-- The structure `struct vt_mode`. -/
structure VtMode where
  mode : Int
  waitv : Int
  relsig : Int
  acqsig : Int
  frsig : Int
deriving DecidableEq

/-- The image made by `pixman_image_create_bits` over the mapping: `bits`
is the offset of its first byte from the start of the mapping. -/
structure FbImage where
  format : Nat
  width : Nat
  height : Nat
  bits : Nat
  stride : Nat
deriving DecidableEq

/-- The device files the module opens: the framebuffer device, `/dev/tty0`,
`/dev/tty<n>`, `/dev/input/mice`. -/
inductive Dev where
  | fb
  | tty0
  | tty (n : Int)
  | mice
deriving DecidableEq

/-- The read handlers passed to `qemu_set_fd_handler`; `null` is `NULL`. -/
inductive Handler where
  | null
  | read_mediumraw
  | read_mouse
deriving DecidableEq

/-- The signal handlers the module installs. -/
inductive SigHandler where
  | fbdev_switch_signal
  | fbdev_catch_fatal_signal
deriving DecidableEq

/-- The requests passed to `ioctl` with an integer or an output argument. -/
inductive IoctlReq where
  | KDGKBMODE
  | KDSKBMODE
  | KDSETMODE
  | VT_RELDISP
  | VT_ACTIVATE
  | VT_WAITACTIVE
  | VT_GETSTATE
  | VT_OPENQRY
  | KDGETMODE
  | VT_GETMODE
  | FBIOGET_VSCREENINFO
  | FBIOGET_FSCREENINFO
deriving DecidableEq

/-- The pointer axes `INPUT_AXIS_X`, `INPUT_AXIS_Y`. -/
inductive Axis where
  | X
  | Y
deriving DecidableEq

/-- One interaction with the outside world. -/
inductive Effect where
  /-- Call of `qemu_input_event_send_key_number(NULL, scancode, down)`. -/
  | key_number (scancode : Nat) (down : Bool)
  /-- Call of `kbd_put_keysym(keysym)`. -/
  | keysym (sym : Nat)
  /-- Text written to stderr (`fprintf`, `perror`). -/
  | stderr
  /-- Call of `console_select(index)`. -/
  | console_select (index : Int)
  /-- Call of `graphic_hw_update(NULL)`. -/
  | hw_update
  /-- Call of `ioctl(fd, req, arg)`. -/
  | ioctl (fd : Int) (req : IoctlReq) (arg : Int)
  /-- Call of `tcgetattr(fd, ..)`. -/
  | tcgetattr (fd : Int)
  /-- Call of `tcsetattr(fd, action, attr)`. -/
  | tcsetattr (fd : Int) (action : Int) (attr : Termios)
  /-- Call of `fcntl(fd, F_GETFL)`. -/
  | getfl (fd : Int)
  /-- Call of `fcntl(fd, F_SETFL, flags)`. -/
  | setfl (fd : Int) (flags : Nat)
  /-- The `memset` of `fbdev_cls`: `len` zero bytes from byte `start` of the
  mapping. -/
  | cls (start : Nat) (len : Nat)
  /-- The composite of `fbdev_render`: `swork` onto the framebuffer, clipped
  to the dirty region. -/
  | composite (src : Option Work) (clip : List Rect)
  /-- The composite of `fbdev_render_ptr`: the cursor image onto the
  framebuffer. -/
  | ptr_composite (px py pw ph : Int)
  /-- Call of `qemu_input_update_buttons(.., bmap, old, new)`. -/
  | update_buttons (button_old button_new : Nat)
  /-- Call of `qemu_input_queue_abs(.., axis, value, min, max)`. -/
  | queue_abs (axis : Axis) (value min_in max_in : Int)
  /-- Call of `qemu_input_queue_rel(.., axis, value)`. -/
  | queue_rel (axis : Axis) (value : Int)
  /-- Call of `qemu_input_event_sync()`. -/
  | event_sync
  /-- Call of `exit(status)`. -/
  | exit (status : Int)
  /-- Call of `open(dev, ..)` that returned `fd`. -/
  | open (dev : Dev) (fd : Int)
  /-- Call of `close(fd)`. -/
  | close (fd : Int)
  /-- Call of `mmap(NULL, len, .., fd, 0)` that returned `addr`. -/
  | mmap (len : Nat) (fd : Int) (addr : Int)
  /-- Call of `munmap(addr, len)`. -/
  | munmap (addr : Int) (len : Nat)
  /-- Call of `ioctl(fd, FBIOPUT_VSCREENINFO, &var)`. -/
  | put_vscreeninfo (fd : Int) (var : ScreenVar)
  /-- Call of `ioctl(fd, FBIOPAN_DISPLAY, &var)`. -/
  | pan_display (fd : Int) (var : ScreenVar)
  /-- Call of `ioctl(fd, VT_SETMODE, &mode)`. -/
  | vt_setmode (fd : Int) (mode : VtMode)
  /-- Call of `qemu_set_fd_handler(fd, handler, NULL, NULL)`. -/
  | set_fd_handler (fd : Int) (handler : Handler)
  /-- Call of `sigaction(signal, ..)` installing `handler`. -/
  | sigaction (signal : Int) (handler : SigHandler)
  /-- Call of `qemu_add_exit_notifier(&exit_notifier)`. -/
  | add_exit_notifier
  /-- Call of `qemu_remove_exit_notifier(&exit_notifier)`. -/
  | remove_exit_notifier
  /-- Call of `atexit(fbdev_display_uninit)`. -/
  | atexit
  /-- Call of `register_displaychangelistener(dcl)`. -/
  | register_listener
  /-- Call of `unregister_displaychangelistener(dcl)`. -/
  | unregister_listener
deriving DecidableEq

/-- A call that a collaborator makes into the module through the
`DisplayChangeListenerOps` table `fbdev_ops`. -/
inductive Callback where
  | gfx_update (x y w h : Int)
  | gfx_switch (width height : Nat)
  | mouse_set (x y on_ : Int)
  | cursor_define (cursor : Option Cursor)
deriving DecidableEq

/-- The outside of the module.  Constants defined by other headers of the
repository (`ui/input.h`, `ui/console.h`) and by the C library are fields;
the other fields are oracles answering from the trace so far. -/
structure Env where
  /-- The marker bit `SCANCODE_GREY` of `ui/input.h`. -/
  SCANCODE_GREY : Nat
  /-- The prefix code `SCANCODE_EMUL0` of `ui/input.h`. -/
  SCANCODE_EMUL0 : Nat
  QEMU_KEY_BACKSPACE : Nat
  QEMU_KEY_UP : Nat
  QEMU_KEY_DOWN : Nat
  QEMU_KEY_LEFT : Nat
  QEMU_KEY_RIGHT : Nat
  /-- The value of `SIGRTMIN`. -/
  SIGRTMIN : Int
  /-- Result of `qemu_console_is_graphic(NULL)`. -/
  is_graphic : List Effect → Bool
  /-- Result of `qemu_input_is_absolute()`. -/
  is_absolute : List Effect → Bool
  /-- Listener callbacks made during `console_select`. -/
  console_select_cb : List Effect → List Callback
  /-- Listener callbacks made during `graphic_hw_update`. -/
  hw_update_cb : List Effect → List Callback
  /-- Whether the `ioctl` made now returns a negative value. -/
  ioctl_fails : List Effect → Bool
  /-- What `tcgetattr` stores, `none` when it fails. -/
  tcgetattr : List Effect → Option Termios
  /-- What `ioctl(KDGKBMODE)` stores, `none` when it fails. -/
  kdgkbmode : List Effect → Option Int
  /-- Return value of `fcntl(F_GETFL)`. -/
  getfl : List Effect → Int
  /-- Return value of `open`: a descriptor, or -1. -/
  open_result : List Effect → Int
  /-- Return value of `mmap`: an address, or `MAP_FAILED`. -/
  mmap_result : List Effect → Int
  /-- Return value of `getpagesize()`. -/
  pagesize : Nat
  /-- The field `v_active` that `ioctl(VT_GETSTATE)` stores. -/
  vt_active : List Effect → Int
  /-- The number that `ioctl(VT_OPENQRY)` stores. -/
  vt_openqry : List Effect → Int
  /-- What `ioctl(KDGETMODE)` stores. -/
  kdgetmode : List Effect → Int
  /-- What `ioctl(VT_GETMODE)` stores. -/
  vt_getmode : List Effect → VtMode
  /-- What `ioctl(FBIOGET_VSCREENINFO)` stores. -/
  vscreeninfo : List Effect → ScreenVar
  /-- What `ioctl(FBIOGET_FSCREENINFO)` stores. -/
  fscreeninfo : List Effect → ScreenFix
  /-- Listener callbacks made during `register_displaychangelistener`. -/
  register_cb : List Effect → List Callback
  /-- The pixman format code that `qemu_pixman_get_type` and `PIXMAN_FORMAT`
  give for a depth and the colour bitfields. -/
  pixman_format : Nat → Nat → Nat

/-- The file-scope variables of the module that the modelled functions use,
the trace of interactions, and whether the process has called `exit`.
`surface_width`, `surface_height` stand for `surface_width(surface)` and
`surface_height(surface)`; `sref`, `ptr_image` and `dcl` record whether the
pointer is non-NULL; `prev_b`, `ax`, `ay` are the static locals of
`read_mouse`.  `xres`, `yres`, `xoffset`, `yoffset`, `bits_per_pixel`,
`fb_var_pixel`, `fb_var_other` are the fields of `fb_var`, and `smem_start`,
`smem_len`, `fb_type`, `line_length` those of `fb_fix`.  `fb_mem` is the
address of the mapping, 0 for `NULL`.  `atexit_uninit` tells whether
`atexit(fbdev_display_uninit)` has been called, `exit_notifier` whether
`exit_notifier` is in the list of exit notifiers.  Counters are unbounded. -/
structure State where
  tty : Int
  kd_omode : Int
  tty_attributes : Termios
  tty_mode : Int
  tty_flags : Nat
  tty_mediumraw : Bool
  key_down : Nat → Bool
  fb_switch_state : Nat
  xres : Nat
  yres : Nat
  line_length : Nat
  fb_mem_offset : Nat
  resize_screen : Nat
  redraw_screen : Nat
  cx : Int
  cy : Int
  cw : Int
  ch : Int
  surface_width : Nat
  surface_height : Nat
  sref : Bool
  swork : Option Work
  dirty : List Rect
  scale : ℚ
  ptr_cursor : Option Cursor
  ptr_image : Bool
  ptr_refresh : Nat
  px : Int
  py : Int
  pw : Int
  ph : Int
  mx : Int
  my : Int
  mon : Int
  use_scale : Nat
  prev_b : Nat
  ax : Int
  ay : Int
  fb : Int
  mice : Int
  orig_vtno : Int
  vtno : Int
  vt_omode : VtMode
  vt_mode : VtMode
  fb_ovar : ScreenVar
  xoffset : Nat
  yoffset : Nat
  bits_per_pixel : Nat
  fb_var_pixel : Nat
  fb_var_other : Nat
  smem_start : Nat
  smem_len : Nat
  fb_type : Nat
  fb_mem : Int
  framebuffer : Option FbImage
  dcl : Bool
  atexit_uninit : Bool
  exit_notifier : Bool
  trace : List Effect
  exited : Bool

/-- Append interactions to the trace. -/
def emit (s : State) (es : List Effect) : State :=
  { s with trace := s.trace ++ es }

/-- The assignment `key_down[k] = v`. -/
def key_set (kd : Nat → Bool) (k : Nat) (v : Bool) : Nat → Bool :=
  fun j => if j = k then v else kd j

/-- An array built from designated initializers `[index] = value`: entries
not named are zero, and a later initializer of an index overrides an
earlier one. -/
def designated {α : Type} (zero : α) (init : List (Nat × α)) (k : Nat) : α :=
  init.foldl (fun acc p => if p.1 = k then p.2 else acc) zero

/-! ## Floating point -/

/-- The number of halvings that bring `n` below 2, for `n` up to
`2 ^ fuel`. -/
def log2_fuel : Nat → Nat → Nat
  | 0, _ => 0
  | f + 1, n => if n < 2 then 0 else log2_fuel f (n / 2) + 1

/-- The exponent `e` with `2 ^ e ≤ a < 2 ^ (e + 1)`, for `a > 0`. -/
def floor_log2 (a : ℚ) : Int :=
  let k : Int := (log2_fuel a.num.natAbs a.num.natAbs : Int) - (log2_fuel a.den a.den : Int)
  if (2 : ℚ) ^ k ≤ a then k else k - 1

/-- The integer nearest to `x ≥ 0`, the even one of the two when `x` lies
half way. -/
def round_half_even (x : ℚ) : Int :=
  let f : Int := x.num / x.den
  let r : ℚ := x - f
  if r < 1 / 2 then f
  else if r > 1 / 2 then f + 1
  else if f % 2 = 0 then f else f + 1

/-- The `double` nearest to a real number: 53 significant bits, ties to
even.  The exponent is not bounded: the values met here are far from
overflow and from the subnormal range. -/
def to_double (q : ℚ) : ℚ :=
  if q = 0 then 0
  else
    let a := |q|
    let ulp : ℚ := (2 : ℚ) ^ (floor_log2 a - 52)
    let m : ℚ := round_half_even (a / ulp)
    if q < 0 then - (m * ulp) else m * ulp

/-- Conversion of a `double` to `int`: truncation toward zero. -/
def trunc (q : ℚ) : Int :=
  Int.tdiv q.num q.den

/-! ## Mouse -/

/-- The function `read_mouse`, after `rc = read(mice, buf, sizeof(buf))` has
returned `rc`; `buf i` is the value of the `char` at `buf[i]`. -/
def read_mouse (env : Env) (rc : Int) (buf : Nat → Int) (s : State) : State :=
  if rc ≠ 3 then s
  else if s.fb_switch_state ≠ FB_ACTIVE then s
  else
    let x := buf 1
    let y := - buf 2
    let b := (buf 0 % 2 ^ 32).toNat
    let s1 :=
      if s.prev_b ≠ b then
        { emit s [Effect.update_buttons s.prev_b b] with prev_b := b }
      else s
    let s2 :=
      if env.is_absolute s1.trace then
        let ax1 := s1.ax + x
        let ay1 := s1.ay + y
        let ax2 := if ax1 < 0 then 0 else ax1
        let ay2 := if ay1 < 0 then 0 else ay1
        let wmax := to_double ((s1.cw : ℚ) * s1.scale)
        let hmax := to_double ((s1.ch : ℚ) * s1.scale)
        let ax3 := if (ax2 : ℚ) ≥ wmax then trunc (to_double (wmax - 1)) else ax2
        let ay3 := if (ay2 : ℚ) ≥ hmax then trunc (to_double (hmax - 1)) else ay2
        emit { s1 with ax := ax3, ay := ay3 }
          [Effect.queue_abs Axis.X ax3 0 (trunc wmax),
           Effect.queue_abs Axis.Y ay3 0 (trunc hmax)]
      else
        emit s1 [Effect.queue_rel Axis.X x, Effect.queue_rel Axis.Y y]
    emit s2 [Effect.event_sync]

/-- The function `init_mouse()`, with its return value. -/
def init_mouse (env : Env) (s : State) : State × Int :=
  let fd := env.open_result s.trace
  let s1 := { emit s [Effect.open Dev.mice fd] with mice := fd }
  if fd = -1 then (s1, -1)
  else (emit s1 [Effect.set_fd_handler fd Handler.read_mouse], 0)

/-- The function `uninit_mouse()`. -/
def uninit_mouse (s : State) : State :=
  if s.mice = -1 then s
  else
    { emit s [Effect.set_fd_handler s.mice Handler.null, Effect.close s.mice]
        with mice := -1 }

/-! ## Keyboard tables -/

/-- The table `scancode_map[KEY_CNT]`. -/
def scancode_init : List (Nat × Nat) :=
  [ (KEY_ESC, 0x01), (KEY_1, 0x02), (KEY_2, 0x03), (KEY_3, 0x04),
    (KEY_4, 0x05), (KEY_5, 0x06), (KEY_6, 0x07), (KEY_7, 0x08),
    (KEY_8, 0x09), (KEY_9, 0x0a), (KEY_0, 0x0b), (KEY_MINUS, 0x0c),
    (KEY_EQUAL, 0x0d), (KEY_BACKSPACE, 0x0e),
    (KEY_TAB, 0x0f), (KEY_Q, 0x10), (KEY_W, 0x11), (KEY_E, 0x12),
    (KEY_R, 0x13), (KEY_T, 0x14), (KEY_Y, 0x15), (KEY_U, 0x16),
    (KEY_I, 0x17), (KEY_O, 0x18), (KEY_P, 0x19), (KEY_LEFTBRACE, 0x1a),
    (KEY_RIGHTBRACE, 0x1b), (KEY_ENTER, 0x1c),
    (KEY_A, 0x1e), (KEY_S, 0x1f), (KEY_D, 0x20), (KEY_F, 0x21),
    (KEY_G, 0x22), (KEY_H, 0x23), (KEY_J, 0x24), (KEY_K, 0x25),
    (KEY_L, 0x26), (KEY_SEMICOLON, 0x27), (KEY_APOSTROPHE, 0x28),
    (KEY_GRAVE, 0x29), (KEY_LEFTSHIFT, 0x2a), (KEY_BACKSLASH, 0x2b),
    (KEY_Z, 0x2c), (KEY_X, 0x2d), (KEY_C, 0x2e), (KEY_V, 0x2f),
    (KEY_B, 0x30), (KEY_N, 0x31), (KEY_M, 0x32), (KEY_COMMA, 0x33),
    (KEY_DOT, 0x34), (KEY_SLASH, 0x35), (KEY_RIGHTSHIFT, 0x36),
    (KEY_SPACE, 0x39),
    (KEY_F1, 0x3b), (KEY_F2, 0x3c), (KEY_F3, 0x3d), (KEY_F4, 0x3e),
    (KEY_F5, 0x3f), (KEY_F6, 0x40), (KEY_F7, 0x41), (KEY_F8, 0x42),
    (KEY_F9, 0x43), (KEY_F10, 0x44), (KEY_F11, 0x57), (KEY_F12, 0x58),
    (KEY_SYSRQ, 0xb7), (KEY_SCROLLLOCK, 0x46),
    (KEY_CAPSLOCK, 0x3a), (KEY_102ND, 0x56),
    (KEY_LEFTCTRL, 0x1d), (KEY_LEFTMETA, 0xdb), (KEY_LEFTALT, 0x38),
    (KEY_RIGHTALT, 0xb8), (KEY_RIGHTMETA, 0xdc), (KEY_RIGHTCTRL, 0x9d),
    (KEY_COMPOSE, 0xdd),
    (KEY_INSERT, 0xd2), (KEY_DELETE, 0xd3), (KEY_HOME, 0xc7),
    (KEY_END, 0xcf), (KEY_PAGEUP, 0xc9), (KEY_PAGEDOWN, 0xd1),
    (KEY_UP, 0xc8), (KEY_LEFT, 0xcb), (KEY_RIGHT, 0xcd), (KEY_DOWN, 0xd0),
    (KEY_NUMLOCK, 0x45), (KEY_KPSLASH, 0xb5), (KEY_KPASTERISK, 0x37),
    (KEY_KP7, 0x47), (KEY_KP8, 0x48), (KEY_KP9, 0x49), (KEY_KPMINUS, 0x4a),
    (KEY_KP4, 0x4b), (KEY_KP5, 0x4c), (KEY_KP6, 0x4d), (KEY_KPPLUS, 0x4e),
    (KEY_KP1, 0x4f), (KEY_KP2, 0x50), (KEY_KP3, 0x51), (KEY_KP0, 0x52),
    (KEY_KPDOT, 0x53), (KEY_KPENTER, 0x9c) ]

/-- The entry `scancode_map[keycode]`. -/
def scancode_map (keycode : Nat) : Nat :=
  designated 0 scancode_init keycode

/-- The table read backwards: the designated-initializer array whose
entry at each scancode of `scancode_init` is the key listed with it. -/
def scancode_inv (scancode : Nat) : Nat :=
  designated 0 (scancode_init.map (fun p => (p.2, p.1))) scancode

/-- An entry of `struct keysym_map`. -/
structure KeysymEntry where
  normal : Nat
  shifted : Nat
deriving DecidableEq

/-- The table `keysym_map_en_us[KEY_CNT]`; characters are given by their
codes where the character is not a letter or a digit. -/
def keysym_init (env : Env) : List (Nat × KeysymEntry) :=
  [ (KEY_A, ⟨'a'.toNat, 'A'.toNat⟩), (KEY_B, ⟨'b'.toNat, 'B'.toNat⟩),
    (KEY_C, ⟨'c'.toNat, 'C'.toNat⟩), (KEY_D, ⟨'d'.toNat, 'D'.toNat⟩),
    (KEY_E, ⟨'e'.toNat, 'E'.toNat⟩), (KEY_F, ⟨'f'.toNat, 'F'.toNat⟩),
    (KEY_G, ⟨'g'.toNat, 'G'.toNat⟩), (KEY_H, ⟨'h'.toNat, 'H'.toNat⟩),
    (KEY_I, ⟨'i'.toNat, 'I'.toNat⟩), (KEY_J, ⟨'j'.toNat, 'J'.toNat⟩),
    (KEY_K, ⟨'k'.toNat, 'K'.toNat⟩), (KEY_L, ⟨'l'.toNat, 'L'.toNat⟩),
    (KEY_M, ⟨'m'.toNat, 'M'.toNat⟩), (KEY_N, ⟨'n'.toNat, 'N'.toNat⟩),
    (KEY_O, ⟨'o'.toNat, 'O'.toNat⟩), (KEY_P, ⟨'p'.toNat, 'P'.toNat⟩),
    (KEY_Q, ⟨'q'.toNat, 'Q'.toNat⟩), (KEY_R, ⟨'r'.toNat, 'R'.toNat⟩),
    (KEY_S, ⟨'s'.toNat, 'S'.toNat⟩), (KEY_T, ⟨'t'.toNat, 'T'.toNat⟩),
    (KEY_U, ⟨'u'.toNat, 'U'.toNat⟩), (KEY_V, ⟨'v'.toNat, 'V'.toNat⟩),
    (KEY_W, ⟨'w'.toNat, 'W'.toNat⟩), (KEY_X, ⟨'x'.toNat, 'X'.toNat⟩),
    (KEY_Y, ⟨'y'.toNat, 'Y'.toNat⟩), (KEY_Z, ⟨'z'.toNat, 'Z'.toNat⟩),
    (KEY_1, ⟨'1'.toNat, 33⟩), (KEY_2, ⟨'2'.toNat, 64⟩),
    (KEY_3, ⟨'3'.toNat, 35⟩), (KEY_4, ⟨'4'.toNat, 36⟩),
    (KEY_5, ⟨'5'.toNat, 37⟩), (KEY_6, ⟨'6'.toNat, 94⟩),
    (KEY_7, ⟨'7'.toNat, 38⟩), (KEY_8, ⟨'8'.toNat, 42⟩),
    (KEY_9, ⟨'9'.toNat, 40⟩), (KEY_0, ⟨'0'.toNat, 41⟩),
    (KEY_MINUS, ⟨45, 95⟩), (KEY_EQUAL, ⟨61, 43⟩), (KEY_TAB, ⟨9, 0⟩),
    (KEY_LEFTBRACE, ⟨91, 123⟩), (KEY_RIGHTBRACE, ⟨93, 125⟩),
    (KEY_ENTER, ⟨10, 0⟩), (KEY_SEMICOLON, ⟨59, 58⟩),
    (KEY_APOSTROPHE, ⟨34, 39⟩), (KEY_BACKSLASH, ⟨92, 124⟩),
    (KEY_COMMA, ⟨44, 60⟩), (KEY_DOT, ⟨46, 62⟩), (KEY_SLASH, ⟨47, 63⟩),
    (KEY_SPACE, ⟨32, 0⟩),
    (KEY_BACKSPACE, ⟨env.QEMU_KEY_BACKSPACE, 0⟩),
    (KEY_UP, ⟨env.QEMU_KEY_UP, 0⟩), (KEY_DOWN, ⟨env.QEMU_KEY_DOWN, 0⟩),
    (KEY_LEFT, ⟨env.QEMU_KEY_LEFT, 0⟩), (KEY_RIGHT, ⟨env.QEMU_KEY_RIGHT, 0⟩) ]

/-- The entry `keysym_map_en_us[keycode]`. -/
def keysym_map_en_us (env : Env) (keycode : Nat) : KeysymEntry :=
  designated ⟨0, 0⟩ (keysym_init env) keycode

/-! ## Keyboard -/

/-- The function `send_scancode(keycode, up)`. -/
def send_scancode (env : Env) (keycode up : Nat) (s : State) : State :=
  let scancode := scancode_map keycode
  if scancode = 0 then
    emit s [Effect.stderr]
  else
    let s1 :=
      if scancode &&& env.SCANCODE_GREY ≠ 0 then
        emit s [Effect.key_number env.SCANCODE_EMUL0 true]
      else s
    if up ≠ 0 then
      emit s1 [Effect.key_number scancode false]
    else
      emit s1 [Effect.key_number scancode true]

/-- The function `send_keysym(keycode, shift)`. -/
def send_keysym (env : Env) (keycode : Nat) (shift : Bool) (s : State) : State :=
  let e := keysym_map_en_us env keycode
  if shift && e.shifted ≠ 0 then
    emit s [Effect.keysym e.shifted]
  else if e.normal ≠ 0 then
    emit s [Effect.keysym e.normal]
  else
    emit s [Effect.stderr]

/-- One iteration of the loop of `reset_keys`. -/
def reset_keys_step (env : Env) (s : State) (keycode : Nat) : State :=
  if s.key_down keycode then
    let s1 := if env.is_graphic s.trace then send_scancode env keycode 1 s else s
    { s1 with key_down := key_set s1.key_down keycode false }
  else s

/-- The function `reset_keys()`: the loop runs over
`keycode = 0, .., KEY_MAX - 1`. -/
def reset_keys (env : Env) (s : State) : State :=
  (List.range KEY_MAX).foldl (reset_keys_step env) s

/-- The function `fbdev_activate_vt(tty, vtno, wait)`, with its return
value. -/
def fbdev_activate_vt (env : Env) (tty vtno : Int) (wait : Bool) (s : State) :
    State × Int :=
  let s1 := emit s [Effect.ioctl tty IoctlReq.VT_ACTIVATE vtno]
  if env.ioctl_fails s1.trace then
    (emit s1 [Effect.stderr], -1)
  else if wait then
    let s2 := emit s1 [Effect.ioctl tty IoctlReq.VT_WAITACTIVE vtno]
    if env.ioctl_fails s2.trace then
      (emit s2 [Effect.stderr], -1)
    else (s2, 0)
  else (s1, 0)

/-! ## Raw keyboard mode -/

/-- The update `x &= ~mask` of a 32-bit flag word. -/
def clear_bits (x mask : Nat) : Nat :=
  x &&& (0xffffffff ^^^ mask)

/-- The function `start_mediumraw(tty)`. -/
def start_mediumraw (env : Env) (tty : Int) (s : State) : State :=
  if s.tty_mediumraw then s
  else
    let s1 := emit s [Effect.tcgetattr tty]
    let s2 := match env.tcgetattr s1.trace with
      | some a => { s1 with tty_attributes := a }
      | none => s1
    let s3 := emit s2 [Effect.ioctl tty IoctlReq.KDGKBMODE 0]
    let s4 := match env.kdgkbmode s3.trace with
      | some m => { s3 with tty_mode := m }
      | none => s3
    let s5 := emit s4 [Effect.getfl tty]
    let s6 := { s5 with tty_flags := (env.getfl s5.trace % 2 ^ 32).toNat }
    let tattr : Termios :=
      { s6.tty_attributes with
          c_cflag := clear_bits s6.tty_attributes.c_cflag (IXON ||| IXOFF),
          c_lflag := clear_bits s6.tty_attributes.c_lflag (ICANON ||| ECHO ||| ISIG),
          c_iflag := 0, vmin := 1, vtime := 0 }
    let s7 := emit s6 [Effect.tcsetattr tty TCSAFLUSH tattr,
                       Effect.ioctl tty IoctlReq.KDSKBMODE K_MEDIUMRAW,
                       Effect.setfl tty (s6.tty_flags ||| O_NONBLOCK)]
    { s7 with tty_mediumraw := true }

/-- The function `stop_mediumraw(tty)`. -/
def stop_mediumraw (tty : Int) (s : State) : State :=
  if ¬ s.tty_mediumraw then s
  else
    let s1 := emit s [Effect.tcsetattr tty TCSANOW s.tty_attributes,
                      Effect.ioctl tty IoctlReq.KDSKBMODE s.tty_mode,
                      Effect.setfl tty s.tty_flags]
    { s1 with tty_mediumraw := false }

/-! ## Teardown and process exit -/

/-- The part `/* release pixman stuff */` of `fbdev_cleanup`: the dirty
region is finalised and the three images are dropped.  These calls touch
memory of the process only and leave no entry in the trace. -/
def fbdev_cleanup_pixman (s : State) : State :=
  { s with dirty := [], framebuffer := none, sref := false, swork := none }

/-- The block `if (fb_mem != NULL) ..` of `fbdev_cleanup`. -/
def fbdev_cleanup_mem (s : State) : State :=
  if s.fb_mem ≠ 0 then
    { emit s [Effect.munmap s.fb_mem (s.smem_len + s.fb_mem_offset)] with fb_mem := 0 }
  else s

/-- The block `if (fb != -1) ..` of `fbdev_cleanup`. -/
def fbdev_cleanup_fb (env : Env) (s : State) : State :=
  if s.fb ≠ -1 then
    let s1 := emit s [Effect.put_vscreeninfo s.fb s.fb_ovar]
    let s2 := if env.ioctl_fails s1.trace then emit s1 [Effect.stderr] else s1
    { emit s2 [Effect.close s.fb] with fb := -1 }
  else s

/-- The block `if (tty != -1) ..` of `fbdev_cleanup`. -/
def fbdev_cleanup_tty (env : Env) (s : State) : State :=
  if s.tty ≠ -1 then
    let s1 := stop_mediumraw s.tty s
    let s2 := emit s1 [Effect.ioctl s.tty IoctlReq.KDSETMODE s.kd_omode]
    let s3 := if env.ioctl_fails s2.trace then emit s2 [Effect.stderr] else s2
    let s4 := emit s3 [Effect.vt_setmode s.tty s.vt_omode]
    let s5 := if env.ioctl_fails s4.trace then emit s4 [Effect.stderr] else s4
    let s6 := if s.orig_vtno ≠ 0 then
        (fbdev_activate_vt env s.tty s.orig_vtno true s5).1 else s5
    { emit s6 [Effect.set_fd_handler s.tty Handler.null, Effect.close s.tty]
        with tty := -1 }
  else s

/-- The function `fbdev_cleanup()`. -/
def fbdev_cleanup (env : Env) (s : State) : State :=
  fbdev_cleanup_tty env (fbdev_cleanup_fb env (fbdev_cleanup_mem (fbdev_cleanup_pixman s)))

/-- The function `fbdev_exit_notifier`. -/
def fbdev_exit_notifier (env : Env) (s : State) : State :=
  fbdev_cleanup env s

/-- The function `fbdev_display_uninit()`. -/
def fbdev_display_uninit (env : Env) (s : State) : State :=
  if s.dcl = false then s
  else
    let s1 := { emit s [Effect.unregister_listener] with dcl := false }
    let s2 := fbdev_cleanup env s1
    let s3 := { emit s2 [Effect.remove_exit_notifier] with exit_notifier := false }
    uninit_mouse s3

/-- Modelled from the spec: the exit notifiers run at process exit (the
program calls `atexit(qemu_run_exit_notifiers)` when it starts, outside
this file); `exit_notifier` calls `fbdev_exit_notifier` when it is in the
list. -/
def run_exit_notifiers (env : Env) (s : State) : State :=
  if s.exit_notifier then fbdev_exit_notifier env s else s

/-- The call `exit(status)`: the functions registered with `atexit` run,
last registered first, so `fbdev_display_uninit` runs before the exit
notifiers; then the process ends, and nothing of the modelled code runs
after it. -/
def exit_process (env : Env) (status : Int) (s : State) : State :=
  let s1 := emit s [Effect.exit status]
  let s2 := if s1.atexit_uninit then fbdev_display_uninit env s1 else s1
  let s3 := run_exit_notifiers env s2
  { s3 with exited := true }

/-! ## Rendering state kept by the listener callbacks -/

/-- The call `pixman_region_union_rect(&dirty, &dirty, x, y, w, h)`, the
region being kept as the list of the rectangles added to it: a rectangle
without area adds nothing. -/
def region_union_rect (r : List Rect) (x y w h : Int) : List Rect :=
  if 0 < w ∧ 0 < h then r ++ [⟨x, y, w, h⟩] else r

/-- The function `fbdev_cls()`. -/
def fbdev_cls (s : State) : State :=
  emit s [Effect.cls s.fb_mem_offset (s.line_length * s.yres)]

/-- The block `if (resize_screen) ..` of `fbdev_update`. -/
def fbdev_update_resize (s : State) : State :=
  let s0 := { s with resize_screen := 0, cx := 0, cy := 0,
                     cw := s.surface_width, ch := s.surface_height }
  let s1 :=
    if s0.use_scale ≠ 0 then
      let xs : ℚ := to_double ((s0.xres : ℚ) / (s0.cw : ℚ))
      let ys : ℚ := to_double ((s0.yres : ℚ) / (s0.ch : ℚ))
      if xs > ys then
        { s0 with scale := ys,
                  cx := trunc (to_double (to_double
                    ((s0.xres : ℚ) - to_double ((s0.surface_width : ℚ) * ys)) / 2)) }
      else
        { s0 with scale := xs,
                  cy := trunc (to_double (to_double
                    ((s0.yres : ℚ) - to_double ((s0.surface_height : ℚ) * xs)) / 2)) }
    else
      let a := { s0 with scale := 1 }
      let b := if a.surface_width < a.xres then
          { a with cx := ((a.xres - a.surface_width) / 2 : Nat) } else a
      if b.surface_height < b.yres then
        { b with cy := ((b.yres - b.surface_height) / 2 : Nat) } else b
  { s1 with sref := true,
            swork := some ⟨s1.surface_width, s1.surface_height, -s1.cx, -s1.cy,
                           decide (s1.use_scale ≠ 0), to_double (1 / s1.scale)⟩ }

/-- The function `fbdev_update(dcl, x, y, w, h)`. -/
def fbdev_update (x y w h : Int) (s : State) : State :=
  if s.fb_switch_state ≠ FB_ACTIVE then s
  else
    let s1 := if s.resize_screen ≠ 0 then fbdev_update_resize s else s
    let s2 := if s1.redraw_screen ≠ 0 then fbdev_cls { s1 with redraw_screen := 0 } else s1
    let r : Rect := if s1.redraw_screen ≠ 0 then
        ⟨0, 0, s1.surface_width, s1.surface_height⟩ else ⟨x, y, w, h⟩
    let s3 := { s2 with dirty := region_union_rect s2.dirty r.x r.y r.w r.h }
    if s3.ptr_image ∧ s3.mon ≠ 0 ∧ s3.pw ≠ 0 ∧ s3.ph ≠ 0 then
      { s3 with ptr_refresh := s3.ptr_refresh + 1 }
    else s3

/-- The function `fbdev_switch(dcl, new_surface)`. -/
def fbdev_switch (width height : Nat) (s : State) : State :=
  { s with surface_width := width, surface_height := height,
           resize_screen := s.resize_screen + 1,
           redraw_screen := s.redraw_screen + 1 }

/-- The function `fbdev_mouse_set(dcl, x, y, on)`. -/
def fbdev_mouse_set (x y on_ : Int) (s : State) : State :=
  { s with ptr_refresh := s.ptr_refresh + 1, mx := x, my := y, mon := on_ }

/-- The function `fbdev_cursor_define(dcl, cursor)`. -/
def fbdev_cursor_define (cursor : Option Cursor) (s : State) : State :=
  let s1 := { s with ptr_refresh := s.ptr_refresh + 1, ptr_cursor := none,
                     ptr_image := false }
  match cursor with
  | none => s1
  | some c => { s1 with ptr_cursor := some c, ptr_image := true }

/-- A callback through `fbdev_ops`. -/
def dispatch (s : State) (cb : Callback) : State :=
  match cb with
  | Callback.gfx_update x y w h => fbdev_update x y w h s
  | Callback.gfx_switch width height => fbdev_switch width height s
  | Callback.mouse_set x y on_ => fbdev_mouse_set x y on_ s
  | Callback.cursor_define c => fbdev_cursor_define c s

/-! ## The raw keyboard reader -/

/-- The end of the body of the loop of `read_mediumraw`: the key goes to
the guest as a scancode when the console is graphical, and as a keysym on a
press otherwise. -/
def read_mediumraw_send (env : Env) (keycode up : Nat) (shift : Bool) (s : State) :
    State :=
  if env.is_graphic s.trace then send_scancode env keycode up s
  else if up = 0 then send_keysym env keycode shift s
  else s

/-- The body of the loop of `read_mediumraw` after the update of
`key_down`: the modifier flags, the hotkey block `if (ctrl && alt && !up)`
and the sending of the key. -/
def read_mediumraw_hotkeys (env : Env) (keycode up : Nat) (s : State) : State :=
  let alt := s.key_down KEY_LEFTALT || s.key_down KEY_RIGHTALT
  let ctrl := s.key_down KEY_LEFTCTRL || s.key_down KEY_RIGHTCTRL
  let shift := s.key_down KEY_LEFTSHIFT || s.key_down KEY_RIGHTSHIFT
  if ctrl ∧ alt ∧ up = 0 then
    if keycode = KEY_ESC then
      exit_process env 1 (emit s [Effect.stderr])
    else if keycode = KEY_S then
      { s with use_scale := if s.use_scale = 0 then 1 else 0,
               resize_screen := s.resize_screen + 1,
               redraw_screen := s.redraw_screen + 1 }
    else if KEY_F1 ≤ keycode ∧ keycode ≤ KEY_F10 then
      let s2 := (fbdev_activate_vt env s.tty ((keycode : Int) + 1 - KEY_F1) false s).1
      { s2 with key_down := key_set s2.key_down keycode false }
    else if KEY_1 ≤ keycode ∧ keycode ≤ KEY_9 then
      let s2 := emit s [Effect.console_select ((keycode : Int) - KEY_1)]
      let s3 := (env.console_select_cb s2.trace).foldl dispatch s2
      reset_keys env s3
    else read_mediumraw_send env keycode up shift s
  else read_mediumraw_send env keycode up shift s

/-- The body of the loop of `read_mediumraw` from `if (keycode > KEY_MAX)`
on, for the decoded `keycode` and `up = buf[i] & 0x80`. -/
def read_mediumraw_key (env : Env) (keycode up : Nat) (s : State) : State :=
  if keycode > KEY_MAX then s
  else if up ≠ 0 ∧ s.key_down keycode = false then s
  else
    read_mediumraw_hotkeys env keycode up
      { s with key_down := key_set s.key_down keycode (decide (up = 0)) }

/-- The loop `for (i = 0; i < rc; i++)` of `read_mediumraw` from index `i`
on, over the buffer `buf`; `fuel` bounds the number of iterations, and the
loop ends at once when the process has exited. -/
def read_mediumraw_loop (env : Env) (buf : Nat → Nat) (rc : Nat) :
    Nat → Nat → State → State
  | 0, _, s => s
  | fuel + 1, i, s =>
    if s.exited then s
    else if i < rc then
      let up := buf i &&& 0x80
      let keycode := buf i &&& 0x7f
      if keycode = 0 then
        let keycode2 := ((buf (i + 1) &&& 0x7f) <<< 7) ||| (buf (i + 2) &&& 0x7f)
        read_mediumraw_loop env buf rc fuel (i + 2 + 1)
          (read_mediumraw_key env keycode2 up s)
      else
        read_mediumraw_loop env buf rc fuel (i + 1)
          (read_mediumraw_key env keycode up s)
    else s

/-- The function `read_mediumraw`, after `rc = read(tty, buf, sizeof(buf))`
has returned `rc` and left the bytes `buf 0, buf 1, ..` in the buffer. -/
def read_mediumraw (env : Env) (rc : Int) (buf : Nat → Nat) (s : State) : State :=
  if rc = -1 then exit_process env 1 (emit s [Effect.stderr])
  else if rc = 0 then exit_process env 1 (emit s [Effect.stderr])
  else read_mediumraw_loop env buf rc.toNat rc.toNat 0 s

/-- The buffer positions that the loop of `read_mediumraw` reads from index
`i` on, in the order in which it reads them. -/
def read_mediumraw_loop_reads (env : Env) (buf : Nat → Nat) (rc : Nat) :
    Nat → Nat → State → List Nat
  | 0, _, _ => []
  | fuel + 1, i, s =>
    if s.exited then []
    else if i < rc then
      let up := buf i &&& 0x80
      let keycode := buf i &&& 0x7f
      if keycode = 0 then
        let keycode2 := ((buf (i + 1) &&& 0x7f) <<< 7) ||| (buf (i + 2) &&& 0x7f)
        i :: (i + 1) :: (i + 2) ::
          read_mediumraw_loop_reads env buf rc fuel (i + 2 + 1)
            (read_mediumraw_key env keycode2 up s)
      else
        i :: read_mediumraw_loop_reads env buf rc fuel (i + 1)
          (read_mediumraw_key env keycode up s)
    else []

/-- The positions of `buf` that `read_mediumraw` reads after `read` has
returned `rc`. -/
def read_mediumraw_reads (env : Env) (rc : Int) (buf : Nat → Nat) (s : State) :
    List Nat :=
  if rc = -1 then []
  else if rc = 0 then []
  else read_mediumraw_loop_reads env buf rc.toNat rc.toNat 0 s

/-! ## Console switching -/

def SIG_ACQ (env : Env) : Int := env.SIGRTMIN + 6
def SIG_REL (env : Env) : Int := env.SIGRTMIN + 7

/-- The signal handler `fbdev_switch_signal(signal)`. -/
def fbdev_switch_signal (env : Env) (signal : Int) (s : State) : State :=
  let s1 := if signal = SIG_REL env then { s with fb_switch_state := FB_REL_REQ } else s
  if signal = SIG_ACQ env then { s1 with fb_switch_state := FB_ACQ_REQ } else s1

/-- The function `fbdev_switch_release()`. -/
def fbdev_switch_release (s : State) : State :=
  let s1 := stop_mediumraw s.tty s
  let s2 := emit s1 [Effect.ioctl s1.tty IoctlReq.KDSETMODE s1.kd_omode,
                     Effect.ioctl s1.tty IoctlReq.VT_RELDISP 1]
  { s2 with fb_switch_state := FB_INACTIVE }

/-- The function `fbdev_switch_acquire()`. -/
def fbdev_switch_acquire (env : Env) (s : State) : State :=
  let s1 := emit s [Effect.ioctl s.tty IoctlReq.VT_RELDISP VT_ACKACQ]
  let s2 := start_mediumraw env s1.tty s1
  let s3 := reset_keys env s2
  let s4 := emit s3 [Effect.ioctl s3.tty IoctlReq.KDSETMODE KD_GRAPHICS]
  { s4 with fb_switch_state := FB_ACTIVE }

/-- The function `fbdev_switch_init()`; it is left by `exit(1)` when an
`ioctl` fails. -/
def fbdev_switch_init (env : Env) (s : State) : State :=
  let s1 := emit s [Effect.sigaction (SIG_REL env) SigHandler.fbdev_switch_signal,
                    Effect.sigaction (SIG_ACQ env) SigHandler.fbdev_switch_signal,
                    Effect.ioctl s.tty IoctlReq.VT_GETMODE 0]
  if env.ioctl_fails s1.trace then
    exit_process env 1 (emit s1 [Effect.stderr])
  else
    let m := env.vt_getmode s1.trace
    let m1 : VtMode := { m with mode := VT_PROCESS, waitv := 0,
                                relsig := SIG_REL env, acqsig := SIG_ACQ env }
    let s2 := emit { s1 with vt_mode := m1 } [Effect.vt_setmode s1.tty m1]
    if env.ioctl_fails s2.trace then
      exit_process env 1 (emit s2 [Effect.stderr])
    else s2

/-! ## Rendering -/

/-- The function `fbdev_render()`. -/
def fbdev_render (s : State) : State :=
  { emit s [Effect.composite s.swork s.dirty] with dirty := [] }

/-- The function `fbdev_unrender_ptr()`. -/
def fbdev_unrender_ptr (s : State) : State :=
  if s.pw = 0 ∧ s.ph = 0 then s
  else
    { s with dirty := region_union_rect s.dirty s.px s.py s.pw s.ph,
             ph := 0, pw := 0 }

/-- The function `fbdev_render_ptr()`.  `ptr_image` is only ever non-NULL
together with `ptr_cursor`. -/
def fbdev_render_ptr (s : State) : State :=
  if s.mon = 0 ∨ ¬ s.ptr_image then s
  else if s.mx < 0 ∨ s.mx ≥ s.cw ∨ s.my < 0 ∨ s.my ≥ s.ch then s
  else
    match s.ptr_cursor with
    | none => s
    | some c =>
      let s1 := { s with px := s.mx - c.hot_x, py := s.my - c.hot_y,
                         pw := c.width, ph := c.height }
      { emit s1 [Effect.ptr_composite s1.px s1.py s1.pw s1.ph] with ptr_refresh := 0 }

/-- The end of `fbdev_refresh`, from `if (ptr_refresh)` on: the old cursor
rectangle is given back to the dirty region, the dirty region is composited,
the cursor is drawn. -/
def fbdev_refresh_draw (s : State) : State :=
  let s5 := if s.ptr_refresh ≠ 0 then fbdev_unrender_ptr s else s
  let s6 := if s5.dirty ≠ [] then fbdev_render s5 else s5
  if s6.ptr_refresh ≠ 0 then fbdev_render_ptr s6 else s6

/-- The part of `fbdev_refresh` after the `switch` statement. -/
def fbdev_refresh_render (env : Env) (s : State) : State :=
  let s2 := emit s [Effect.hw_update]
  let s3 := (env.hw_update_cb s2.trace).foldl dispatch s2
  let s4 := if s3.redraw_screen ≠ 0 then fbdev_update 0 0 0 0 s3 else s3
  let s5 := if s4.ptr_refresh ≠ 0 then fbdev_unrender_ptr s4 else s4
  let s6 := if s5.dirty ≠ [] then fbdev_render s5 else s5
  if s6.ptr_refresh ≠ 0 then fbdev_render_ptr s6 else s6

/-- The function `fbdev_refresh(dcl)`: the `switch` on `fb_switch_state`
with its fall-throughs, then the rendering part. -/
def fbdev_refresh (env : Env) (s : State) : State :=
  if s.fb_switch_state = FB_REL_REQ then fbdev_switch_release s
  else if s.fb_switch_state = FB_INACTIVE then s
  else if s.fb_switch_state = FB_ACQ_REQ then
    let a := fbdev_switch_acquire env s
    fbdev_refresh_render env { a with redraw_screen := a.redraw_screen + 1 }
  else fbdev_refresh_render env s

/-! ## Start-up -/

/-- The function `pixman_from_framebuffer()`: the image is created over
`(void *)fb_mem`, the start of the mapping. -/
def pixman_from_framebuffer (env : Env) (s : State) : FbImage :=
  { format := env.pixman_format s.bits_per_pixel s.fb_var_pixel,
    width := s.xres, height := s.yres, bits := 0, stride := s.line_length }

/-- The structure `fb_var`. -/
def fb_var_of (s : State) : ScreenVar :=
  ⟨s.xres, s.yres, s.xoffset, s.yoffset, s.bits_per_pixel, s.fb_var_pixel, s.fb_var_other⟩

/-- The assignment of what `ioctl(FBIOGET_VSCREENINFO)` stored to
`fb_var`. -/
def set_fb_var (v : ScreenVar) (s : State) : State :=
  { s with xres := v.xres, yres := v.yres, xoffset := v.xoffset, yoffset := v.yoffset,
           bits_per_pixel := v.bits_per_pixel, fb_var_pixel := v.pixel,
           fb_var_other := v.other }

/-- The assignment of what `ioctl(FBIOGET_FSCREENINFO)` stored to
`fb_fix`. -/
def set_fb_fix (f : ScreenFix) (s : State) : State :=
  { s with smem_start := f.smem_start, smem_len := f.smem_len, fb_type := f.fb_type,
           line_length := f.line_length }

/-- The label `err_early` of `fbdev_init`. -/
def fbdev_init_err_early (s : State) : State × Int :=
  let s1 := if s.tty > 0 then emit s [Effect.close s.tty] else s
  (emit s1 [Effect.close s.fb], -1)

/-- The label `err` of `fbdev_init`. -/
def fbdev_init_err (env : Env) (s : State) : State × Int :=
  (fbdev_cleanup env s, -1)

/-- The end of `fbdev_init`, after the last step that can fail. -/
def fbdev_init_finish (env : Env) (s : State) : State × Int :=
  let s1 := (fbdev_activate_vt env s.tty s.vtno true s).1
  let s2 := fbdev_cls s1
  let s3 := start_mediumraw env s2.tty s2
  let s4 := emit s3 [Effect.set_fd_handler s3.tty Handler.read_mediumraw]
  ({ s4 with framebuffer := some (pixman_from_framebuffer env s4), dirty := [] }, 0)

/-- The steps of `fbdev_init` from `if (ioctl(tty, KDSETMODE, KD_GRAPHICS) < 0)`
on. -/
def fbdev_init_graphics (env : Env) (s : State) : State × Int :=
  let s1 := emit s [Effect.ioctl s.tty IoctlReq.KDSETMODE KD_GRAPHICS]
  if env.ioctl_fails s1.trace then fbdev_init_err env s1
  else fbdev_init_finish env s1

/-- The steps of `fbdev_init` from `/* move viewport to upper left corner */`
on. -/
def fbdev_init_pan (env : Env) (s : State) : State × Int :=
  if s.xoffset ≠ 0 ∨ s.yoffset ≠ 0 then
    let s1 := { s with xoffset := 0, yoffset := 0 }
    let s2 := emit s1 [Effect.pan_display s1.fb (fb_var_of s1)]
    if env.ioctl_fails s2.trace then fbdev_init_err env s2
    else fbdev_init_graphics env s2
  else fbdev_init_graphics env s

/-- The steps of `fbdev_init` from `page_mask = getpagesize()-1` on. -/
def fbdev_init_map (env : Env) (s : State) : State × Int :=
  let off := s.smem_start &&& (env.pagesize - 1)
  let s1 := { s with fb_switch_state := FB_ACTIVE, fb_mem_offset := off }
  let addr := env.mmap_result s1.trace
  let s2 := { emit s1 [Effect.mmap (s1.smem_len + off) s1.fb addr] with fb_mem := addr }
  if addr = MAP_FAILED then fbdev_init_err env s2
  else fbdev_init_pan env s2

/-- The checks of `fb_fix.type` and `fb_var.bits_per_pixel` in `fbdev_init`,
and what follows them. -/
def fbdev_init_check (env : Env) (s : State) : State × Int :=
  if s.fb_type ≠ FB_TYPE_PACKED_PIXELS then fbdev_init_err env s
  else if s.bits_per_pixel ≠ 32 then fbdev_init_err env s
  else fbdev_init_map env s

/-- The steps of `fbdev_init` from `/* checks & initialisation */` on. -/
def fbdev_init_setup (env : Env) (s : State) : State × Int :=
  let s1 := emit s [Effect.ioctl s.fb IoctlReq.FBIOGET_FSCREENINFO 0]
  if env.ioctl_fails s1.trace then fbdev_init_err env (emit s1 [Effect.stderr])
  else
    let s2 := set_fb_fix (env.fscreeninfo s1.trace) s1
    let s3 := emit s2 [Effect.ioctl s2.fb IoctlReq.FBIOGET_VSCREENINFO 0]
    if env.ioctl_fails s3.trace then fbdev_init_err env s3
    else fbdev_init_check env (set_fb_var (env.vscreeninfo s3.trace) s3)

/-- The steps of `fbdev_init` from the first `fbdev_activate_vt` on: the
terminal is activated and the settings to restore are read. -/
def fbdev_init_save (env : Env) (s : State) : State × Int :=
  let s0 := (fbdev_activate_vt env s.tty s.vtno true s).1
  let s1 := emit s0 [Effect.ioctl s0.fb IoctlReq.FBIOGET_VSCREENINFO 0]
  if env.ioctl_fails s1.trace then fbdev_init_err_early s1
  else
    let s2 := { s1 with fb_ovar := env.vscreeninfo s1.trace }
    let s3 := emit s2 [Effect.ioctl s2.tty IoctlReq.KDGETMODE 0]
    if env.ioctl_fails s3.trace then fbdev_init_err_early s3
    else
      let s4 := { s3 with kd_omode := env.kdgetmode s3.trace }
      let s5 := emit s4 [Effect.ioctl s4.tty IoctlReq.VT_GETMODE 0]
      if env.ioctl_fails s5.trace then fbdev_init_err_early s5
      else fbdev_init_setup env { s5 with vt_omode := env.vt_getmode s5.trace }

/-- The branch of `fbdev_init` taken when the process was not started from
a virtual terminal, after `/dev/tty0` has been opened: a free terminal is
asked for and opened. -/
def fbdev_init_newvt (env : Env) (s : State) : State × Int :=
  let s1 := emit s [Effect.ioctl s.tty IoctlReq.VT_OPENQRY 0]
  if env.ioctl_fails s1.trace then fbdev_init_err_early s1
  else
    let s2 := { s1 with vtno := env.vt_openqry s1.trace }
    let s3 := emit s2 [Effect.ioctl s2.tty IoctlReq.VT_GETSTATE 0]
    if env.ioctl_fails s3.trace then fbdev_init_err_early s3
    else
      let active := env.vt_active s3.trace
      let s4 := emit s3 [Effect.close s3.tty]
      let fd := env.open_result s4.trace
      let s5 := { emit s4 [Effect.open (Dev.tty s4.vtno) fd] with tty := fd }
      if fd = -1 then fbdev_init_err_early s5
      else fbdev_init_save env (emit { s5 with orig_vtno := active } [Effect.stderr])

/-- The steps of `fbdev_init` from `/* open virtual console */` on. -/
def fbdev_init_tty (env : Env) (s : State) : State × Int :=
  let s1 := emit { s with tty := 0 } [Effect.ioctl 0 IoctlReq.VT_GETSTATE 0]
  if env.ioctl_fails s1.trace then
    let s2 := emit s1 [Effect.stderr]
    let fd := env.open_result s2.trace
    let s3 := { emit s2 [Effect.open Dev.tty0 fd] with tty := fd }
    if fd = -1 then fbdev_init_err_early s3
    else fbdev_init_newvt env s3
  else
    fbdev_init_save env
      (emit { s1 with orig_vtno := 0, vtno := env.vt_active s1.trace } [Effect.stderr])

/-- The function `fbdev_init(device, err)`, with its return value. -/
def fbdev_init (env : Env) (s : State) : State × Int :=
  let fd := env.open_result s.trace
  let s1 := { emit s [Effect.open Dev.fb fd] with fb := fd }
  if fd = -1 then (s1, -1)
  else fbdev_init_tty env s1

/-- The function `fbdev_catch_exit_signals()`. -/
def fbdev_catch_exit_signals (s : State) : State :=
  emit s [Effect.sigaction SIGQUIT SigHandler.fbdev_catch_fatal_signal,
          Effect.sigaction SIGILL SigHandler.fbdev_catch_fatal_signal,
          Effect.sigaction SIGABRT SigHandler.fbdev_catch_fatal_signal,
          Effect.sigaction SIGFPE SigHandler.fbdev_catch_fatal_signal,
          Effect.sigaction SIGSEGV SigHandler.fbdev_catch_fatal_signal,
          Effect.sigaction SIGBUS SigHandler.fbdev_catch_fatal_signal]

/-- The steps of `fbdev_display_init` after `fbdev_switch_init()` has
returned. -/
def fbdev_display_init_rest (env : Env) (s : State) : State :=
  let s1 := fbdev_catch_exit_signals s
  let s2 := (init_mouse env s1).1
  let s3 := emit { s2 with use_scale := 0, dcl := true } [Effect.register_listener]
  let s4 := (env.register_cb s3.trace).foldl dispatch s3
  { emit s4 [Effect.atexit] with atexit_uninit := true }

/-- The function `fbdev_display_init(ds, o)`. -/
def fbdev_display_init (env : Env) (s : State) : State :=
  if s.dcl then s
  else
    let r := fbdev_init env s
    if r.2 ≠ 0 then exit_process env (-1) r.1
    else
      let s1 := { emit r.1 [Effect.add_exit_notifier] with exit_notifier := true }
      let s2 := fbdev_switch_init env s1
      if s2.exited then s2 else fbdev_display_init_rest env s2

/-! ## A concrete environment and state -/

/-- An environment: a graphical guest console, no listener callbacks, every
device call succeeding, the process started from a virtual terminal. -/
def env0 : Env where
  SCANCODE_GREY := 0x80
  SCANCODE_EMUL0 := 0xe0
  QEMU_KEY_BACKSPACE := 0x7f
  QEMU_KEY_UP := 0xe141
  QEMU_KEY_DOWN := 0xe142
  QEMU_KEY_LEFT := 0xe144
  QEMU_KEY_RIGHT := 0xe143
  SIGRTMIN := 34
  is_graphic := fun _ => true
  is_absolute := fun _ => false
  console_select_cb := fun _ => []
  hw_update_cb := fun _ => []
  ioctl_fails := fun _ => false
  tcgetattr := fun _ => some ⟨0, 0, 0, 0, 0, 0⟩
  kdgkbmode := fun _ => some 1
  getfl := fun _ => 2
  open_result := fun tr => 3 + tr.length
  mmap_result := fun _ => 0x10000
  pagesize := 4096
  vt_active := fun _ => 1
  vt_openqry := fun _ => 2
  kdgetmode := fun _ => 0
  vt_getmode := fun _ => ⟨0, 0, 0, 0, 0⟩
  vscreeninfo := fun _ => ⟨1024, 768, 0, 0, 32, 0, 0⟩
  fscreeninfo := fun _ => ⟨0xe0000000, 4096 * 768, 0, 4096⟩
  register_cb := fun _ => []
  pixman_format := fun _ _ => 0

/-- A state after start-up on a 1024x768 framebuffer showing an 800x600
guest surface: console active, raw keyboard mode on, no key down. -/
def state0 : State where
  tty := 0
  kd_omode := 0
  tty_attributes := ⟨0, 0, 0, 0, 0, 0⟩
  tty_mode := 1
  tty_flags := 2
  tty_mediumraw := true
  key_down := fun _ => false
  fb_switch_state := FB_ACTIVE
  xres := 1024
  yres := 768
  line_length := 4096
  fb_mem_offset := 0
  resize_screen := 0
  redraw_screen := 0
  cx := 112
  cy := 84
  cw := 800
  ch := 600
  surface_width := 800
  surface_height := 600
  sref := true
  swork := some ⟨800, 600, -112, -84, false, 1⟩
  dirty := []
  scale := 1
  ptr_cursor := none
  ptr_image := false
  ptr_refresh := 0
  px := 0
  py := 0
  pw := 0
  ph := 0
  mx := 0
  my := 0
  mon := 0
  use_scale := 0
  prev_b := 0
  ax := 0
  ay := 0
  fb := 3
  mice := 4
  orig_vtno := 0
  vtno := 1
  vt_omode := ⟨0, 0, 0, 0, 0⟩
  vt_mode := ⟨1, 0, 41, 40, 0⟩
  fb_ovar := ⟨1024, 768, 0, 0, 32, 0, 0⟩
  xoffset := 0
  yoffset := 0
  bits_per_pixel := 32
  fb_var_pixel := 0
  fb_var_other := 0
  smem_start := 0xe0000000
  smem_len := 4096 * 768
  fb_type := 0
  fb_mem := 0x10000
  framebuffer := some ⟨0, 1024, 768, 0, 4096⟩
  dcl := true
  atexit_uninit := true
  exit_notifier := true
  trace := []
  exited := false

/-- The buffer holding the bytes of a list, zero beyond them. -/
def buf_of (l : List Nat) : Nat → Nat :=
  fun i => l.getD i 0

/-! ## The byte encoding and the inverse table, as the specification words them -/

/-- A key transition: the key code and whether it is a release. -/
structure KeyEvent where
  keycode : Nat
  release : Bool
deriving DecidableEq

/-- The transitions encoded by a byte sequence: the high bit of a byte is
the release flag and its low 7 bits are the key code; a byte whose low 7
bits are zero takes its code from the low 7 bits of each of the two bytes
that follow it, the first of them being the upper half.  Decoding stops at
an escape that is cut short. -/
def decode_events : List Nat → List KeyEvent
  | [] => []
  | [b] =>
    if b &&& 0x7f ≠ 0 then [⟨b &&& 0x7f, decide (b &&& 0x80 ≠ 0)⟩] else []
  | [b, h] =>
    if b &&& 0x7f ≠ 0 then
      ⟨b &&& 0x7f, decide (b &&& 0x80 ≠ 0)⟩ :: decode_events [h]
    else []
  | b :: h :: l :: rest =>
    if b &&& 0x7f ≠ 0 then
      ⟨b &&& 0x7f, decide (b &&& 0x80 ≠ 0)⟩ :: decode_events (h :: l :: rest)
    else
      ⟨((h &&& 0x7f) <<< 7) ||| (l &&& 0x7f), decide (b &&& 0x80 ≠ 0)⟩ ::
        decode_events rest

/-- A byte sequence is well formed when each escape byte in it is followed
by its two code bytes. -/
def well_formed : List Nat → Bool
  | [] => true
  | [b] => decide (b &&& 0x7f ≠ 0)
  | [b, h] => decide (b &&& 0x7f ≠ 0) && well_formed [h]
  | b :: h :: l :: rest =>
    if b &&& 0x7f ≠ 0 then well_formed (h :: l :: rest) else well_formed rest

/-- The most recent transition of key `k` in a sequence of transitions:
`some true` for a release, `some false` for a press, `none` when the key
does not occur. -/
def last_event : List KeyEvent → Nat → Option Bool
  | [], _ => none
  | ev :: rest, k =>
    match last_event rest k with
    | some r => some r
    | none => if ev.keycode = k then some ev.release else none

/-- The value of `up` that the reader computes for a transition. -/
def up_of (ev : KeyEvent) : Nat :=
  if ev.release then 0x80 else 0

/-- The reader's handling of one transition, unless the process has
exited. -/
def handle_event (env : Env) (s : State) (ev : KeyEvent) : State :=
  if s.exited then s else read_mediumraw_key env ev.keycode (up_of ev) s

/-- The interactions made from state `s` up to the later state `t`. -/
def effects_since (s t : State) : List Effect :=
  t.trace.drop s.trace.length

/-- The interactions by which a hotkey acts on the console or the process:
a request to activate a virtual terminal, a guest console selection, the
end of the process. -/
def is_hotkey_action : Effect → Bool
  | Effect.ioctl _ IoctlReq.VT_ACTIVATE _ => true
  | Effect.console_select _ => true
  | Effect.exit _ => true
  | _ => false

/-- The events handed to the input sink. -/
def is_key_event : Effect → Bool
  | Effect.key_number _ _ => true
  | Effect.keysym _ => true
  | _ => false

/-- The interactions that write to the framebuffer. -/
def is_render : Effect → Bool
  | Effect.cls _ _ => true
  | Effect.composite _ _ => true
  | Effect.ptr_composite _ _ _ _ => true
  | _ => false

/-- The state `t` comes from `s` by interactions that all satisfy `P`. -/
def Emits (P : Effect → Bool) (s t : State) : Prop :=
  ∃ es, t.trace = s.trace ++ es ∧ ∀ e ∈ es, P e = true

/-- The interactions of the teardown: a descriptor is closed, the mapping is
released, a saved mode is written back, a terminal is activated, a handler
or a listener is removed, a diagnostic is written. -/
def is_teardown : Effect → Bool
  | Effect.close _ => true
  | Effect.munmap _ _ => true
  | Effect.put_vscreeninfo _ _ => true
  | Effect.vt_setmode _ _ => true
  | Effect.ioctl _ IoctlReq.KDSETMODE _ => true
  | Effect.ioctl _ IoctlReq.KDSKBMODE _ => true
  | Effect.ioctl _ IoctlReq.VT_ACTIVATE _ => true
  | Effect.ioctl _ IoctlReq.VT_WAITACTIVE _ => true
  | Effect.tcsetattr _ _ _ => true
  | Effect.setfl _ _ => true
  | Effect.set_fd_handler _ Handler.null => true
  | Effect.unregister_listener => true
  | Effect.remove_exit_notifier => true
  | Effect.stderr => true
  | _ => false

/-- The state `t` comes from `s` without a change to the key table, the
console-switch state or the exit flag, the trace only growing. -/
def Quiet (s t : State) : Prop :=
  t.key_down = s.key_down ∧ t.fb_switch_state = s.fb_switch_state ∧
  t.exited = s.exited ∧ ∃ es, t.trace = s.trace ++ es

/-- The inverse table that the specification speaks of; the sources build
none.  It is filled by one pass over all key identifiers, which stores at
the scancode of each mapped key that key. -/
def inverse_table (scancode : Nat) : Option Nat :=
  (List.range KEY_CNT).foldl
    (fun acc k => if scancode_map k ≠ 0 ∧ scancode_map k = scancode then some k else acc)
    none

/-! ## Predicates and concrete inputs for start-up, teardown and drawing -/

/-- The composite of the cursor image onto the framebuffer. -/
def is_ptr_composite : Effect → Bool
  | Effect.ptr_composite _ _ _ _ => true
  | _ => false

/-- The callback `dpy_gfx_update`. -/
def is_gfx_update : Callback → Bool
  | Callback.gfx_update _ _ _ _ => true
  | _ => false

/-- The part of `fbdev_refresh` between the `switch` statement and
`if (ptr_refresh)`: `graphic_hw_update(NULL)` with the callbacks it makes,
then `if (redraw_screen) fbdev_update(..)`. -/
def fbdev_refresh_update (env : Env) (s : State) : State :=
  let s2 := emit s [Effect.hw_update]
  let s3 := (env.hw_update_cb s2.trace).foldl dispatch s2
  if s3.redraw_screen ≠ 0 then fbdev_update 0 0 0 0 s3 else s3

/-- Every interaction but the composite of the cursor image. -/
def not_ptr_composite (e : Effect) : Bool :=
  !is_ptr_composite e

/-- The state `t` comes from `s` with the pointer position, the visibility
flag, the cursor, the surface bounds and the count of pending resizes as
they were, and without a composite of the cursor image. -/
def PtrKept (s t : State) : Prop :=
  t.mx = s.mx ∧ t.my = s.my ∧ t.mon = s.mon ∧ t.cw = s.cw ∧ t.ch = s.ch ∧
  t.ptr_image = s.ptr_image ∧ t.ptr_cursor = s.ptr_cursor ∧
  t.resize_screen = s.resize_screen ∧ Emits not_ptr_composite s t

/-- The calls `open` and `close`. -/
def is_fd_op : Effect → Bool
  | Effect.open _ _ => true
  | Effect.close _ => true
  | _ => false

/-- The descriptors that are open after the interactions `es`, when those of
`T` were open before them: a successful `open` adds its descriptor, a
`close` removes one. -/
def open_fds : List Int → List Effect → List Int
  | T, [] => T
  | T, Effect.open _ fd :: es => open_fds (if fd = -1 then T else fd :: T) es
  | T, Effect.close fd :: es => open_fds (T.erase fd) es
  | T, _ :: es => open_fds T es

/-- The operations by which the teardown gives back what start-up took, in
a state `s` that holds the saved settings: a descriptor is closed, the
mapping is released, the saved framebuffer settings, console mode, terminal
mode, keyboard mode, terminal attributes and file flags are written back,
the terminal `orig_vtno` is activated, the read handler is removed, a
diagnostic is written. -/
def is_rollback (s : State) : Effect → Bool
  | Effect.close _ => true
  | Effect.munmap _ _ => true
  | Effect.put_vscreeninfo _ v => decide (v = s.fb_ovar)
  | Effect.vt_setmode _ m => decide (m = s.vt_omode)
  | Effect.ioctl _ IoctlReq.KDSETMODE a => decide (a = s.kd_omode)
  | Effect.ioctl _ IoctlReq.KDSKBMODE a => decide (a = s.tty_mode)
  | Effect.ioctl _ IoctlReq.VT_ACTIVATE a => decide (a = s.orig_vtno)
  | Effect.ioctl _ IoctlReq.VT_WAITACTIVE a => decide (a = s.orig_vtno)
  | Effect.tcsetattr _ a t => decide (a = TCSANOW ∧ t = s.tty_attributes)
  | Effect.setfl _ f => decide (f = s.tty_flags)
  | Effect.set_fd_handler _ Handler.null => true
  | Effect.stderr => true
  | _ => false

/-- The rollback operations other than `close`: they leave the set of open
descriptors as it is. -/
def is_restore (s : State) (e : Effect) : Bool :=
  is_rollback s e && !is_fd_op e

/-- The `ioctl` calls of `fbdev_init` whose result is tested and followed by
`goto err_early` or `goto err`.  The first `VT_GETSTATE`, made on
descriptor 0, is not among them: its failure selects the branch that opens a
new terminal.  The calls `VT_ACTIVATE` and `VT_WAITACTIVE` of
`fbdev_activate_vt` are not among them: the value that function returns is
not looked at. -/
def checked_ioctl (fd : Int) : IoctlReq → Bool
  | IoctlReq.VT_GETSTATE => decide (fd ≠ 0)
  | IoctlReq.VT_OPENQRY => true
  | IoctlReq.KDGETMODE => true
  | IoctlReq.VT_GETMODE => true
  | IoctlReq.FBIOGET_VSCREENINFO => true
  | IoctlReq.FBIOGET_FSCREENINFO => true
  | IoctlReq.KDSETMODE => true
  | _ => false

/-- Whether the operation `e`, the last one of the trace `tr`, is a step of
`fbdev_init` whose failure the function tests, and failed. -/
def step_failed (env : Env) (tr : List Effect) : Effect → Bool
  | Effect.open _ fd => decide (fd = -1)
  | Effect.mmap _ _ addr => decide (addr = MAP_FAILED)
  | Effect.pan_display _ _ => env.ioctl_fails tr
  | Effect.ioctl fd req _ => env.ioctl_fails tr && checked_ioctl fd req
  | _ => false

/-- The operations that are not a tested step of `fbdev_init`. -/
def never_fails : Effect → Bool
  | Effect.open _ _ => false
  | Effect.mmap _ _ _ => false
  | Effect.pan_display _ _ => false
  | Effect.ioctl fd req _ => !checked_ioctl fd req
  | _ => true

/-- No operation of `es`, made one after the other from the trace `tr` on,
is a tested step that failed. -/
def no_failed_step (env : Env) : List Effect → List Effect → Bool
  | _, [] => true
  | tr, e :: es => !step_failed env (tr ++ [e]) e && no_failed_step env (tr ++ [e]) es

/-- The call `ioctl(fb, FBIOGET_FSCREENINFO, &fb_fix)`, the first step after
which `fbdev_init` leaves by `goto err`. -/
def is_fscreeninfo : Effect → Bool
  | Effect.ioctl _ IoctlReq.FBIOGET_FSCREENINFO _ => true
  | _ => false

/-- The call `ioctl(fb, FBIOGET_VSCREENINFO, ..)`. -/
def is_vscreeninfo : Effect → Bool
  | Effect.ioctl _ IoctlReq.FBIOGET_VSCREENINFO _ => true
  | _ => false

/-- The outcome "success" of a part of `fbdev_init` entered in state `s`:
the value 0, no tested step failed, the framebuffer passed both checks. -/
def InitDone (env : Env) (s : State) (r : State × Int) : Prop :=
  r.2 = 0 ∧ r.1.fb_type = FB_TYPE_PACKED_PIXELS ∧ r.1.bits_per_pixel = 32 ∧
  ∃ es, r.1.trace = s.trace ++ es ∧ no_failed_step env s.trace es = true

/-- The outcome "failure" of a part of `fbdev_init` entered in state `s`
with the descriptors `T` open: the value -1; the trace grew by `pre`, in
which no tested step failed, the step `e` that failed (or the
`FBIOGET_VSCREENINFO` whose answer did not pass the checks) and `post`;
`post` holds rollback operations only; no descriptor is left open; and when
the failure came after `FBIOGET_FSCREENINFO` was reached (`late`, or that
call is in `pre ++ [e]`) and a terminal was displaced, `post` activates that
terminal again. -/
def InitFailed (env : Env) (late : Bool) (T : List Int) (s : State)
    (r : State × Int) : Prop :=
  r.2 = -1 ∧ ∃ pre e post,
    r.1.trace = s.trace ++ (pre ++ e :: post) ∧
    no_failed_step env s.trace pre = true ∧
    (step_failed env (s.trace ++ (pre ++ [e])) e = true ∨
      (is_vscreeninfo e = true ∧ pre.any is_fscreeninfo = true ∧
        (r.1.fb_type ≠ FB_TYPE_PACKED_PIXELS ∨ r.1.bits_per_pixel ≠ 32))) ∧
    (∀ x ∈ post, is_rollback r.1 x = true) ∧
    open_fds T (pre ++ e :: post) = [] ∧
    ((late = true ∨ (pre ++ [e]).any is_fscreeninfo = true) → r.1.orig_vtno ≠ 0 →
      ∃ fd, Effect.ioctl fd IoctlReq.VT_ACTIVATE r.1.orig_vtno ∈ post)

/-- The outcome of a part of `fbdev_init`: success or failure. -/
def InitOutcome (env : Env) (late : Bool) (T : List Int) (s : State)
    (r : State × Int) : Prop :=
  InitDone env s r ∨ InitFailed env late T s r

/-- The descriptors that `fbdev_init` has opened when both devices are set
up: the framebuffer and, unless the process uses its own terminal on
descriptor 0, the terminal. -/
def init_fds (s : State) : List Int :=
  if s.tty > 0 then [s.tty, s.fb] else [s.fb]

/-- The state of the module when the process starts: the three descriptors
are -1, every other variable is zero. -/
def state_boot : State :=
  { state0 with
      tty := -1, fb := -1, mice := -1, kd_omode := 0, tty_mode := 0, tty_flags := 0,
      tty_mediumraw := false, xres := 0, yres := 0, line_length := 0,
      cx := 0, cy := 0, cw := 0, ch := 0, surface_width := 0, surface_height := 0,
      sref := false, swork := none, scale := 0,
      orig_vtno := 0, vtno := 0, vt_mode := ⟨0, 0, 0, 0, 0⟩,
      fb_ovar := ⟨0, 0, 0, 0, 0, 0, 0⟩, bits_per_pixel := 0, smem_start := 0,
      smem_len := 0, fb_mem := 0, framebuffer := none, dcl := false,
      atexit_uninit := false, exit_notifier := false }

/-- Whether the last operation of a trace satisfies `p`. -/
def last_is (p : Effect → Bool) (tr : List Effect) : Bool :=
  match tr.getLast? with
  | some e => p e
  | none => false

/-- The first `ioctl(0, VT_GETSTATE, ..)` of `fbdev_init`. -/
def is_probe : Effect → Bool
  | Effect.ioctl fd IoctlReq.VT_GETSTATE _ => decide (fd = 0)
  | _ => false

/-- The call `ioctl(tty, VT_ACTIVATE, ..)`. -/
def is_vt_activate : Effect → Bool
  | Effect.ioctl _ IoctlReq.VT_ACTIVATE _ => true
  | _ => false

/-- The call `ioctl(tty, KDGETMODE, ..)`. -/
def is_kdgetmode : Effect → Bool
  | Effect.ioctl _ IoctlReq.KDGETMODE _ => true
  | _ => false

/-- An environment in which the process is not started from a virtual
terminal (`VT_GETSTATE` on descriptor 0 fails) and every `VT_ACTIVATE`
fails; every other call succeeds. -/
def env_unchecked : Env :=
  { env0 with ioctl_fails := fun tr => last_is is_probe tr || last_is is_vt_activate tr }

/-- An environment in which the process is not started from a virtual
terminal and `KDGETMODE` fails; every other call succeeds. -/
def env_kdgetmode : Env :=
  { env0 with ioctl_fails := fun tr => last_is is_probe tr || last_is is_kdgetmode tr }

/-- An environment in which the process is not started from a virtual
terminal and `mmap` fails; every other call succeeds. -/
def env_mmap : Env :=
  { env0 with ioctl_fails := fun tr => last_is is_probe tr,
              mmap_result := fun _ => MAP_FAILED }

/-- An environment whose framebuffer memory starts 256 bytes after a page
boundary. -/
def env_unaligned : Env :=
  { env0 with fscreeninfo := fun _ => ⟨0xe0000100, 4096 * 768, 0, 4096⟩ }

/-- The state `state0` with left Ctrl and left Alt marked down. -/
def state_ctrl_alt : State :=
  { state0 with key_down := fun k => decide (k = KEY_LEFTCTRL ∨ k = KEY_LEFTALT) }

/-- The state `state0` with a resize pending. -/
def state_resize : State :=
  { state0 with resize_screen := 1 }

/-- A 640x480 framebuffer and a 58x58 guest surface, scaling on, a resize
pending. -/
def state_scale : State :=
  { state0 with xres := 640, yres := 480, surface_width := 58, surface_height := 58,
                use_scale := 1, resize_screen := 1 }

/-- The state reached from `state0` by `fbdev_cursor_define` with a 16x16
cursor and then `fbdev_mouse_set(-1, 10, 1)`: the cursor is defined and
shown, the pointer lies left of the surface. -/
def state_cursor : State :=
  fbdev_mouse_set (-1) 10 1 (fbdev_cursor_define (some ⟨16, 16, 0, 0⟩) state0)

/-- A read of 32 bytes: 31 releases of a key that is up, then a byte whose
low 7 bits are zero. -/
def buf_escape_last : List Nat :=
  List.replicate 31 0x9e ++ [0x00]

/-! # Theorems -/

/-- Two states with the same value in every variable are equal. -/
@[ext]
theorem state_ext {s t : State}
    (h_tty : s.tty = t.tty)
    (h_kd_omode : s.kd_omode = t.kd_omode)
    (h_tty_attributes : s.tty_attributes = t.tty_attributes)
    (h_tty_mode : s.tty_mode = t.tty_mode)
    (h_tty_flags : s.tty_flags = t.tty_flags)
    (h_tty_mediumraw : s.tty_mediumraw = t.tty_mediumraw)
    (h_key_down : s.key_down = t.key_down)
    (h_fb_switch_state : s.fb_switch_state = t.fb_switch_state)
    (h_xres : s.xres = t.xres)
    (h_yres : s.yres = t.yres)
    (h_line_length : s.line_length = t.line_length)
    (h_fb_mem_offset : s.fb_mem_offset = t.fb_mem_offset)
    (h_resize_screen : s.resize_screen = t.resize_screen)
    (h_redraw_screen : s.redraw_screen = t.redraw_screen)
    (h_cx : s.cx = t.cx)
    (h_cy : s.cy = t.cy)
    (h_cw : s.cw = t.cw)
    (h_ch : s.ch = t.ch)
    (h_surface_width : s.surface_width = t.surface_width)
    (h_surface_height : s.surface_height = t.surface_height)
    (h_sref : s.sref = t.sref)
    (h_swork : s.swork = t.swork)
    (h_dirty : s.dirty = t.dirty)
    (h_scale : s.scale = t.scale)
    (h_ptr_cursor : s.ptr_cursor = t.ptr_cursor)
    (h_ptr_image : s.ptr_image = t.ptr_image)
    (h_ptr_refresh : s.ptr_refresh = t.ptr_refresh)
    (h_px : s.px = t.px)
    (h_py : s.py = t.py)
    (h_pw : s.pw = t.pw)
    (h_ph : s.ph = t.ph)
    (h_mx : s.mx = t.mx)
    (h_my : s.my = t.my)
    (h_mon : s.mon = t.mon)
    (h_use_scale : s.use_scale = t.use_scale)
    (h_prev_b : s.prev_b = t.prev_b)
    (h_ax : s.ax = t.ax)
    (h_ay : s.ay = t.ay)
    (h_fb : s.fb = t.fb)
    (h_mice : s.mice = t.mice)
    (h_orig_vtno : s.orig_vtno = t.orig_vtno)
    (h_vtno : s.vtno = t.vtno)
    (h_vt_omode : s.vt_omode = t.vt_omode)
    (h_vt_mode : s.vt_mode = t.vt_mode)
    (h_fb_ovar : s.fb_ovar = t.fb_ovar)
    (h_xoffset : s.xoffset = t.xoffset)
    (h_yoffset : s.yoffset = t.yoffset)
    (h_bits_per_pixel : s.bits_per_pixel = t.bits_per_pixel)
    (h_fb_var_pixel : s.fb_var_pixel = t.fb_var_pixel)
    (h_fb_var_other : s.fb_var_other = t.fb_var_other)
    (h_smem_start : s.smem_start = t.smem_start)
    (h_smem_len : s.smem_len = t.smem_len)
    (h_fb_type : s.fb_type = t.fb_type)
    (h_fb_mem : s.fb_mem = t.fb_mem)
    (h_framebuffer : s.framebuffer = t.framebuffer)
    (h_dcl : s.dcl = t.dcl)
    (h_atexit_uninit : s.atexit_uninit = t.atexit_uninit)
    (h_exit_notifier : s.exit_notifier = t.exit_notifier)
    (h_trace : s.trace = t.trace)
    (h_exited : s.exited = t.exited) :
    s = t := by
  cases s
  cases t
  simp only [State.mk.injEq]
  exact ⟨
    h_tty, h_kd_omode, h_tty_attributes, h_tty_mode, h_tty_flags, h_tty_mediumraw,
    h_key_down, h_fb_switch_state, h_xres, h_yres, h_line_length, h_fb_mem_offset,
    h_resize_screen, h_redraw_screen, h_cx, h_cy, h_cw, h_ch, h_surface_width,
    h_surface_height, h_sref, h_swork, h_dirty, h_scale, h_ptr_cursor, h_ptr_image,
    h_ptr_refresh, h_px, h_py, h_pw, h_ph, h_mx, h_my, h_mon, h_use_scale, h_prev_b, h_ax,
    h_ay, h_fb, h_mice, h_orig_vtno, h_vtno, h_vt_omode, h_vt_mode, h_fb_ovar, h_xoffset,
    h_yoffset, h_bits_per_pixel, h_fb_var_pixel, h_fb_var_other, h_smem_start, h_smem_len,
    h_fb_type, h_fb_mem, h_framebuffer, h_dcl, h_atexit_uninit, h_exit_notifier, h_trace,
    h_exited⟩

theorem emit_emit (s : State) (a b : List Effect) : emit (emit s a) b = emit s (a ++ b) := by
  simp [emit, List.append_assoc]

theorem emit_nil (s : State) : emit s [] = s := by
  simp [emit]

theorem emits_refl (P : Effect → Bool) (s : State) : Emits P s s :=
  ⟨[], by simp, by simp⟩

theorem emits_trans {P : Effect → Bool} {s t u : State} (h1 : Emits P s t)
    (h2 : Emits P t u) : Emits P s u := by
  obtain ⟨e1, a1, b1⟩ := h1
  obtain ⟨e2, a2, b2⟩ := h2
  refine ⟨e1 ++ e2, by rw [a2, a1, List.append_assoc], ?_⟩
  intro e he
  rcases List.mem_append.mp he with h | h
  · exact b1 e h
  · exact b2 e h

theorem emits_mono {P Q : Effect → Bool} {s t : State} (h : Emits P s t)
    (hpq : ∀ e, P e = true → Q e = true) : Emits Q s t := by
  obtain ⟨es, a, b⟩ := h
  exact ⟨es, a, fun e he => hpq e (b e he)⟩

theorem emits_emit (P : Effect → Bool) (s : State) (es : List Effect)
    (h : ∀ e ∈ es, P e = true) : Emits P s (emit s es) :=
  ⟨es, rfl, h⟩

theorem emits_of_trace {P : Effect → Bool} {s t u : State} (h : Emits P s t)
    (hu : u.trace = t.trace) : Emits P s u := by
  obtain ⟨es, a, b⟩ := h
  exact ⟨es, hu.trans a, b⟩

theorem stop_mediumraw_normal (tty : Int) (s : State) :
    ∃ es, stop_mediumraw tty s = { emit s es with tty_mediumraw := false } ∧
      (∀ e ∈ es, is_teardown e = true) ∧
      (s.tty_mediumraw = true →
        es = [Effect.tcsetattr tty TCSANOW s.tty_attributes,
              Effect.ioctl tty IoctlReq.KDSKBMODE s.tty_mode,
              Effect.setfl tty s.tty_flags]) := by
  unfold stop_mediumraw
  by_cases h : s.tty_mediumraw = true
  · rw [if_neg (by simp [h])]
    refine ⟨_, rfl, ?_, fun _ => rfl⟩
    intro e he
    simp only [List.mem_cons, List.mem_singleton, List.not_mem_nil, or_false] at he
    rcases he with he | he | he <;> subst he <;> rfl
  · rw [if_pos (by simpa using h)]
    refine ⟨[], ?_, by simp, fun h2 => absurd h2 h⟩
    have h' : s.tty_mediumraw = false := by simpa using h
    ext <;> simp [emit, h']

theorem fbdev_activate_vt_normal (env : Env) (tty v : Int) (w : Bool) (s : State) :
    ∃ es, (fbdev_activate_vt env tty v w s).1
        = emit s (Effect.ioctl tty IoctlReq.VT_ACTIVATE v :: es) ∧
      ∀ e ∈ es, is_teardown e = true := by
  unfold fbdev_activate_vt
  dsimp only
  split_ifs
  · exact ⟨[Effect.stderr], by simp [emit], by simp [is_teardown]⟩
  · refine ⟨[Effect.ioctl tty IoctlReq.VT_WAITACTIVE v, Effect.stderr], by simp [emit], ?_⟩
    intro e he
    simp only [List.mem_cons, List.mem_singleton, List.not_mem_nil, or_false] at he
    rcases he with he | he <;> subst he <;> rfl
  · refine ⟨[Effect.ioctl tty IoctlReq.VT_WAITACTIVE v], by simp [emit], ?_⟩
    intro e he
    simp only [List.mem_cons, List.mem_singleton, List.not_mem_nil, or_false] at he
    subst he; rfl
  · exact ⟨[], rfl, by simp⟩

theorem maybe_stderr (c : Prop) [Decidable c] (s : State) :
    ∃ es, (if c then emit s [Effect.stderr] else s) = emit s es ∧
      ∀ e ∈ es, is_teardown e = true := by
  by_cases h : c
  · rw [if_pos h]
    exact ⟨[Effect.stderr], rfl, by simp [is_teardown]⟩
  · rw [if_neg h]
    exact ⟨[], (emit_nil s).symm, by simp⟩

theorem fbdev_cleanup_tty_normal (env : Env) (s : State) (h : s.tty ≠ -1) :
    ∃ es, fbdev_cleanup_tty env s
        = { emit s es with tty := -1, tty_mediumraw := false } ∧
      (∀ e ∈ es, is_teardown e = true) ∧
      Effect.ioctl s.tty IoctlReq.KDSETMODE s.kd_omode ∈ es ∧
      Effect.vt_setmode s.tty s.vt_omode ∈ es ∧
      Effect.close s.tty ∈ es ∧
      (s.orig_vtno ≠ 0 → Effect.ioctl s.tty IoctlReq.VT_ACTIVATE s.orig_vtno ∈ es) ∧
      (s.tty_mediumraw = true →
        Effect.ioctl s.tty IoctlReq.KDSKBMODE s.tty_mode ∈ es) := by
  unfold fbdev_cleanup_tty
  rw [if_pos h]
  dsimp only
  obtain ⟨e1, h1, t1, r1⟩ := stop_mediumraw_normal s.tty s
  rw [h1]
  obtain ⟨e3, h3, t3⟩ := maybe_stderr
    (env.ioctl_fails (emit { emit s e1 with tty_mediumraw := false }
      [Effect.ioctl s.tty IoctlReq.KDSETMODE s.kd_omode]).trace = true)
    (emit { emit s e1 with tty_mediumraw := false }
      [Effect.ioctl s.tty IoctlReq.KDSETMODE s.kd_omode])
  rw [h3]
  obtain ⟨e5, h5, t5⟩ := maybe_stderr
    (env.ioctl_fails (emit (emit (emit { emit s e1 with tty_mediumraw := false }
      [Effect.ioctl s.tty IoctlReq.KDSETMODE s.kd_omode]) e3)
      [Effect.vt_setmode s.tty s.vt_omode]).trace = true)
    (emit (emit (emit { emit s e1 with tty_mediumraw := false }
      [Effect.ioctl s.tty IoctlReq.KDSETMODE s.kd_omode]) e3)
      [Effect.vt_setmode s.tty s.vt_omode])
  rw [h5]
  have hkd : is_teardown (Effect.ioctl s.tty IoctlReq.KDSETMODE s.kd_omode) = true := rfl
  have hvt : is_teardown (Effect.vt_setmode s.tty s.vt_omode) = true := rfl
  have hsf : is_teardown (Effect.set_fd_handler s.tty Handler.null) = true := rfl
  have hcl : is_teardown (Effect.close s.tty) = true := rfl
  by_cases ho : s.orig_vtno ≠ 0
  · rw [if_pos ho]
    obtain ⟨e6, h6, t6⟩ := fbdev_activate_vt_normal env s.tty s.orig_vtno true
      (emit (emit (emit (emit { emit s e1 with tty_mediumraw := false }
        [Effect.ioctl s.tty IoctlReq.KDSETMODE s.kd_omode]) e3)
        [Effect.vt_setmode s.tty s.vt_omode]) e5)
    rw [h6]
    refine ⟨e1 ++ [Effect.ioctl s.tty IoctlReq.KDSETMODE s.kd_omode] ++ e3 ++
        [Effect.vt_setmode s.tty s.vt_omode] ++ e5 ++
        (Effect.ioctl s.tty IoctlReq.VT_ACTIVATE s.orig_vtno :: e6) ++
        [Effect.set_fd_handler s.tty Handler.null, Effect.close s.tty], ?_, ?_, ?_, ?_, ?_, ?_, ?_⟩
    · simp [emit, List.append_assoc]
    · intro e he
      simp only [List.mem_append, List.mem_cons, List.mem_singleton, List.not_mem_nil,
        or_false] at he
      rcases he with (((((he | he) | he) | he) | he) | he | he) | he | he
      · exact t1 e he
      · subst he; exact hkd
      · exact t3 e he
      · subst he; exact hvt
      · exact t5 e he
      · subst he; rfl
      · exact t6 e he
      · subst he; exact hsf
      · subst he; exact hcl
    · simp
    · simp
    · simp
    · intro _; simp
    · intro hr; rw [r1 hr]; simp
  · rw [if_neg ho]
    refine ⟨e1 ++ [Effect.ioctl s.tty IoctlReq.KDSETMODE s.kd_omode] ++ e3 ++
        [Effect.vt_setmode s.tty s.vt_omode] ++ e5 ++
        [Effect.set_fd_handler s.tty Handler.null, Effect.close s.tty], ?_, ?_, ?_, ?_, ?_, ?_, ?_⟩
    · simp [emit, List.append_assoc]
    · intro e he
      simp only [List.mem_append, List.mem_cons, List.mem_singleton, List.not_mem_nil,
        or_false] at he
      rcases he with ((((he | he) | he) | he) | he) | he | he
      · exact t1 e he
      · subst he; exact hkd
      · exact t3 e he
      · subst he; exact hvt
      · exact t5 e he
      · subst he; exact hsf
      · subst he; exact hcl
    · simp
    · simp
    · simp
    · intro h2; exact absurd h2 ho
    · intro hr; rw [r1 hr]; simp

theorem fbdev_cleanup_fb_normal (env : Env) (s : State) (h : s.fb ≠ -1) :
    ∃ es, fbdev_cleanup_fb env s = { emit s es with fb := -1 } ∧
      (∀ e ∈ es, is_teardown e = true) ∧
      Effect.put_vscreeninfo s.fb s.fb_ovar ∈ es ∧
      Effect.close s.fb ∈ es := by
  unfold fbdev_cleanup_fb
  rw [if_pos h]
  dsimp only
  obtain ⟨e2, h2, t2⟩ := maybe_stderr
    (env.ioctl_fails (emit s [Effect.put_vscreeninfo s.fb s.fb_ovar]).trace = true)
    (emit s [Effect.put_vscreeninfo s.fb s.fb_ovar])
  rw [h2]
  refine ⟨[Effect.put_vscreeninfo s.fb s.fb_ovar] ++ e2 ++ [Effect.close s.fb], ?_, ?_, ?_, ?_⟩
  · simp [emit, List.append_assoc]
  · intro e he
    simp only [List.mem_append, List.mem_cons, List.mem_singleton, List.not_mem_nil,
      or_false] at he
    rcases he with (he | he) | he
    · subst he; rfl
    · exact t2 e he
    · subst he; rfl
  · simp
  · simp

theorem fbdev_cleanup_mem_general (s : State) :
    ∃ es, fbdev_cleanup_mem s = { emit s es with fb_mem := 0 } ∧
      (∀ e ∈ es, is_teardown e = true) ∧
      (s.fb_mem = 0 → es = []) ∧
      (s.fb_mem ≠ 0 → Effect.munmap s.fb_mem (s.smem_len + s.fb_mem_offset) ∈ es) := by
  unfold fbdev_cleanup_mem
  by_cases h : s.fb_mem ≠ 0
  · rw [if_pos h]
    refine ⟨_, rfl, ?_, fun h2 => absurd h2 h, fun _ => by simp⟩
    intro e he
    simp only [List.mem_singleton] at he
    subst he; rfl
  · rw [if_neg h]
    have h' : s.fb_mem = 0 := by simpa using h
    refine ⟨[], ?_, by simp, fun _ => rfl, fun h2 => absurd h' h2⟩
    ext <;> simp [emit, h']

theorem fbdev_cleanup_fb_general (env : Env) (s : State) :
    ∃ es, fbdev_cleanup_fb env s = { emit s es with fb := -1 } ∧
      (∀ e ∈ es, is_teardown e = true) ∧
      (s.fb = -1 → es = []) ∧
      (s.fb ≠ -1 → Effect.put_vscreeninfo s.fb s.fb_ovar ∈ es ∧ Effect.close s.fb ∈ es) := by
  by_cases h : s.fb ≠ -1
  · obtain ⟨es, a, b, c, d⟩ := fbdev_cleanup_fb_normal env s h
    exact ⟨es, a, b, fun h2 => absurd h2 h, fun _ => ⟨c, d⟩⟩
  · have h' : s.fb = -1 := by simpa using h
    refine ⟨[], ?_, by simp, fun _ => rfl, fun h2 => absurd h' h2⟩
    unfold fbdev_cleanup_fb
    rw [if_neg h]
    ext <;> simp [emit, h']

theorem fbdev_cleanup_tty_general (env : Env) (s : State) :
    ∃ es, fbdev_cleanup_tty env s
        = { emit s es with tty := -1,
                           tty_mediumraw := if s.tty = -1 then s.tty_mediumraw else false } ∧
      (∀ e ∈ es, is_teardown e = true) ∧
      (s.tty = -1 → es = []) ∧
      (s.tty ≠ -1 →
        Effect.ioctl s.tty IoctlReq.KDSETMODE s.kd_omode ∈ es ∧
        Effect.vt_setmode s.tty s.vt_omode ∈ es ∧
        Effect.close s.tty ∈ es ∧
        (s.orig_vtno ≠ 0 → Effect.ioctl s.tty IoctlReq.VT_ACTIVATE s.orig_vtno ∈ es) ∧
        (s.tty_mediumraw = true →
          Effect.ioctl s.tty IoctlReq.KDSKBMODE s.tty_mode ∈ es)) := by
  by_cases h : s.tty ≠ -1
  · obtain ⟨es, a, b, c⟩ := fbdev_cleanup_tty_normal env s h
    refine ⟨es, ?_, b, fun h2 => absurd h2 h, fun _ => c⟩
    rw [a, if_neg h]
  · have h' : s.tty = -1 := by simpa using h
    refine ⟨[], ?_, by simp, fun _ => rfl, fun h2 => absurd h' h2⟩
    unfold fbdev_cleanup_tty
    rw [if_neg h, if_pos h']
    ext <;> simp [emit, h']

theorem fbdev_cleanup_normal (env : Env) (s : State) :
    ∃ es, fbdev_cleanup env s
        = { emit s es with
              dirty := [], framebuffer := none, sref := false, swork := none,
              fb_mem := 0, fb := -1, tty := -1,
              tty_mediumraw := if s.tty = -1 then s.tty_mediumraw else false } ∧
      (∀ e ∈ es, is_teardown e = true) ∧
      (s.fb_mem = 0 → s.fb = -1 → s.tty = -1 → es = []) ∧
      (s.fb_mem ≠ 0 → Effect.munmap s.fb_mem (s.smem_len + s.fb_mem_offset) ∈ es) ∧
      (s.fb ≠ -1 → Effect.put_vscreeninfo s.fb s.fb_ovar ∈ es ∧ Effect.close s.fb ∈ es) ∧
      (s.tty ≠ -1 →
        Effect.ioctl s.tty IoctlReq.KDSETMODE s.kd_omode ∈ es ∧
        Effect.vt_setmode s.tty s.vt_omode ∈ es ∧
        Effect.close s.tty ∈ es ∧
        (s.orig_vtno ≠ 0 → Effect.ioctl s.tty IoctlReq.VT_ACTIVATE s.orig_vtno ∈ es) ∧
        (s.tty_mediumraw = true →
          Effect.ioctl s.tty IoctlReq.KDSKBMODE s.tty_mode ∈ es)) := by
  unfold fbdev_cleanup
  obtain ⟨em, hm, tm, zm, mm⟩ := fbdev_cleanup_mem_general (fbdev_cleanup_pixman s)
  rw [hm]
  obtain ⟨ef, hf, tf, zf, mf⟩ := fbdev_cleanup_fb_general env
    { emit (fbdev_cleanup_pixman s) em with fb_mem := 0 }
  rw [hf]
  obtain ⟨et, ht, tt, zt, mt⟩ := fbdev_cleanup_tty_general env
    { emit { emit (fbdev_cleanup_pixman s) em with fb_mem := 0 } ef with fb := -1 }
  rw [ht]
  simp only [fbdev_cleanup_pixman, emit] at zm mm zf mf zt mt
  refine ⟨em ++ ef ++ et, ?_, ?_, ?_, ?_, ?_, ?_⟩
  · simp [fbdev_cleanup_pixman, emit, List.append_assoc]
  · intro e he
    simp only [List.mem_append] at he
    rcases he with (he | he) | he
    · exact tm e he
    · exact tf e he
    · exact tt e he
  · intro h1 h2 h3
    rw [zm h1, zf h2, zt h3]
    rfl
  · intro h1
    exact List.mem_append_left _ (List.mem_append_left _ (mm h1))
  · intro h1
    obtain ⟨a, b⟩ := mf h1
    exact ⟨List.mem_append_left _ (List.mem_append_right _ a),
      List.mem_append_left _ (List.mem_append_right _ b)⟩
  · intro h1
    obtain ⟨a, b, c, d, e⟩ := mt h1
    exact ⟨List.mem_append_right _ a, List.mem_append_right _ b, List.mem_append_right _ c,
      fun h => List.mem_append_right _ (d h), fun h => List.mem_append_right _ (e h)⟩

theorem emits_fbdev_cleanup (env : Env) (s : State) :
    Emits is_teardown s (fbdev_cleanup env s) := by
  obtain ⟨es, h, t, _⟩ := fbdev_cleanup_normal env s
  exact ⟨es, by rw [h]; rfl, t⟩

theorem uninit_mouse_general (s : State) :
    ∃ es, uninit_mouse s = { emit s es with mice := -1 } ∧
      ∀ e ∈ es, is_teardown e = true := by
  unfold uninit_mouse
  by_cases h : s.mice = -1
  · rw [if_pos h]
    refine ⟨[], ?_, by simp⟩
    ext <;> simp [emit, h]
  · rw [if_neg h]
    refine ⟨_, rfl, ?_⟩
    intro e he
    simp only [List.mem_cons, List.mem_singleton, List.not_mem_nil, or_false] at he
    rcases he with he | he <;> subst he <;> rfl

theorem fbdev_display_uninit_normal (env : Env) (s : State) (hd : s.dcl = true) :
    ∃ es, fbdev_display_uninit env s
        = { emit s es with
              dcl := false, exit_notifier := false, mice := -1,
              dirty := [], framebuffer := none, sref := false, swork := none,
              fb_mem := 0, fb := -1, tty := -1,
              tty_mediumraw := if s.tty = -1 then s.tty_mediumraw else false } ∧
      (∀ e ∈ es, is_teardown e = true) ∧
      (s.fb_mem ≠ 0 → Effect.munmap s.fb_mem (s.smem_len + s.fb_mem_offset) ∈ es) ∧
      (s.fb ≠ -1 → Effect.put_vscreeninfo s.fb s.fb_ovar ∈ es ∧ Effect.close s.fb ∈ es) ∧
      (s.tty ≠ -1 →
        Effect.ioctl s.tty IoctlReq.KDSETMODE s.kd_omode ∈ es ∧
        Effect.vt_setmode s.tty s.vt_omode ∈ es ∧
        Effect.close s.tty ∈ es ∧
        (s.orig_vtno ≠ 0 → Effect.ioctl s.tty IoctlReq.VT_ACTIVATE s.orig_vtno ∈ es) ∧
        (s.tty_mediumraw = true →
          Effect.ioctl s.tty IoctlReq.KDSKBMODE s.tty_mode ∈ es)) := by
  unfold fbdev_display_uninit
  rw [if_neg (by simp [hd])]
  dsimp only
  obtain ⟨ec, hc, tc, _, mm, mf, mt⟩ := fbdev_cleanup_normal env
    { emit s [Effect.unregister_listener] with dcl := false }
  rw [hc]
  obtain ⟨eu, hu, tu⟩ := uninit_mouse_general
    { emit { emit { emit s [Effect.unregister_listener] with dcl := false } ec with
              dirty := [], framebuffer := none, sref := false, swork := none,
              fb_mem := 0, fb := -1, tty := -1,
              tty_mediumraw := if ({ emit s [Effect.unregister_listener] with
                dcl := false } : State).tty = -1
                then ({ emit s [Effect.unregister_listener] with dcl := false } : State).tty_mediumraw
                else false } [Effect.remove_exit_notifier] with exit_notifier := false }
  rw [hu]
  simp only [emit] at mm mf mt
  refine ⟨[Effect.unregister_listener] ++ ec ++ [Effect.remove_exit_notifier] ++ eu,
    ?_, ?_, ?_, ?_, ?_⟩
  · simp [emit, List.append_assoc]
  · intro e he
    simp only [List.mem_append, List.mem_singleton] at he
    rcases he with ((he | he) | he) | he
    · subst he; rfl
    · exact tc e he
    · subst he; rfl
    · exact tu e he
  · intro h
    have := mm h
    simp only [List.mem_append]
    exact Or.inl (Or.inl (Or.inr this))
  · intro h
    obtain ⟨a, b⟩ := mf h
    simp only [List.mem_append]
    exact ⟨Or.inl (Or.inl (Or.inr a)), Or.inl (Or.inl (Or.inr b))⟩
  · intro h
    obtain ⟨a, b, c, d, e⟩ := mt h
    simp only [List.mem_append]
    exact ⟨Or.inl (Or.inl (Or.inr a)), Or.inl (Or.inl (Or.inr b)), Or.inl (Or.inl (Or.inr c)),
      fun h => Or.inl (Or.inl (Or.inr (d h))), fun h => Or.inl (Or.inl (Or.inr (e h)))⟩

theorem emits_fbdev_display_uninit (env : Env) (s : State) :
    Emits is_teardown s (fbdev_display_uninit env s) := by
  by_cases hd : s.dcl = true
  · obtain ⟨es, h, t, _⟩ := fbdev_display_uninit_normal env s hd
    exact ⟨es, by rw [h]; rfl, t⟩
  · unfold fbdev_display_uninit
    rw [if_pos (by simpa using hd)]
    exact emits_refl _ s

theorem emits_run_exit_notifiers (env : Env) (s : State) :
    Emits is_teardown s (run_exit_notifiers env s) := by
  unfold run_exit_notifiers fbdev_exit_notifier
  split_ifs
  · exact emits_fbdev_cleanup env s
  · exact emits_refl _ s

theorem exit_process_trace (env : Env) (status : Int) (s : State) :
    ∃ es, (exit_process env status s).trace = s.trace ++ Effect.exit status :: es ∧
      ∀ e ∈ es, is_teardown e = true := by
  unfold exit_process
  dsimp only
  have h2 : Emits is_teardown (emit s [Effect.exit status])
      (if (emit s [Effect.exit status]).atexit_uninit = true
        then fbdev_display_uninit env (emit s [Effect.exit status])
        else emit s [Effect.exit status]) := by
    split_ifs
    · exact emits_fbdev_display_uninit env _
    · exact emits_refl _ _
  obtain ⟨es, h, t⟩ := emits_trans h2 (emits_run_exit_notifiers env _)
  refine ⟨es, ?_, t⟩
  rw [h]
  simp [emit]

theorem exit_process_exited (env : Env) (status : Int) (s : State) :
    (exit_process env status s).exited = true := rfl

theorem exit_process_hooks (env : Env) (status : Int) (s : State)
    (hd : s.dcl = true) (ha : s.atexit_uninit = true) :
    ∃ es, exit_process env status s
        = { emit s (Effect.exit status :: es) with
              exited := true,
              dcl := false, exit_notifier := false, mice := -1,
              dirty := [], framebuffer := none, sref := false, swork := none,
              fb_mem := 0, fb := -1, tty := -1,
              tty_mediumraw := if s.tty = -1 then s.tty_mediumraw else false } ∧
      (∀ e ∈ es, is_teardown e = true) ∧
      (s.fb_mem ≠ 0 → Effect.munmap s.fb_mem (s.smem_len + s.fb_mem_offset) ∈ es) ∧
      (s.fb ≠ -1 → Effect.put_vscreeninfo s.fb s.fb_ovar ∈ es ∧ Effect.close s.fb ∈ es) ∧
      (s.tty ≠ -1 →
        Effect.ioctl s.tty IoctlReq.KDSETMODE s.kd_omode ∈ es ∧
        Effect.vt_setmode s.tty s.vt_omode ∈ es ∧
        Effect.close s.tty ∈ es ∧
        (s.orig_vtno ≠ 0 → Effect.ioctl s.tty IoctlReq.VT_ACTIVATE s.orig_vtno ∈ es) ∧
        (s.tty_mediumraw = true →
          Effect.ioctl s.tty IoctlReq.KDSKBMODE s.tty_mode ∈ es)) := by
  obtain ⟨es, h, t, mm, mf, mt⟩ := fbdev_display_uninit_normal env
    (emit s [Effect.exit status]) hd
  refine ⟨es, ?_, t, mm, mf, mt⟩
  unfold exit_process
  dsimp only
  rw [if_pos (show (emit s [Effect.exit status]).atexit_uninit = true from ha), h]
  unfold run_exit_notifiers
  rw [if_neg (by simp)]
  simp [emit]

/-! ## Traces and frames -/

/-- The interactions made since `s` are what was appended to its trace. -/
theorem effects_since_append (s t : State) (es : List Effect)
    (h : t.trace = s.trace ++ es) : effects_since s t = es := by
  unfold effects_since
  rw [h, List.drop_left]

theorem Quiet.refl (s : State) : Quiet s s :=
  ⟨rfl, rfl, rfl, [], by simp⟩

theorem Quiet.trans {s t u : State} (h1 : Quiet s t) (h2 : Quiet t u) : Quiet s u := by
  obtain ⟨a1, b1, c1, e1, d1⟩ := h1
  obtain ⟨a2, b2, c2, e2, d2⟩ := h2
  exact ⟨a2.trans a1, b2.trans b1, c2.trans c1, e1 ++ e2, by rw [d2, d1, List.append_assoc]⟩

theorem quiet_emit (s : State) (es : List Effect) : Quiet s (emit s es) :=
  ⟨rfl, rfl, rfl, es, rfl⟩

theorem quiet_fbdev_update_resize (s : State) : Quiet s (fbdev_update_resize s) := by
  unfold fbdev_update_resize
  refine ⟨?_, ?_, ?_, [], ?_⟩ <;>
  · simp only []
    split_ifs <;> simp

theorem quiet_fbdev_cls (s : State) : Quiet s (fbdev_cls s) :=
  quiet_emit s _

theorem quiet_fbdev_update (x y w h : Int) (s : State) : Quiet s (fbdev_update x y w h s) := by
  unfold fbdev_update
  by_cases ha : s.fb_switch_state ≠ FB_ACTIVE
  · rw [if_pos ha]; exact Quiet.refl s
  · rw [if_neg ha]
    have h1 : Quiet s (if s.resize_screen ≠ 0 then fbdev_update_resize s else s) := by
      split_ifs
      · exact quiet_fbdev_update_resize s
      · exact Quiet.refl s
    dsimp only
    generalize (if s.resize_screen ≠ 0 then fbdev_update_resize s else s) = s1 at h1 ⊢
    have h2 : Quiet s1 (if s1.redraw_screen ≠ 0 then fbdev_cls { s1 with redraw_screen := 0 } else s1) := by
      split_ifs
      · exact Quiet.trans (⟨rfl, rfl, rfl, [], by simp⟩ : Quiet s1 { s1 with redraw_screen := 0 })
          (quiet_fbdev_cls _)
      · exact Quiet.refl s1
    generalize (if s1.redraw_screen ≠ 0 then fbdev_cls { s1 with redraw_screen := 0 } else s1) = s2 at h2 ⊢
    refine Quiet.trans h1 (Quiet.trans h2 ?_)
    split_ifs
    all_goals exact ⟨rfl, rfl, rfl, [], by simp⟩

theorem quiet_dispatch (s : State) (cb : Callback) : Quiet s (dispatch s cb) := by
  cases cb with
  | gfx_update x y w h => exact quiet_fbdev_update x y w h s
  | gfx_switch w h => exact ⟨rfl, rfl, rfl, [], by simp [dispatch, fbdev_switch]⟩
  | mouse_set x y o => exact ⟨rfl, rfl, rfl, [], by simp [dispatch, fbdev_mouse_set]⟩
  | cursor_define c =>
    cases c with
    | none => exact ⟨rfl, rfl, rfl, [], by simp [dispatch, fbdev_cursor_define]⟩
    | some c => exact ⟨rfl, rfl, rfl, [], by simp [dispatch, fbdev_cursor_define]⟩

theorem quiet_foldl_dispatch (cbs : List Callback) (s : State) :
    Quiet s (cbs.foldl dispatch s) := by
  induction cbs generalizing s with
  | nil => exact Quiet.refl s
  | cons cb rest ih => exact Quiet.trans (quiet_dispatch s cb) (ih _)

theorem quiet_send_scancode (env : Env) (k up : Nat) (s : State) :
    Quiet s (send_scancode env k up s) := by
  unfold send_scancode
  dsimp only
  split_ifs
  all_goals first
    | exact quiet_emit _ _
    | exact Quiet.trans (quiet_emit _ _) (quiet_emit _ _)

theorem quiet_send_keysym (env : Env) (k : Nat) (sh : Bool) (s : State) :
    Quiet s (send_keysym env k sh s) := by
  unfold send_keysym
  dsimp only
  split_ifs
  all_goals exact quiet_emit _ _

theorem quiet_start_mediumraw (env : Env) (tty : Int) (s : State) :
    Quiet s (start_mediumraw env tty s) := by
  unfold start_mediumraw
  split_ifs
  · exact Quiet.refl s
  · refine ⟨?_, ?_, ?_, ?_⟩
    · simp only [emit]; split <;> split <;> rfl
    · simp only [emit]; split <;> split <;> rfl
    · simp only [emit]; split <;> split <;> rfl
    · simp only [emit]
      split <;> split <;> exact ⟨_, by simp only [List.append_assoc]; rfl⟩

theorem quiet_stop_mediumraw (tty : Int) (s : State) :
    Quiet s (stop_mediumraw tty s) := by
  unfold stop_mediumraw
  split_ifs
  all_goals first
    | exact Quiet.refl s
    | exact ⟨rfl, rfl, rfl, _, rfl⟩

theorem quiet_fbdev_render (s : State) : Quiet s (fbdev_render s) :=
  ⟨rfl, rfl, rfl, _, rfl⟩

theorem quiet_fbdev_unrender_ptr (s : State) : Quiet s (fbdev_unrender_ptr s) := by
  unfold fbdev_unrender_ptr
  split_ifs
  · exact Quiet.refl s
  · exact ⟨rfl, rfl, rfl, [], by simp⟩

theorem quiet_fbdev_render_ptr (s : State) : Quiet s (fbdev_render_ptr s) := by
  unfold fbdev_render_ptr
  split_ifs
  · exact Quiet.refl s
  · exact Quiet.refl s
  · cases s.ptr_cursor with
    | none => exact Quiet.refl s
    | some c => exact ⟨rfl, rfl, rfl, _, rfl⟩

theorem quiet_fbdev_refresh_render (env : Env) (s : State) :
    Quiet s (fbdev_refresh_render env s) := by
  unfold fbdev_refresh_render
  dsimp only
  have h2 : Quiet s (emit s [Effect.hw_update]) := quiet_emit _ _
  generalize emit s [Effect.hw_update] = s2 at h2 ⊢
  have h3 : Quiet s2 ((env.hw_update_cb s2.trace).foldl dispatch s2) :=
    quiet_foldl_dispatch _ _
  generalize (env.hw_update_cb s2.trace).foldl dispatch s2 = s3 at h3 ⊢
  have h4 : Quiet s3 (if s3.redraw_screen ≠ 0 then fbdev_update 0 0 0 0 s3 else s3) := by
    split_ifs
    · exact quiet_fbdev_update 0 0 0 0 s3
    · exact Quiet.refl s3
  generalize (if s3.redraw_screen ≠ 0 then fbdev_update 0 0 0 0 s3 else s3) = s4 at h4 ⊢
  have h5 : Quiet s4 (if s4.ptr_refresh ≠ 0 then fbdev_unrender_ptr s4 else s4) := by
    split_ifs
    · exact quiet_fbdev_unrender_ptr s4
    · exact Quiet.refl s4
  generalize (if s4.ptr_refresh ≠ 0 then fbdev_unrender_ptr s4 else s4) = s5 at h5 ⊢
  have h6 : Quiet s5 (if s5.dirty ≠ [] then fbdev_render s5 else s5) := by
    split_ifs
    · exact quiet_fbdev_render s5
    · exact Quiet.refl s5
  generalize (if s5.dirty ≠ [] then fbdev_render s5 else s5) = s6 at h6 ⊢
  have h7 : Quiet s6 (if s6.ptr_refresh ≠ 0 then fbdev_render_ptr s6 else s6) := by
    split_ifs
    · exact quiet_fbdev_render_ptr s6
    · exact Quiet.refl s6
  exact Quiet.trans h2 (Quiet.trans h3 (Quiet.trans h4 (Quiet.trans h5 (Quiet.trans h6 h7))))

/-! ## The scancode table -/

/-- An index that no initializer names holds the zero value. -/
theorem designated_absent {α : Type} (zero : α) (init : List (Nat × α)) (k : Nat)
    (h : ∀ p ∈ init, p.1 ≠ k) : designated zero init k = zero := by
  unfold designated
  induction init generalizing zero with
  | nil => rfl
  | cons p rest ih =>
    have hp : p.1 ≠ k := h p (List.mem_cons_self _ _)
    have hr : ∀ q ∈ rest, q.1 ≠ k := fun q hq => h q (List.mem_cons_of_mem _ hq)
    simp only [List.foldl_cons, if_neg hp]
    exact ih zero hr

/-- Every mapped key is below 128. -/
theorem scancode_map_mapped_lt (k : Nat) (h : scancode_map k ≠ 0) : k < 128 := by
  by_contra hk
  apply h
  apply designated_absent
  intro p hp
  have : p.1 < 128 := by
    revert p
    decide
  omega

set_option maxRecDepth 100000 in
/-- Reading the table backwards undoes it on the mapped keys. -/
theorem scancode_inv_left : ∀ k < 128, scancode_map k ≠ 0 → scancode_inv (scancode_map k) = k := by
  decide

theorem scancode_map_inj (k j : Nat) (hk : scancode_map k ≠ 0)
    (h : scancode_map k = scancode_map j) : k = j := by
  have hj : scancode_map j ≠ 0 := h ▸ hk
  have h1 := scancode_inv_left k (scancode_map_mapped_lt k hk) hk
  have h2 := scancode_inv_left j (scancode_map_mapped_lt j hj) hj
  rw [← h1, ← h2, h]

theorem foldl_pick (k : Nat) (l : List Nat) (acc : Option Nat) :
    l.foldl (fun a j => if j = k then some k else a) acc
      = if k ∈ l then some k else acc := by
  induction l generalizing acc with
  | nil => simp
  | cons x rest ih =>
    simp only [List.foldl_cons, ih, List.mem_cons]
    by_cases hx : x = k
    · subst hx; simp
    · have hx2 : ¬ k = x := fun h => hx h.symm
      simp [hx, hx2]

/-- What `send_scancode` hands to the input sink. -/
theorem send_scancode_eq (env : Env) (k up : Nat) (s : State) :
    send_scancode env k up s =
      emit s (if scancode_map k = 0 then [Effect.stderr]
              else (if scancode_map k &&& env.SCANCODE_GREY ≠ 0
                      then [Effect.key_number env.SCANCODE_EMUL0 true] else [])
                   ++ [Effect.key_number (scancode_map k) (decide (up = 0))]) := by
  unfold send_scancode
  by_cases h0 : scancode_map k = 0
  · simp [h0]
  · by_cases hg : scancode_map k &&& env.SCANCODE_GREY = 0 <;>
    by_cases hu : up = 0 <;>
    simp [h0, hg, hu, emit]

theorem send_scancode_effects (env : Env) (k up : Nat) (s : State) :
    ∃ es, (send_scancode env k up s).trace = s.trace ++ es ∧
      ∀ e ∈ es, is_hotkey_action e = false := by
  refine ⟨_, congrArg State.trace (send_scancode_eq env k up s), ?_⟩
  intro e he
  split_ifs at he <;> simp at he <;>
    first
      | (subst he; rfl)
      | (rcases he with he | he <;> subst he <;> rfl)

theorem send_keysym_effects (env : Env) (k : Nat) (sh : Bool) (s : State) :
    ∃ es, (send_keysym env k sh s).trace = s.trace ++ es ∧
      ∀ e ∈ es, is_hotkey_action e = false := by
  unfold send_keysym
  dsimp only
  split_ifs
  all_goals
    refine ⟨_, rfl, ?_⟩
    intro e he
    simp at he
    subst he
    rfl

/-! ## Key release on console changes -/

theorem reset_keys_step_spec (env : Env) (s : State) (n : Nat) :
    (∀ j, (reset_keys_step env s n).key_down j = if j = n then false else s.key_down j) ∧
    (reset_keys_step env s n).fb_switch_state = s.fb_switch_state ∧
    (reset_keys_step env s n).exited = s.exited ∧
    ∃ es, (reset_keys_step env s n).trace = s.trace ++ es := by
  unfold reset_keys_step
  by_cases hd : s.key_down n = true
  · rw [if_pos hd]
    have hq : Quiet s (if env.is_graphic s.trace = true then send_scancode env n 1 s else s) := by
      split_ifs
      · exact quiet_send_scancode env n 1 s
      · exact Quiet.refl s
    dsimp only
    generalize (if env.is_graphic s.trace = true then send_scancode env n 1 s else s) = s1 at hq ⊢
    obtain ⟨a, b, c, d⟩ := hq
    refine ⟨?_, b, c, d⟩
    intro j
    simp only [key_set, a]
  · rw [if_neg hd]
    refine ⟨?_, rfl, rfl, [], by simp⟩
    intro j
    by_cases hj : j = n
    · subst hj
      simpa using hd
    · rw [if_neg hj]

theorem reset_keys_range (env : Env) (n : Nat) (s : State) :
    (∀ j, ((List.range n).foldl (reset_keys_step env) s).key_down j
        = if j < n then false else s.key_down j) ∧
    ((List.range n).foldl (reset_keys_step env) s).fb_switch_state = s.fb_switch_state ∧
    ((List.range n).foldl (reset_keys_step env) s).exited = s.exited ∧
    ∃ es, ((List.range n).foldl (reset_keys_step env) s).trace = s.trace ++ es := by
  induction n with
  | zero => exact ⟨fun j => by simp, rfl, rfl, [], by simp⟩
  | succ n ih =>
    rw [List.range_succ, List.foldl_append]
    simp only [List.foldl_cons, List.foldl_nil]
    obtain ⟨a, b, c, e1, d⟩ := ih
    obtain ⟨a2, b2, c2, e2, d2⟩ :=
      reset_keys_step_spec env ((List.range n).foldl (reset_keys_step env) s) n
    refine ⟨?_, b2.trans b, c2.trans c, e1 ++ e2, by rw [d2, d, List.append_assoc]⟩
    intro j
    rw [a2 j, a j]
    by_cases h1 : j = n
    · subst h1; simp
    · by_cases h2 : j < n
      · have : j < n + 1 := by omega
        simp [h1, h2, this]
      · have : ¬ j < n + 1 := by omega
        simp [h1, h2, this]

/-- After `reset_keys` the keys below `KEY_MAX` are up and the entry of `KEY_MAX` is as before. -/
theorem reset_keys_spec (env : Env) (s : State) :
    (∀ j, (reset_keys env s).key_down j = if j < KEY_MAX then false else s.key_down j) ∧
    (reset_keys env s).fb_switch_state = s.fb_switch_state ∧
    (reset_keys env s).exited = s.exited ∧
    ∃ es, (reset_keys env s).trace = s.trace ++ es := by
  unfold reset_keys
  exact reset_keys_range env KEY_MAX s

theorem fbdev_activate_vt_trace (env : Env) (tty v : Int) (w : Bool) (s : State) :
    ∃ es, (fbdev_activate_vt env tty v w s).1.trace
      = s.trace ++ Effect.ioctl tty IoctlReq.VT_ACTIVATE v :: es := by
  unfold fbdev_activate_vt
  dsimp only
  split_ifs
  all_goals exact ⟨_, by simp only [emit, List.append_assoc, List.singleton_append]; rfl⟩

/-! ## The loop body of the keyboard reader -/

theorem read_mediumraw_key_redundant (env : Env) (k up : Nat) (s : State)
    (hup : up ≠ 0) (hd : s.key_down k = false) : read_mediumraw_key env k up s = s := by
  unfold read_mediumraw_key
  by_cases hk : k > KEY_MAX
  · rw [if_pos hk]
  · rw [if_neg hk, if_pos ⟨hup, hd⟩]

theorem read_mediumraw_send_effects (env : Env) (k up : Nat) (sh : Bool) (s : State) :
    Quiet s (read_mediumraw_send env k up sh s) ∧
    ∃ es, (read_mediumraw_send env k up sh s).trace = s.trace ++ es ∧
      ∀ e ∈ es, is_hotkey_action e = false := by
  unfold read_mediumraw_send
  by_cases hg : env.is_graphic s.trace = true
  · rw [if_pos hg]
    exact ⟨quiet_send_scancode env k up s, send_scancode_effects env k up s⟩
  · rw [if_neg hg]
    by_cases hu : up = 0
    · rw [if_pos hu]
      exact ⟨quiet_send_keysym env k sh s, send_keysym_effects env k sh s⟩
    · rw [if_neg hu]
      exact ⟨Quiet.refl s, [], by simp, by simp⟩

theorem read_mediumraw_hotkeys_table (env : Env) (k up : Nat) (s : State) :
    ∃ es, (read_mediumraw_hotkeys env k up s).trace = s.trace ++ es ∧
      ((∀ e ∈ es, is_hotkey_action e = false) →
        (read_mediumraw_hotkeys env k up s).exited = s.exited ∧
        (read_mediumraw_hotkeys env k up s).key_down = s.key_down) := by
  have hsend : ∀ sh, ∃ es, (read_mediumraw_send env k up sh s).trace = s.trace ++ es ∧
      ((∀ e ∈ es, is_hotkey_action e = false) →
        (read_mediumraw_send env k up sh s).exited = s.exited ∧
        (read_mediumraw_send env k up sh s).key_down = s.key_down) := by
    intro sh
    obtain ⟨⟨a, _, c, _⟩, es, he, _⟩ := read_mediumraw_send_effects env k up sh s
    exact ⟨es, he, fun _ => ⟨c, a⟩⟩
  unfold read_mediumraw_hotkeys
  dsimp only
  split
  · split
    · obtain ⟨es, he, _⟩ := exit_process_trace env 1 (emit s [Effect.stderr])
      refine ⟨Effect.stderr :: Effect.exit 1 :: es, by rw [he]; simp [emit], ?_⟩
      intro h
      have := h (Effect.exit 1) (by simp)
      simp [is_hotkey_action] at this
    · split
      · exact ⟨[], by simp, fun _ => ⟨rfl, rfl⟩⟩
      · split
        · obtain ⟨es, he⟩ := fbdev_activate_vt_trace env s.tty ((k : Int) + 1 - KEY_F1) false s
          refine ⟨_, he, ?_⟩
          intro h
          have := h _ (List.mem_cons_self _ _)
          simp [is_hotkey_action] at this
        · split
          · obtain ⟨_, _, _, e1, h1⟩ := quiet_foldl_dispatch
              (env.console_select_cb (emit s [Effect.console_select ((k : Int) - KEY_1)]).trace)
              (emit s [Effect.console_select ((k : Int) - KEY_1)])
            obtain ⟨_, _, _, e2, h2⟩ := reset_keys_spec env
              ((env.console_select_cb (emit s [Effect.console_select ((k : Int) - KEY_1)]).trace).foldl
                dispatch (emit s [Effect.console_select ((k : Int) - KEY_1)]))
            refine ⟨Effect.console_select ((k : Int) - KEY_1) :: (e1 ++ e2), ?_, ?_⟩
            · rw [h2, h1]
              simp [emit]
            · intro h
              have := h _ (List.mem_cons_self _ _)
              simp [is_hotkey_action] at this
          · exact hsend _
  · exact hsend _

/-- Unless a hotkey acts, one key transition changes the key table at its own key only, to down on a press and to up on a release. -/
theorem read_mediumraw_key_table (env : Env) (k up : Nat) (s : State) :
    ∃ es, (read_mediumraw_key env k up s).trace = s.trace ++ es ∧
      ((∀ e ∈ es, is_hotkey_action e = false) →
        (read_mediumraw_key env k up s).exited = s.exited ∧
        ∀ j, (read_mediumraw_key env k up s).key_down j
          = if j = k ∧ k ≤ KEY_MAX then decide (up = 0) else s.key_down j) := by
  unfold read_mediumraw_key
  by_cases hk : k > KEY_MAX
  · rw [if_pos hk]
    refine ⟨[], by simp, fun _ => ⟨rfl, fun j => ?_⟩⟩
    rw [if_neg (by omega)]
  · rw [if_neg hk]
    by_cases hr : up ≠ 0 ∧ s.key_down k = false
    · rw [if_pos hr]
      refine ⟨[], by simp, fun _ => ⟨rfl, fun j => ?_⟩⟩
      by_cases hj : j = k
      · subst hj
        rw [if_pos ⟨rfl, by omega⟩, hr.2]
        simp [hr.1]
      · rw [if_neg (fun h => hj h.1)]
    · rw [if_neg hr]
      obtain ⟨es, he, hh⟩ := read_mediumraw_hotkeys_table env k up
        { s with key_down := key_set s.key_down k (decide (up = 0)) }
      refine ⟨es, he, fun hfree => ?_⟩
      obtain ⟨h1, h2⟩ := hh hfree
      refine ⟨h1, fun j => ?_⟩
      rw [h2]
      have hle : k ≤ KEY_MAX := by omega
      simp only [key_set, hle, and_true]

theorem read_mediumraw_send_up (env : Env) (k up up2 : Nat) (sh : Bool) (s : State)
    (h0 : up ≠ 0) (h2 : up2 ≠ 0) :
    read_mediumraw_send env k up sh s = read_mediumraw_send env k up2 sh s := by
  have hs : send_scancode env k up s = send_scancode env k up2 s := by
    unfold send_scancode
    simp only [ne_eq, h0, h2, not_false_eq_true, if_true]
  unfold read_mediumraw_send
  rw [hs, if_neg h0, if_neg h2]

theorem read_mediumraw_hotkeys_up (env : Env) (k up up2 : Nat) (s : State)
    (h0 : up ≠ 0) (h2 : up2 ≠ 0) :
    read_mediumraw_hotkeys env k up s = read_mediumraw_hotkeys env k up2 s := by
  unfold read_mediumraw_hotkeys
  dsimp only
  rw [if_neg (fun h => h0 h.2.2), if_neg (fun h => h2 h.2.2)]
  exact read_mediumraw_send_up env k up up2 _ s h0 h2

/-- The loop body looks at `up` only through `up = 0`. -/
theorem read_mediumraw_key_up (env : Env) (k up up2 : Nat) (s : State)
    (h : up = 0 ↔ up2 = 0) : read_mediumraw_key env k up s = read_mediumraw_key env k up2 s := by
  by_cases h0 : up = 0
  · have h2 : up2 = 0 := h.mp h0
    rw [h0, h2]
  · have h2 : ¬ up2 = 0 := fun e => h0 (h.mpr e)
    unfold read_mediumraw_key
    by_cases hk : k > KEY_MAX
    · rw [if_pos hk, if_pos hk]
    · rw [if_neg hk, if_neg hk]
      by_cases hd : s.key_down k = false
      · rw [if_pos ⟨h0, hd⟩, if_pos ⟨h2, hd⟩]
      · rw [if_neg (fun h => hd h.2), if_neg (fun h => hd h.2)]
        have e1 : decide (up = 0) = false := by simp [h0]
        have e2 : decide (up2 = 0) = false := by simp [h2]
        rw [e1, e2]
        exact read_mediumraw_hotkeys_up env k up up2 _ h0 h2

theorem up_of_zero_iff (b : Nat) :
    (b &&& 0x80 = 0 ↔ up_of ⟨k, decide (b &&& 0x80 ≠ 0)⟩ = 0) := by
  unfold up_of
  by_cases h : b &&& 0x80 = 0 <;> simp [h]

theorem up_of_eq_zero (ev : KeyEvent) : decide (up_of ev = 0) = !ev.release := by
  unfold up_of
  cases ev.release <;> simp

/-! ## The reader loop and the decoded transitions -/

theorem decode_events_plain (b : Nat) (rest : List Nat) (hb : b &&& 0x7f ≠ 0) :
    decode_events (b :: rest)
      = ⟨b &&& 0x7f, decide (b &&& 0x80 ≠ 0)⟩ :: decode_events rest := by
  match rest with
  | [] => simp [decode_events, hb]
  | [h] => simp [decode_events, hb]
  | h :: l :: r => simp [decode_events, hb]

theorem well_formed_plain (b : Nat) (rest : List Nat) (hb : b &&& 0x7f ≠ 0) :
    well_formed (b :: rest) = well_formed rest := by
  match rest with
  | [] => simp [well_formed, hb]
  | [h] => simp [well_formed, hb]
  | h :: l :: r => simp [well_formed, hb]

theorem well_formed_escape (b : Nat) (rest : List Nat) (hb : b &&& 0x7f = 0)
    (hw : well_formed (b :: rest) = true) :
    ∃ h l r, rest = h :: l :: r ∧ well_formed r = true := by
  match rest, hw with
  | [], hw => simp [well_formed, hb] at hw
  | [h], hw => simp [well_formed, hb] at hw
  | h :: l :: r, hw =>
    refine ⟨h, l, r, rfl, ?_⟩
    simpa [well_formed, hb] using hw

theorem decode_events_escape (b h l : Nat) (rest : List Nat) (hb : b &&& 0x7f = 0) :
    decode_events (b :: h :: l :: rest)
      = ⟨((h &&& 0x7f) <<< 7) ||| (l &&& 0x7f), decide (b &&& 0x80 ≠ 0)⟩ ::
          decode_events rest := by
  simp [decode_events, hb]

theorem foldl_handle_event_exited (env : Env) (evs : List KeyEvent) (s : State)
    (h : s.exited = true) : evs.foldl (handle_event env) s = s := by
  induction evs with
  | nil => rfl
  | cons ev rest ih =>
    simp only [List.foldl_cons]
    have : handle_event env s ev = s := by
      unfold handle_event
      rw [if_pos h]
    rw [this, ih]

/-- On a well-formed rest of the buffer the loop, given fuel for every byte, handles the decoded transitions one after the other. -/
theorem read_mediumraw_loop_eq (env : Env) (buf : Nat → Nat) :
    ∀ (fuel i : Nat) (l : List Nat) (s : State),
      (∀ j, j < l.length → buf (i + j) = l.getD j 0) →
      well_formed l = true → l.length ≤ fuel →
      read_mediumraw_loop env buf (i + l.length) fuel i s
        = (decode_events l).foldl (handle_event env) s := by
  intro fuel
  induction fuel with
  | zero =>
    intro i l s _ _ hlen
    have : l = [] := List.length_eq_zero.mp (Nat.le_zero.mp hlen)
    subst this
    rfl
  | succ fuel ih =>
    intro i l s hbuf hw hlen
    by_cases hex : s.exited = true
    · rw [foldl_handle_event_exited env _ s hex]
      unfold read_mediumraw_loop
      rw [if_pos hex]
    · match l, hbuf, hw, hlen with
      | [], _, _, _ =>
        unfold read_mediumraw_loop
        rw [if_neg hex, if_neg (by simp)]
        rfl
      | b :: rest, hbuf, hw, hlen =>
        have hb0 : buf i = b := by
          have := hbuf 0 (by simp)
          simpa using this
        have hlt : i < i + (b :: rest).length := by simp
        unfold read_mediumraw_loop
        rw [if_neg hex, if_pos hlt]
        simp only [hb0]
        by_cases hb : b &&& 0x7f = 0
        · obtain ⟨h, l2, r, hrest, hwr⟩ := well_formed_escape b rest hb hw
          subst hrest
          have hb1 : buf (i + 1) = h := by
            have := hbuf 1 (by simp)
            simpa using this
          have hb2 : buf (i + 2) = l2 := by
            have := hbuf 2 (by simp)
            simpa using this
          rw [if_pos hb, hb1, hb2, decode_events_escape b h l2 r hb]
          simp only [List.foldl_cons]
          have hrc : i + (b :: h :: l2 :: r).length = (i + 2 + 1) + r.length := by
            simp only [List.length_cons]; omega
          rw [hrc, ih (i + 2 + 1) r _ ?_ hwr ?_]
          · congr 1
            unfold handle_event
            rw [if_neg hex]
            exact read_mediumraw_key_up env _ _ _ s (up_of_zero_iff b)
          · intro j hj
            have := hbuf (j + 3) (by simp only [List.length_cons]; omega)
            have e : i + 2 + 1 + j = i + (j + 3) := by omega
            rw [e, this]
            simp
          · simp only [List.length_cons] at hlen; omega
        · rw [if_neg hb, decode_events_plain b rest hb]
          simp only [List.foldl_cons]
          have hrc : i + (b :: rest).length = (i + 1) + rest.length := by
            simp only [List.length_cons]; omega
          rw [hrc, ih (i + 1) rest _ ?_ ?_ ?_]
          · congr 1
            unfold handle_event
            rw [if_neg hex]
            exact read_mediumraw_key_up env _ _ _ s (up_of_zero_iff b)
          · intro j hj
            have := hbuf (j + 1) (by simp only [List.length_cons]; omega)
            have e : i + 1 + j = i + (j + 1) := by omega
            rw [e, this]
            simp
          · rw [← well_formed_plain b rest hb]; exact hw
          · simp only [List.length_cons] at hlen; omega

/-- The loop is done once the fuel covers the bytes left: more fuel changes nothing.  `read_mediumraw` starts it at index 0 with `rc` units. -/
theorem read_mediumraw_loop_fuel (env : Env) (buf : Nat → Nat) (rc : Nat) :
    ∀ (fuel i : Nat) (s : State), rc ≤ i + fuel → ∀ extra : Nat,
      read_mediumraw_loop env buf rc (fuel + extra) i s
        = read_mediumraw_loop env buf rc fuel i s := by
  intro fuel
  induction fuel with
  | zero =>
    intro i s h extra
    have hn : ¬ i < rc := by omega
    cases extra with
    | zero => rfl
    | succ e =>
      rw [Nat.zero_add]
      unfold read_mediumraw_loop
      by_cases hex : s.exited = true
      · rw [if_pos hex]
      · rw [if_neg hex, if_neg hn]
  | succ fuel ih =>
    intro i s h extra
    have e : fuel + 1 + extra = (fuel + extra) + 1 := by omega
    rw [e]
    unfold read_mediumraw_loop
    by_cases hex : s.exited = true
    · rw [if_pos hex, if_pos hex]
    · rw [if_neg hex, if_neg hex]
      by_cases hi : i < rc
      · rw [if_pos hi, if_pos hi]
        dsimp only
        by_cases hb : buf i &&& 0x7f = 0
        · rw [if_pos hb, if_pos hb]
          exact ih _ _ (by omega) extra
        · rw [if_neg hb, if_neg hb]
          exact ih _ _ (by omega) extra
      · rw [if_neg hi, if_neg hi]

theorem read_mediumraw_eq_fold (env : Env) (bytes : List Nat) (buf : Nat → Nat) (s : State)
    (hne : bytes ≠ [])
    (hbuf : ∀ j, j < bytes.length → buf j = bytes.getD j 0)
    (hw : well_formed bytes = true) :
    read_mediumraw env bytes.length buf s = (decode_events bytes).foldl (handle_event env) s := by
  have hpos : 0 < bytes.length := List.length_pos.mpr hne
  have h1 : ¬ ((bytes.length : Int) = -1) := by omega
  have h2 : ¬ ((bytes.length : Int) = 0) := by omega
  unfold read_mediumraw
  rw [if_neg h1, if_neg h2, Int.toNat_natCast]
  have := read_mediumraw_loop_eq env buf bytes.length 0 bytes s
    (by intro j hj; rw [Nat.zero_add]; exact hbuf j hj) hw (Nat.le_refl _)
  rw [Nat.zero_add] at this
  exact this

theorem foldl_handle_event_trace (env : Env) (evs : List KeyEvent) (s : State) :
    ∃ es, (evs.foldl (handle_event env) s).trace = s.trace ++ es := by
  induction evs generalizing s with
  | nil => exact ⟨[], by simp⟩
  | cons ev rest ih =>
    simp only [List.foldl_cons]
    obtain ⟨e2, h2⟩ := ih (handle_event env s ev)
    have h1 : ∃ e1, (handle_event env s ev).trace = s.trace ++ e1 := by
      unfold handle_event
      split_ifs
      · exact ⟨[], by simp⟩
      · obtain ⟨es, he, _⟩ := read_mediumraw_key_table env ev.keycode (up_of ev) s
        exact ⟨es, he⟩
    obtain ⟨e1, h1⟩ := h1
    exact ⟨e1 ++ e2, by rw [h2, h1, List.append_assoc]⟩

theorem foldl_handle_event_table (env : Env) (evs : List KeyEvent) (s : State)
    (hex : s.exited = false)
    (hfree : ∀ e ∈ effects_since s (evs.foldl (handle_event env) s), is_hotkey_action e = false)
    (k : Nat) (hk : k ≤ KEY_MAX) :
    (evs.foldl (handle_event env) s).key_down k =
      match last_event evs k with
      | some r => !r
      | none => s.key_down k := by
  induction evs generalizing s with
  | nil => rfl
  | cons ev rest ih =>
    simp only [List.foldl_cons] at hfree ⊢
    have hstep : handle_event env s ev = read_mediumraw_key env ev.keycode (up_of ev) s := by
      unfold handle_event
      rw [if_neg (by simp [hex])]
    obtain ⟨e1, h1, hkey⟩ := read_mediumraw_key_table env ev.keycode (up_of ev) s
    rw [← hstep] at h1 hkey
    obtain ⟨e2, h2⟩ := foldl_handle_event_trace env rest (handle_event env s ev)
    have hall : effects_since s (rest.foldl (handle_event env) (handle_event env s ev))
        = e1 ++ e2 :=
      effects_since_append _ _ _ (by rw [h2, h1, List.append_assoc])
    rw [hall] at hfree
    have hf1 : ∀ e ∈ e1, is_hotkey_action e = false :=
      fun e he => hfree e (List.mem_append_left _ he)
    have hf2 : ∀ e ∈ effects_since (handle_event env s ev)
        (rest.foldl (handle_event env) (handle_event env s ev)), is_hotkey_action e = false := by
      rw [effects_since_append _ _ _ h2]
      exact fun e he => hfree e (List.mem_append_right _ he)
    obtain ⟨hex2, hkd⟩ := hkey hf1
    rw [ih (handle_event env s ev) (hex2.trans hex) hf2, hkd k]
    have hcons : last_event (ev :: rest) k =
        (match last_event rest k with
         | some r => some r
         | none => if ev.keycode = k then some ev.release else none) := rfl
    rw [hcons]
    cases last_event rest k with
    | some r => rfl
    | none =>
      dsimp only
      by_cases he : ev.keycode = k
      · subst he
        rw [if_pos rfl, if_pos ⟨rfl, hk⟩, up_of_eq_zero]
      · rw [if_neg he, if_neg (fun h => he h.1.symm)]

/-! ## Console switching -/

theorem fbdev_switch_acquire_spec (env : Env) (s : State) :
    (fbdev_switch_acquire env s).fb_switch_state = FB_ACTIVE ∧
    ∀ j, (fbdev_switch_acquire env s).key_down j
      = if j < KEY_MAX then false else s.key_down j := by
  unfold fbdev_switch_acquire
  dsimp only
  refine ⟨rfl, fun j => ?_⟩
  obtain ⟨a, _, _, _⟩ := quiet_start_mediumraw env s.tty
    (emit s [Effect.ioctl s.tty IoctlReq.VT_RELDISP VT_ACKACQ])
  obtain ⟨b, _, _, _⟩ := reset_keys_spec env (start_mediumraw env s.tty
    (emit s [Effect.ioctl s.tty IoctlReq.VT_RELDISP VT_ACKACQ]))
  dsimp only [emit] at a b ⊢
  rw [b j, a]

theorem fbdev_refresh_acquire (env : Env) (s : State)
    (h : s.fb_switch_state = FB_ACQ_REQ) :
    (fbdev_refresh env s).fb_switch_state = FB_ACTIVE ∧
    ∀ j, (fbdev_refresh env s).key_down j = if j < KEY_MAX then false else s.key_down j := by
  unfold fbdev_refresh
  rw [if_neg (by rw [h]; decide), if_neg (by rw [h]; decide), if_pos h]
  dsimp only
  obtain ⟨a, b⟩ := fbdev_switch_acquire_spec env s
  obtain ⟨q1, q2, _, _⟩ := quiet_fbdev_refresh_render env
    { fbdev_switch_acquire env s with
        redraw_screen := (fbdev_switch_acquire env s).redraw_screen + 1 }
  dsimp only at q1 q2
  refine ⟨q2.trans a, fun j => ?_⟩
  rw [q1, b j]

theorem fbdev_refresh_release (s : State) (env : Env)
    (h : s.fb_switch_state = FB_REL_REQ) :
    fbdev_refresh env s = fbdev_switch_release s := by
  unfold fbdev_refresh
  rw [if_pos h]

theorem fbdev_switch_release_effects (s : State) :
    ∃ es, (fbdev_switch_release s).trace = s.trace ++ es ∧
      ∀ e ∈ es, is_render e = false := by
  unfold fbdev_switch_release stop_mediumraw
  by_cases hm : s.tty_mediumraw = true
  · refine ⟨[Effect.tcsetattr s.tty TCSANOW s.tty_attributes,
              Effect.ioctl s.tty IoctlReq.KDSKBMODE s.tty_mode,
              Effect.setfl s.tty s.tty_flags,
              Effect.ioctl s.tty IoctlReq.KDSETMODE s.kd_omode,
              Effect.ioctl s.tty IoctlReq.VT_RELDISP 1], ?_, ?_⟩
    · simp [hm, emit]
    · intro e he
      simp only [List.mem_cons, List.mem_singleton, List.not_mem_nil, or_false] at he
      rcases he with he | he | he | he | he <;> subst he <;> rfl
  · refine ⟨[Effect.ioctl s.tty IoctlReq.KDSETMODE s.kd_omode,
              Effect.ioctl s.tty IoctlReq.VT_RELDISP 1], ?_, ?_⟩
    · simp [hm, emit]
    · intro e he
      simp only [List.mem_cons, List.mem_singleton, List.not_mem_nil, or_false] at he
      rcases he with he | he <;> subst he <;> rfl

theorem fbdev_switch_release_dirty (s : State) :
    (fbdev_switch_release s).dirty = s.dirty := by
  unfold fbdev_switch_release stop_mediumraw
  by_cases hm : s.tty_mediumraw = true <;> simp [hm, emit]

/-! ## Mouse -/

/-- The mouse reader drops its input unless the console is active (`if (fb_switch_state != FB_ACTIVE) return;`). -/
theorem read_mouse_gated (env : Env) (rc : Int) (buf : Nat → Int) (s : State)
    (h : s.fb_switch_state ≠ FB_ACTIVE) : read_mouse env rc buf s = s := by
  unfold read_mouse
  split_ifs <;> rfl

/-! ## The claims -/

/-- Claim C1, amended.  Let `read_mediumraw` process a well-formed byte
sequence from a state of a running process, and let no hotkey act during it
(no request to activate a virtual terminal, no guest console selection, no
exit).  Then every key code `k ≤ KEY_MAX` whose most recent transition in the
sequence is a press is marked down, every one whose most recent transition is
a release is marked up, and a key code that does not occur keeps its entry. -/
theorem key_table_tracks_last_event (env : Env) (bytes : List Nat) (buf : Nat → Nat)
    (s : State)
    (hbuf : ∀ j, j < bytes.length → buf j = bytes.getD j 0)
    (hw : well_formed bytes = true)
    (hex : s.exited = false)
    (hfree : ∀ e ∈ effects_since s (read_mediumraw env bytes.length buf s),
      is_hotkey_action e = false)
    (k : Nat) (hk : k ≤ KEY_MAX) :
    (read_mediumraw env bytes.length buf s).key_down k =
      match last_event (decode_events bytes) k with
      | some r => !r
      | none => s.key_down k := by
  by_cases hne : bytes = []
  · exfalso
    subst hne
    obtain ⟨es, he, _⟩ := exit_process_trace env 1 (emit s [Effect.stderr])
    have hrun : read_mediumraw env ([] : List Nat).length buf s
        = exit_process env 1 (emit s [Effect.stderr]) := by
      simp [read_mediumraw]
    have ht : (read_mediumraw env ([] : List Nat).length buf s).trace
        = s.trace ++ Effect.stderr :: Effect.exit 1 :: es := by
      rw [hrun, he]
      simp [emit]
    rw [effects_since_append _ _ _ ht] at hfree
    have := hfree (Effect.exit 1) (by simp)
    simp [is_hotkey_action] at this
  · rw [read_mediumraw_eq_fold env bytes buf s hne hbuf hw] at hfree ⊢
    exact foldl_handle_event_table env _ s hex hfree k hk

set_option maxRecDepth 10000 in
theorem key_table_tracks_last_event_witness :
    well_formed [0x1e, 0x9e, 0x1f] = true ∧
    (read_mediumraw env0 ([0x1e, 0x9e, 0x1f] : List Nat).length
        (buf_of [0x1e, 0x9e, 0x1f]) state0).key_down KEY_A = false ∧
    (read_mediumraw env0 ([0x1e, 0x9e, 0x1f] : List Nat).length
        (buf_of [0x1e, 0x9e, 0x1f]) state0).key_down KEY_S = true :=
  ⟨by decide,
   key_table_tracks_last_event env0 [0x1e, 0x9e, 0x1f] (buf_of [0x1e, 0x9e, 0x1f]) state0
     (fun _ _ => rfl) (by decide) rfl (by decide) KEY_A (by decide),
   key_table_tracks_last_event env0 [0x1e, 0x9e, 0x1f] (buf_of [0x1e, 0x9e, 0x1f]) state0
     (fun _ _ => rfl) (by decide) rfl (by decide) KEY_S (by decide)⟩

set_option maxRecDepth 10000 in
/-- Claim C1 as stated fails: in the well-formed sequence left-Ctrl press,
left-Alt press, F1 press the most recent transition of F1 is a press with no
later release, and yet `read_mediumraw` leaves F1 marked up (the hotkey
branch requests the terminal switch and clears the entry). -/
theorem key_table_hotkey_counterexample :
    well_formed [0x1d, 0x38, 0x3b] = true ∧
    last_event (decode_events [0x1d, 0x38, 0x3b]) KEY_F1 = some false ∧
    (read_mediumraw env0 3 (buf_of [0x1d, 0x38, 0x3b]) state0).key_down KEY_F1 = false := by
  decide

/-- Claim C2.  On a buffer of `rc > 0` bytes that contains each of its escape
sequences in full, `read_mediumraw` is the handling, in order, of the
transitions that `decode_events` reads off the bytes: a byte `b` with non-zero
low 7 bits is the transition of key `b & 0x7f`, a release iff `b & 0x80` is
set; a byte with zero low 7 bits and the bytes `h`, `l` after it are together
one transition of key `((h & 0x7f) << 7) | (l & 0x7f)`, a release iff bit
`0x80` of the first byte is set, and decoding goes on after `l`; and a
transition whose key code is above `KEY_MAX` leaves the whole state, trace
included, as it is. -/
theorem read_mediumraw_decodes (env : Env) (bytes : List Nat) (buf : Nat → Nat)
    (s : State)
    (hne : bytes ≠ [])
    (hbuf : ∀ j, j < bytes.length → buf j = bytes.getD j 0)
    (hw : well_formed bytes = true) :
    read_mediumraw env bytes.length buf s
      = (decode_events bytes).foldl (handle_event env) s ∧
    (∀ b rest, b &&& 0x7f ≠ 0 →
      decode_events (b :: rest)
        = ⟨b &&& 0x7f, decide (b &&& 0x80 ≠ 0)⟩ :: decode_events rest) ∧
    (∀ b h l rest, b &&& 0x7f = 0 →
      decode_events (b :: h :: l :: rest)
        = ⟨((h &&& 0x7f) <<< 7) ||| (l &&& 0x7f), decide (b &&& 0x80 ≠ 0)⟩ ::
            decode_events rest) ∧
    (∀ (ev : KeyEvent) (t : State), KEY_MAX < ev.keycode → handle_event env t ev = t) := by
  refine ⟨read_mediumraw_eq_fold env bytes buf s hne hbuf hw,
    decode_events_plain, decode_events_escape, ?_⟩
  intro ev t hk
  unfold handle_event
  split_ifs
  · rfl
  · unfold read_mediumraw_key
    rw [if_pos hk]

set_option maxRecDepth 10000 in
theorem read_mediumraw_decodes_witness :
    well_formed [0x1e, 0x80, 0x05, 0x7f, 0x9e] = true ∧
    read_mediumraw env0 ([0x1e, 0x80, 0x05, 0x7f, 0x9e] : List Nat).length
        (buf_of [0x1e, 0x80, 0x05, 0x7f, 0x9e]) state0
      = (decode_events [0x1e, 0x80, 0x05, 0x7f, 0x9e]).foldl (handle_event env0) state0 :=
  ⟨by decide,
   (read_mediumraw_decodes env0 [0x1e, 0x80, 0x05, 0x7f, 0x9e]
      (buf_of [0x1e, 0x80, 0x05, 0x7f, 0x9e]) state0 (by decide) (fun _ _ => rfl)
      (by decide)).1⟩

/-- Claim C3.  When key `k` is not marked down, a release of `k` read by
`read_mediumraw`, in the one-byte form or in the escaped three-byte form,
leaves the whole state as it is: the key table is unchanged and the trace
gets no scancode, no keysym and no hotkey action. -/
theorem redundant_release_ignored (env : Env) (s : State) (buf : Nat → Nat) (n : Int)
    (k : Nat)
    (hd : s.key_down k = false) (hup : buf 0 &&& 0x80 ≠ 0)
    (henc : (n = 1 ∧ buf 0 &&& 0x7f = k ∧ k ≠ 0) ∨
            (n = 3 ∧ buf 0 &&& 0x7f = 0 ∧
              ((buf 1 &&& 0x7f) <<< 7) ||| (buf 2 &&& 0x7f) = k)) :
    read_mediumraw env n buf s = s := by
  rcases henc with ⟨hn, hk, hk0⟩ | ⟨hn, hk0, hk⟩
  · subst hn
    have h1 : ¬ ((1 : Int) = -1) := by decide
    have h2 : ¬ ((1 : Int) = 0) := by decide
    unfold read_mediumraw
    rw [if_neg h1, if_neg h2]
    show read_mediumraw_loop env buf 1 1 0 s = s
    unfold read_mediumraw_loop
    by_cases hex : s.exited = true
    · rw [if_pos hex]
    · rw [if_neg hex, if_pos (by decide : (0:Nat) < 1)]
      simp only []
      rw [if_neg (by rw [hk]; exact hk0), hk,
        read_mediumraw_key_redundant env k _ s hup hd]
      rfl
  · subst hn
    have h1 : ¬ ((3 : Int) = -1) := by decide
    have h2 : ¬ ((3 : Int) = 0) := by decide
    unfold read_mediumraw
    rw [if_neg h1, if_neg h2]
    show read_mediumraw_loop env buf 3 3 0 s = s
    unfold read_mediumraw_loop
    by_cases hex : s.exited = true
    · rw [if_pos hex]
    · rw [if_neg hex, if_pos (by decide : (0:Nat) < 3)]
      simp only []
      rw [if_pos hk0]
      simp only [Nat.zero_add]
      rw [hk, read_mediumraw_key_redundant env k _ s hup hd]
      unfold read_mediumraw_loop
      rw [if_neg hex, if_neg (by decide : ¬ (3:Nat) < 3)]

theorem redundant_release_ignored_witness :
    read_mediumraw env0 1 (buf_of [0x9e]) state0 = state0 ∧
    read_mediumraw env0 3 (buf_of [0x80, 0x02, 0x7f]) state0 = state0 :=
  ⟨redundant_release_ignored env0 state0 (buf_of [0x9e]) 1 KEY_A rfl (by decide)
     (Or.inl ⟨rfl, by decide, by decide⟩),
   redundant_release_ignored env0 state0 (buf_of [0x80, 0x02, 0x7f]) 3 0x17f rfl (by decide)
     (Or.inr ⟨rfl, by decide, by decide⟩)⟩

/-- Claim C4.  From switch state ACTIVE the release signal followed by one
refresh poll leaves the switch state INACTIVE, and from INACTIVE the acquire
signal followed by one refresh poll leaves it ACTIVE. -/
theorem vt_switch_state_machine (env : Env) (s t : State)
    (hs : s.fb_switch_state = FB_ACTIVE) (ht : t.fb_switch_state = FB_INACTIVE) :
    (fbdev_refresh env (fbdev_switch_signal env (SIG_REL env) s)).fb_switch_state
      = FB_INACTIVE ∧
    (fbdev_refresh env (fbdev_switch_signal env (SIG_ACQ env) t)).fb_switch_state
      = FB_ACTIVE := by
  have hne : SIG_REL env ≠ SIG_ACQ env := by unfold SIG_REL SIG_ACQ; omega
  constructor
  · have h1 : (fbdev_switch_signal env (SIG_REL env) s).fb_switch_state = FB_REL_REQ := by
      unfold fbdev_switch_signal
      rw [if_pos rfl, if_neg hne]
    rw [fbdev_refresh_release _ env h1]
    rfl
  · have h1 : (fbdev_switch_signal env (SIG_ACQ env) t).fb_switch_state = FB_ACQ_REQ := by
      unfold fbdev_switch_signal
      rw [if_pos rfl]
    exact (fbdev_refresh_acquire env _ h1).1

theorem vt_switch_state_machine_witness :
    (fbdev_refresh env0 (fbdev_switch_signal env0 (SIG_REL env0) state0)).fb_switch_state
      = FB_INACTIVE ∧
    (fbdev_refresh env0 (fbdev_switch_signal env0 (SIG_ACQ env0)
      { state0 with fb_switch_state := FB_INACTIVE })).fb_switch_state = FB_ACTIVE :=
  vt_switch_state_machine env0 state0 { state0 with fb_switch_state := FB_INACTIVE } rfl rfl

/-- Claim C5, evaluated on the code.  The reader accepts the key code `KEY_MAX`
(the escape `0x00 0x05 0x7f`) and marks it down; after the acquire signal and
one refresh poll that key is still marked down, because the loop of
`reset_keys` stops before `KEY_MAX`. -/
theorem key_max_survives_acquire :
    (read_mediumraw env0 3 (buf_of [0x00, 0x05, 0x7f]) state0).key_down KEY_MAX = true ∧
    (fbdev_refresh env0 (fbdev_switch_signal env0 (SIG_ACQ env0)
      (read_mediumraw env0 3 (buf_of [0x00, 0x05, 0x7f]) state0))).key_down KEY_MAX
        = true := by
  have h0 : (read_mediumraw env0 3 (buf_of [0x00, 0x05, 0x7f]) state0).key_down KEY_MAX
      = true := by decide
  refine ⟨h0, ?_⟩
  have h1 : (fbdev_switch_signal env0 (SIG_ACQ env0)
      (read_mediumraw env0 3 (buf_of [0x00, 0x05, 0x7f]) state0)).fb_switch_state
        = FB_ACQ_REQ := by
    unfold fbdev_switch_signal
    rw [if_pos rfl]
  rw [(fbdev_refresh_acquire env0 _ h1).2 KEY_MAX, if_neg (Nat.lt_irrefl _)]
  exact h0

/-- Claim C6.  In a state whose switch state is not ACTIVE `fbdev_update`
changes nothing (no write to the framebuffer, dirty region as before); and a
refresh poll entered in INACTIVE or RELEASE_REQUESTED clears nothing,
composites nothing, draws no cursor and leaves the dirty region as
before. -/
theorem rendering_only_while_active (env : Env) (s t : State) (x y w h : Int)
    (hs : s.fb_switch_state ≠ FB_ACTIVE)
    (ht : t.fb_switch_state = FB_INACTIVE ∨ t.fb_switch_state = FB_REL_REQ) :
    fbdev_update x y w h s = s ∧
    (∀ e ∈ effects_since t (fbdev_refresh env t), is_render e = false) ∧
    (fbdev_refresh env t).dirty = t.dirty := by
  refine ⟨?_, ?_⟩
  · unfold fbdev_update
    rw [if_pos hs]
  · rcases ht with ht | ht
    · have hr : fbdev_refresh env t = t := by
        unfold fbdev_refresh
        rw [if_neg (by rw [ht]; decide), if_pos ht]
      rw [hr]
      refine ⟨?_, rfl⟩
      intro e he
      rw [effects_since_append t t [] (by simp)] at he
      simp at he
    · rw [fbdev_refresh_release t env ht]
      obtain ⟨es, h1, h2⟩ := fbdev_switch_release_effects t
      rw [effects_since_append _ _ _ h1]
      exact ⟨h2, fbdev_switch_release_dirty t⟩

theorem rendering_only_while_active_witness :
    fbdev_update 0 0 800 600 { state0 with fb_switch_state := FB_INACTIVE }
      = { state0 with fb_switch_state := FB_INACTIVE } ∧
    (∀ e ∈ effects_since { state0 with fb_switch_state := FB_REL_REQ }
        (fbdev_refresh env0 { state0 with fb_switch_state := FB_REL_REQ }),
      is_render e = false) ∧
    (fbdev_refresh env0 { state0 with fb_switch_state := FB_REL_REQ }).dirty
      = ({ state0 with fb_switch_state := FB_REL_REQ } : State).dirty :=
  rendering_only_while_active env0 { state0 with fb_switch_state := FB_INACTIVE }
    { state0 with fb_switch_state := FB_REL_REQ } 0 0 800 600 (by decide) (Or.inr rfl)

set_option maxRecDepth 10000 in
/-- Claim C7, evaluated on the code.  After the release signal the switch
state is RELEASE_REQUESTED, not ACTIVE, and `read_mediumraw` reading the byte
`0x1e` still marks key A down and sends its scancode to the guest: the reader
does not look at the switch state. -/
theorem keyboard_decoded_while_release_requested :
    (fbdev_switch_signal env0 (SIG_REL env0) state0).fb_switch_state = FB_REL_REQ ∧
    (read_mediumraw env0 1 (buf_of [0x1e])
      (fbdev_switch_signal env0 (SIG_REL env0) state0)).key_down KEY_A = true ∧
    (read_mediumraw env0 1 (buf_of [0x1e])
      (fbdev_switch_signal env0 (SIG_REL env0) state0)).trace
        = [Effect.key_number 0x1e true] := by
  decide

/-- Claim C8.  The signal handler changes the switch state and nothing else,
the trace of device operations included: the release signal sets
RELEASE_REQUESTED, the acquire signal sets ACQUIRE_REQUESTED, and any other
signal number leaves the state as it is. -/
theorem fbdev_switch_signal_frame (env : Env) (signal : Int) (s : State) :
    fbdev_switch_signal env signal s =
      { s with fb_switch_state :=
          if signal = SIG_REL env then FB_REL_REQ
          else if signal = SIG_ACQ env then FB_ACQ_REQ
          else s.fb_switch_state } := by
  unfold fbdev_switch_signal
  have hne : SIG_REL env ≠ SIG_ACQ env := by unfold SIG_REL SIG_ACQ; omega
  by_cases h1 : signal = SIG_REL env
  · have h2 : ¬ signal = SIG_ACQ env := fun h => hne (h1.symm.trans h)
    simp only [if_pos h1, if_neg h2]
  · by_cases h2 : signal = SIG_ACQ env
    · simp only [if_neg h1, if_pos h2]
    · simp only [if_neg h1, if_neg h2]

/-- Claim C9.  Two key identifiers whose entries in `scancode_map` are non-zero
and equal are the same identifier, and the inverse table built from
`scancode_map` sends the scancode of a mapped key back to that key. -/
theorem scancode_map_injective (k j : Nat) (hk : scancode_map k ≠ 0)
    (h : scancode_map k = scancode_map j) :
    k = j ∧ inverse_table (scancode_map k) = some k := by
  refine ⟨scancode_map_inj k j hk h, ?_⟩
  have hfun : (fun (acc : Option Nat) (i : Nat) =>
        if scancode_map i ≠ 0 ∧ scancode_map i = scancode_map k then some i else acc)
      = (fun acc i => if i = k then some k else acc) := by
    funext acc i
    by_cases hik : i = k
    · subst hik; simp [hk]
    · have : ¬ (scancode_map i ≠ 0 ∧ scancode_map i = scancode_map k) := by
        rintro ⟨h1, h2⟩
        exact hik (scancode_map_inj i k h1 h2)
      rw [if_neg this, if_neg hik]
  unfold inverse_table
  rw [hfun, foldl_pick]
  have hlt : k < KEY_CNT := by
    have := scancode_map_mapped_lt k hk
    unfold KEY_CNT KEY_MAX
    omega
  simp [hlt]

set_option maxRecDepth 10000 in
theorem scancode_map_injective_witness :
    scancode_map KEY_KPENTER ≠ 0 ∧
    inverse_table (scancode_map KEY_KPENTER) = some KEY_KPENTER :=
  ⟨by decide, (scancode_map_injective KEY_KPENTER KEY_KPENTER (by decide) rfl).2⟩

/-- Claim C10.  For a key code `k ≤ KEY_MAX`, `send_scancode` changes the
trace only: for an unmapped key it writes the diagnostic and sends no event;
otherwise it sends `scancode_map[k]`, down iff `up` is zero, preceded by one
`SCANCODE_EMUL0` event exactly when the scancode has the bit
`SCANCODE_GREY`. -/
theorem send_scancode_events (env : Env) (k up : Nat) (s : State) (hk : k ≤ KEY_MAX) :
    send_scancode env k up s =
      emit s (if scancode_map k = 0 then [Effect.stderr]
              else (if scancode_map k &&& env.SCANCODE_GREY ≠ 0
                      then [Effect.key_number env.SCANCODE_EMUL0 true] else [])
                   ++ [Effect.key_number (scancode_map k) (decide (up = 0))]) :=
  send_scancode_eq env k up s

set_option maxRecDepth 10000 in
theorem send_scancode_events_witness :
    send_scancode env0 KEY_UP 0x80 state0
      = emit state0 [Effect.key_number 0xe0 true, Effect.key_number 0xc8 false] ∧
    send_scancode env0 KEY_A 0 state0 = emit state0 [Effect.key_number 0x1e true] ∧
    send_scancode env0 KEY_MAX 0 state0 = emit state0 [Effect.stderr] :=
  ⟨send_scancode_events env0 KEY_UP 0x80 state0 (by decide),
   send_scancode_events env0 KEY_A 0 state0 (by decide),
   send_scancode_events env0 KEY_MAX 0 state0 (by decide)⟩

theorem is_teardown_not_key_event (e : Effect) (h : is_teardown e = true) :
    is_key_event e = false := by
  cases e <;> first | rfl | simp [is_teardown] at h

theorem read_mediumraw_hotkeys_esc (env : Env) (s : State)
    (hctrl : s.key_down KEY_LEFTCTRL = true ∨ s.key_down KEY_RIGHTCTRL = true)
    (halt : s.key_down KEY_LEFTALT = true ∨ s.key_down KEY_RIGHTALT = true) :
    read_mediumraw_hotkeys env KEY_ESC 0 s = exit_process env 1 (emit s [Effect.stderr]) := by
  unfold read_mediumraw_hotkeys
  dsimp only
  rw [if_pos ⟨by simpa using hctrl, by simpa using halt, rfl⟩, if_pos rfl]

theorem read_mediumraw_esc_key (env : Env) (buf : Nat → Nat) (s : State)
    (hex : s.exited = false)
    (hesc : buf 0 &&& 0x7f = KEY_ESC) (hpress : buf 0 &&& 0x80 = 0) :
    read_mediumraw env 1 buf s = read_mediumraw_key env KEY_ESC 0 s := by
  have h1 : ¬ ((1 : Int) = -1) := by decide
  have h2 : ¬ ((1 : Int) = 0) := by decide
  unfold read_mediumraw
  rw [if_neg h1, if_neg h2]
  show read_mediumraw_loop env buf 1 1 0 s = _
  unfold read_mediumraw_loop
  rw [if_neg (by simp [hex]), if_pos (by decide : (0 : Nat) < 1)]
  dsimp only
  rw [hesc, hpress, if_neg (by decide)]
  rfl

/-- Claim C14.  With a Ctrl key and an Alt key marked down, a press of Escape
read by `read_mediumraw` in a session set up by `fbdev_display_init` (the
listener and the `atexit` hook registered, both devices open) sends no key
event to the guest and ends the process with `exit(1)`; the exit hooks run
the teardown before the process ends: the saved framebuffer settings, the
saved keyboard mode, console mode and terminal mode are written back, the
terminal displaced at start-up is activated again, both descriptors are
closed and the mapping is released. -/
theorem ctrl_alt_esc_restores_and_exits (env : Env) (s : State) (buf : Nat → Nat)
    (hex : s.exited = false)
    (hctrl : s.key_down KEY_LEFTCTRL = true ∨ s.key_down KEY_RIGHTCTRL = true)
    (halt : s.key_down KEY_LEFTALT = true ∨ s.key_down KEY_RIGHTALT = true)
    (hesc : buf 0 &&& 0x7f = KEY_ESC) (hpress : buf 0 &&& 0x80 = 0)
    (hdcl : s.dcl = true) (hat : s.atexit_uninit = true)
    (htty : s.tty ≠ -1) (hfb : s.fb ≠ -1) :
    (read_mediumraw env 1 buf s).exited = true ∧
    (∀ e ∈ effects_since s (read_mediumraw env 1 buf s), is_key_event e = false) ∧
    (∃ rest, effects_since s (read_mediumraw env 1 buf s)
        = Effect.stderr :: Effect.exit 1 :: rest ∧
      Effect.put_vscreeninfo s.fb s.fb_ovar ∈ rest ∧
      Effect.ioctl s.tty IoctlReq.KDSETMODE s.kd_omode ∈ rest ∧
      Effect.vt_setmode s.tty s.vt_omode ∈ rest ∧
      (s.tty_mediumraw = true →
        Effect.ioctl s.tty IoctlReq.KDSKBMODE s.tty_mode ∈ rest) ∧
      (s.orig_vtno ≠ 0 → Effect.ioctl s.tty IoctlReq.VT_ACTIVATE s.orig_vtno ∈ rest) ∧
      Effect.close s.fb ∈ rest ∧ Effect.close s.tty ∈ rest) ∧
    (read_mediumraw env 1 buf s).tty = -1 ∧
    (read_mediumraw env 1 buf s).fb = -1 ∧
    (read_mediumraw env 1 buf s).fb_mem = 0 ∧
    (read_mediumraw env 1 buf s).tty_mediumraw = false := by
  have hkey : read_mediumraw env 1 buf s
      = exit_process env 1 (emit { s with key_down := key_set s.key_down KEY_ESC true }
          [Effect.stderr]) := by
    rw [read_mediumraw_esc_key env buf s hex hesc hpress]
    unfold read_mediumraw_key
    rw [if_neg (by decide), if_neg (by simp)]
    have hd : decide ((0 : Nat) = 0) = true := by decide
    rw [hd]
    apply read_mediumraw_hotkeys_esc
    · rcases hctrl with h | h
      · left; simpa [key_set, KEY_LEFTCTRL, KEY_ESC] using h
      · right; simpa [key_set, KEY_RIGHTCTRL, KEY_ESC] using h
    · rcases halt with h | h
      · left; simpa [key_set, KEY_LEFTALT, KEY_ESC] using h
      · right; simpa [key_set, KEY_RIGHTALT, KEY_ESC] using h
  obtain ⟨es, h, t, _, mf, mt⟩ := exit_process_hooks env 1
    (emit { s with key_down := key_set s.key_down KEY_ESC true } [Effect.stderr]) hdcl hat
  rw [hkey, h]
  have htr : effects_since s
      ({ emit (emit { s with key_down := key_set s.key_down KEY_ESC true } [Effect.stderr])
            (Effect.exit 1 :: es) with
          exited := true,
          dcl := false, exit_notifier := false, mice := -1,
          dirty := [], framebuffer := none, sref := false, swork := none,
          fb_mem := 0, fb := -1, tty := -1,
          tty_mediumraw :=
            if (emit { s with key_down := key_set s.key_down KEY_ESC true }
                [Effect.stderr]).tty = -1
            then (emit { s with key_down := key_set s.key_down KEY_ESC true }
                [Effect.stderr]).tty_mediumraw
            else false } : State)
      = Effect.stderr :: Effect.exit 1 :: es :=
    effects_since_append _ _ _ (by simp [emit])
  rw [htr]
  obtain ⟨m1, m2⟩ := mf hfb
  obtain ⟨m3, m4, m5, m6, m7⟩ := mt htty
  refine ⟨rfl, ?_, ⟨es, rfl, m1, m3, m4, m7, m6, m2, m5⟩, rfl, rfl, rfl, ?_⟩
  · intro e he
    simp only [List.mem_cons] at he
    rcases he with he | he | he
    · subst he; rfl
    · subst he; rfl
    · exact is_teardown_not_key_event e (t e he)
  · show (if s.tty = -1 then s.tty_mediumraw else false) = false
    rw [if_neg htty]

/-- Claim C15.  The first run of `fbdev_cleanup` gives back what the session
holds: when the mapping exists it is released with `munmap`, when the
framebuffer is open its saved settings are written back and it is closed,
when the terminal is open the saved console mode and terminal mode are
written back, the saved keyboard mode is written back if raw mode is on, and
the terminal is closed.  It leaves both descriptors at -1, no mapping, no
framebuffer image and raw keyboard mode off (raw mode is only ever on while
a terminal is open).  A second run right after it leaves that state as it is
and calls no device at all.  The call `pixman_region_fini(&dirty)` is made
by both runs; the region is kept here as a list of rectangles, and what the
pixman library does with its storage is outside this model. -/
theorem fbdev_cleanup_idempotent (env : Env) (s : State)
    (hraw : s.tty_mediumraw = true → s.tty ≠ -1) :
    fbdev_cleanup env (fbdev_cleanup env s) = fbdev_cleanup env s ∧
    effects_since (fbdev_cleanup env s) (fbdev_cleanup env (fbdev_cleanup env s)) = [] ∧
    (s.fb_mem ≠ 0 →
      Effect.munmap s.fb_mem (s.smem_len + s.fb_mem_offset)
        ∈ effects_since s (fbdev_cleanup env s)) ∧
    (s.fb ≠ -1 →
      Effect.put_vscreeninfo s.fb s.fb_ovar ∈ effects_since s (fbdev_cleanup env s) ∧
      Effect.close s.fb ∈ effects_since s (fbdev_cleanup env s)) ∧
    (s.tty ≠ -1 →
      Effect.ioctl s.tty IoctlReq.KDSETMODE s.kd_omode
        ∈ effects_since s (fbdev_cleanup env s) ∧
      Effect.vt_setmode s.tty s.vt_omode ∈ effects_since s (fbdev_cleanup env s) ∧
      Effect.close s.tty ∈ effects_since s (fbdev_cleanup env s)) ∧
    (s.tty_mediumraw = true →
      Effect.ioctl s.tty IoctlReq.KDSKBMODE s.tty_mode
        ∈ effects_since s (fbdev_cleanup env s)) ∧
    (∀ e ∈ effects_since s (fbdev_cleanup env s), is_teardown e = true) ∧
    (fbdev_cleanup env s).tty = -1 ∧
    (fbdev_cleanup env s).fb = -1 ∧
    (fbdev_cleanup env s).fb_mem = 0 ∧
    (fbdev_cleanup env s).framebuffer = none ∧
    (fbdev_cleanup env s).tty_mediumraw = false := by
  obtain ⟨es, h, td, _, mm, mf, mt⟩ := fbdev_cleanup_normal env s
  obtain ⟨es2, h2, _, z, _⟩ := fbdev_cleanup_normal env (fbdev_cleanup env s)
  have htty : (fbdev_cleanup env s).tty = -1 := by rw [h]
  have hfb : (fbdev_cleanup env s).fb = -1 := by rw [h]
  have hmem : (fbdev_cleanup env s).fb_mem = 0 := by rw [h]
  have hfr : (fbdev_cleanup env s).framebuffer = none := by rw [h]
  have hd : (fbdev_cleanup env s).dirty = [] := by rw [h]
  have hsr : (fbdev_cleanup env s).sref = false := by rw [h]
  have hsw : (fbdev_cleanup env s).swork = none := by rw [h]
  have hnil : es2 = [] := z hmem hfb htty
  have hsame : fbdev_cleanup env (fbdev_cleanup env s) = fbdev_cleanup env s := by
    rw [h2, hnil, if_pos htty]
    ext <;> simp [emit, htty, hfb, hmem, hfr, hd, hsr, hsw]
  have hes : effects_since s (fbdev_cleanup env s) = es :=
    effects_since_append _ _ _ (by rw [h]; rfl)
  rw [hes]
  refine ⟨hsame, ?_, mm, mf, ?_, ?_, td, htty, hfb, hmem, hfr, ?_⟩
  · rw [hsame]
    simp [effects_since]
  · intro ht
    obtain ⟨a, b, c, _, _⟩ := mt ht
    exact ⟨a, b, c⟩
  · intro hr
    exact (mt (hraw hr)).2.2.2.2 hr
  · rw [h]
    show (if s.tty = -1 then s.tty_mediumraw else false) = false
    by_cases ht : s.tty = -1
    · rw [if_pos ht]
      by_contra hc
      exact hraw (by simpa using hc) ht
    · rw [if_neg ht]

set_option maxRecDepth 100000 in
theorem fbdev_cleanup_idempotent_witness :
    (state0.tty_mediumraw = true → state0.tty ≠ -1) ∧
    effects_since state0 (fbdev_cleanup env0 state0)
      = [Effect.munmap 0x10000 (4096 * 768),
         Effect.put_vscreeninfo 3 ⟨1024, 768, 0, 0, 32, 0, 0⟩,
         Effect.close 3,
         Effect.tcsetattr 0 TCSANOW ⟨0, 0, 0, 0, 0, 0⟩,
         Effect.ioctl 0 IoctlReq.KDSKBMODE 1,
         Effect.setfl 0 2,
         Effect.ioctl 0 IoctlReq.KDSETMODE 0,
         Effect.vt_setmode 0 ⟨0, 0, 0, 0, 0⟩,
         Effect.set_fd_handler 0 Handler.null,
         Effect.close 0] ∧
    fbdev_cleanup env0 (fbdev_cleanup env0 state0) = fbdev_cleanup env0 state0 ∧
    effects_since (fbdev_cleanup env0 state0)
      (fbdev_cleanup env0 (fbdev_cleanup env0 state0)) = [] ∧
    (fbdev_cleanup env0 state0).tty = -1 ∧
    (fbdev_cleanup env0 state0).fb = -1 ∧
    (fbdev_cleanup env0 state0).fb_mem = 0 ∧
    (fbdev_cleanup env0 state0).tty_mediumraw = false :=
  have h := fbdev_cleanup_idempotent env0 state0 (by decide)
  ⟨by decide, by decide, h.1, h.2.1, h.2.2.2.2.2.2.2.1, h.2.2.2.2.2.2.2.2.1,
    h.2.2.2.2.2.2.2.2.2.1, h.2.2.2.2.2.2.2.2.2.2.2⟩

theorem ctrl_alt_esc_restores_and_exits_witness :
    (state_ctrl_alt.key_down KEY_LEFTCTRL = true) ∧
    (buf_of [0x01] 0 &&& 0x7f = KEY_ESC) ∧ (buf_of [0x01] 0 &&& 0x80 = 0) ∧
    (read_mediumraw env0 1 (buf_of [0x01]) state_ctrl_alt).exited = true ∧
    (read_mediumraw env0 1 (buf_of [0x01]) state_ctrl_alt).tty = -1 ∧
    (read_mediumraw env0 1 (buf_of [0x01]) state_ctrl_alt).fb = -1 :=
  have h := ctrl_alt_esc_restores_and_exits env0 state_ctrl_alt
    (buf_of [0x01]) rfl (Or.inl (by decide)) (Or.inl (by decide)) (by decide) (by decide)
    rfl rfl (by decide) (by decide)
  ⟨by decide, by decide, by decide, h.1, h.2.2.2.1, h.2.2.2.2.1⟩

/-- The steps of `fbdev_update` after the resize block leave the geometry
as the resize block set it. -/
theorem fbdev_update_geometry (x y w h : Int) (s : State)
    (hact : s.fb_switch_state = FB_ACTIVE) :
    (fbdev_update x y w h s).cx = (if s.resize_screen ≠ 0 then fbdev_update_resize s else s).cx ∧
    (fbdev_update x y w h s).cy = (if s.resize_screen ≠ 0 then fbdev_update_resize s else s).cy ∧
    (fbdev_update x y w h s).cw = (if s.resize_screen ≠ 0 then fbdev_update_resize s else s).cw ∧
    (fbdev_update x y w h s).ch = (if s.resize_screen ≠ 0 then fbdev_update_resize s else s).ch ∧
    (fbdev_update x y w h s).scale
      = (if s.resize_screen ≠ 0 then fbdev_update_resize s else s).scale := by
  unfold fbdev_update
  rw [if_neg (by simp [hact])]
  generalize (if s.resize_screen ≠ 0 then fbdev_update_resize s else s) = s1
  dsimp only
  by_cases h1 : s1.redraw_screen ≠ 0
  · rw [if_pos h1, if_pos h1]
    split_ifs <;> exact ⟨rfl, rfl, rfl, rfl, rfl⟩
  · rw [if_neg h1, if_neg h1]
    split_ifs <;> exact ⟨rfl, rfl, rfl, rfl, rfl⟩

theorem fbdev_update_resize_unscaled (s : State) (hsc : s.use_scale = 0) :
    (fbdev_update_resize s).scale = 1 ∧
    (fbdev_update_resize s).cx
      = (if s.surface_width < s.xres then (((s.xres - s.surface_width) / 2 : Nat) : Int) else 0) ∧
    (fbdev_update_resize s).cy
      = (if s.surface_height < s.yres then (((s.yres - s.surface_height) / 2 : Nat) : Int) else 0) ∧
    (fbdev_update_resize s).cw = s.surface_width ∧
    (fbdev_update_resize s).ch = s.surface_height := by
  unfold fbdev_update_resize
  dsimp only
  rw [if_neg (by simp [hsc])]
  by_cases hw : s.surface_width < s.xres <;> by_cases hh : s.surface_height < s.yres <;>
    simp [hw, hh]

/-- Claim C12.  With scaling off, the resize step of `fbdev_update` (taken in
the active state with a resize pending) sets `scale` to 1, `cx` to
`(W - w) / 2` in integer division when `w < W` and to 0 otherwise, and `cy`
to `(H - h) / 2` when `h < H` and to 0 otherwise, for the guest surface
`w x h` on the framebuffer `W x H`; for 800x600 on 1024x768 that is
`cx = 112` and `cy = 84`. -/
theorem resize_unscaled_centers (x y w h : Int) (s : State)
    (hact : s.fb_switch_state = FB_ACTIVE) (hres : s.resize_screen ≠ 0)
    (hsc : s.use_scale = 0) :
    (fbdev_update x y w h s).scale = 1 ∧
    (fbdev_update x y w h s).cx
      = (if s.surface_width < s.xres
          then (((s.xres - s.surface_width) / 2 : Nat) : Int) else 0) ∧
    (fbdev_update x y w h s).cy
      = (if s.surface_height < s.yres
          then (((s.yres - s.surface_height) / 2 : Nat) : Int) else 0) ∧
    (s.xres = 1024 → s.yres = 768 → s.surface_width = 800 → s.surface_height = 600 →
      (fbdev_update x y w h s).cx = 112 ∧ (fbdev_update x y w h s).cy = 84) := by
  obtain ⟨gx, gy, _, _, gs⟩ := fbdev_update_geometry x y w h s hact
  obtain ⟨us, ux, uy, _, _⟩ := fbdev_update_resize_unscaled s hsc
  rw [if_pos hres] at gx gy gs
  refine ⟨gs.trans us, gx.trans ux, gy.trans uy, ?_⟩
  intro h1 h2 h3 h4
  rw [gx, gy, ux, uy, h1, h2, h3, h4]
  decide

theorem resize_unscaled_centers_witness :
    state_resize.fb_switch_state = FB_ACTIVE ∧ state_resize.resize_screen ≠ 0 ∧
    state_resize.use_scale = 0 ∧
    (fbdev_update 0 0 0 0 state_resize).scale = 1 ∧
    (fbdev_update 0 0 0 0 state_resize).cx = 112 ∧
    (fbdev_update 0 0 0 0 state_resize).cy = 84 :=
  have h := resize_unscaled_centers 0 0 0 0 state_resize rfl (by decide) rfl
  ⟨rfl, by decide, rfl, h.1, (h.2.2.2 rfl rfl rfl rfl).1, (h.2.2.2 rfl rfl rfl rfl).2⟩

set_option maxRecDepth 100000 in
/-- Claim C17, evaluated on the code.  When `read` returns the single byte
`0x00`, `read_mediumraw` takes it for the start of an escape and reads the
buffer positions 1 and 2, which lie beyond the one byte that was read; and
when `read` fills the 32-byte buffer and the last byte has zero low 7 bits, it
reads the positions 32 and 33, which lie beyond the buffer. -/
theorem escape_reads_beyond_read_bytes :
    read_mediumraw_reads env0 1 (buf_of [0x00]) state0 = [0, 1, 2] ∧
    buf_escape_last.length = 32 ∧
    read_mediumraw_reads env0 32 (buf_of buf_escape_last) state0
      = List.range 32 ++ [32, 33] := by
  refine ⟨by decide, by decide, by decide⟩

set_option maxRecDepth 100000 in
/-- Claim C18, evaluated on the code.  On a framebuffer whose memory starts
256 bytes after a page boundary, `fbdev_init` succeeds with
`fb_mem_offset = 256`; `fbdev_cls` zeroes `line_length * yres` bytes from byte
256 of the mapping on, while the image that `pixman_from_framebuffer` creates
starts at byte 0 of the mapping. -/
theorem cls_and_image_start_differ :
    (fbdev_init env_unaligned state_boot).2 = 0 ∧
    (fbdev_init env_unaligned state_boot).1.fb_mem_offset = 256 ∧
    Effect.cls 256 (4096 * 768) ∈ (fbdev_init env_unaligned state_boot).1.trace ∧
    (fbdev_init env_unaligned state_boot).1.framebuffer
      = some ⟨0, 1024, 768, 0, 4096⟩ ∧
    (fbdev_cls (fbdev_init env_unaligned state_boot).1).trace.getLast?
      = some (Effect.cls 256 (4096 * 768)) ∧
    (pixman_from_framebuffer env_unaligned (fbdev_init env_unaligned state_boot).1).bits
      = 0 := by
  refine ⟨by decide, by decide, by decide, by decide, by decide, by decide⟩

theorem fbdev_update_resize_scaled (s : State) (hsc : s.use_scale ≠ 0) :
    (fbdev_update_resize s).cw = s.surface_width ∧
    (fbdev_update_resize s).ch = s.surface_height ∧
    (fbdev_update_resize s).scale
      = min (to_double ((s.xres : ℚ) / (s.surface_width : ℚ)))
            (to_double ((s.yres : ℚ) / (s.surface_height : ℚ))) ∧
    (to_double ((s.xres : ℚ) / (s.surface_width : ℚ))
        > to_double ((s.yres : ℚ) / (s.surface_height : ℚ)) →
      (fbdev_update_resize s).cy = 0 ∧
      (fbdev_update_resize s).cx
        = trunc (to_double (to_double ((s.xres : ℚ)
            - to_double ((s.surface_width : ℚ) * (fbdev_update_resize s).scale)) / 2))) ∧
    (¬ to_double ((s.xres : ℚ) / (s.surface_width : ℚ))
        > to_double ((s.yres : ℚ) / (s.surface_height : ℚ)) →
      (fbdev_update_resize s).cx = 0 ∧
      (fbdev_update_resize s).cy
        = trunc (to_double (to_double ((s.yres : ℚ)
            - to_double ((s.surface_height : ℚ) * (fbdev_update_resize s).scale)) / 2))) := by
  unfold fbdev_update_resize
  dsimp only
  rw [if_pos hsc]
  simp only [Int.cast_natCast]
  by_cases h : to_double ((s.xres : ℚ) / (s.surface_width : ℚ))
      > to_double ((s.yres : ℚ) / (s.surface_height : ℚ))
  · rw [if_pos h]
    refine ⟨rfl, rfl, ?_, fun _ => ⟨rfl, rfl⟩, fun h2 => absurd h h2⟩
    exact (min_eq_right (le_of_lt h)).symm
  · rw [if_neg h]
    refine ⟨rfl, rfl, ?_, fun h2 => absurd h2 h, fun _ => ⟨rfl, rfl⟩⟩
    exact (min_eq_left (not_lt.mp h)).symm

/-- Claim C11, amended.  With scaling on, the resize step of `fbdev_update`
(taken in the active state with a resize pending) works in `double`
arithmetic: for the guest surface `w x h` (both positive) on the framebuffer
`W x H` it takes `xs` and `ys`, the doubles nearest to `W/w` and `H/h`, and
sets `scale = min(xs, ys)`; the axis that limits the fit gets offset 0, and
the other axis gets `(dimension - extent * scale) / 2` truncated toward zero,
the product, the difference and the half each rounded to the nearest
double. -/
theorem resize_scaled_fit (x y w h : Int) (s : State)
    (hact : s.fb_switch_state = FB_ACTIVE) (hres : s.resize_screen ≠ 0)
    (hsc : s.use_scale ≠ 0)
    (_hw : 0 < s.surface_width) (_hh : 0 < s.surface_height) :
    (fbdev_update x y w h s).scale
      = min (to_double ((s.xres : ℚ) / (s.surface_width : ℚ)))
            (to_double ((s.yres : ℚ) / (s.surface_height : ℚ))) ∧
    (to_double ((s.xres : ℚ) / (s.surface_width : ℚ))
        > to_double ((s.yres : ℚ) / (s.surface_height : ℚ)) →
      (fbdev_update x y w h s).cy = 0 ∧
      (fbdev_update x y w h s).cx
        = trunc (to_double (to_double ((s.xres : ℚ)
            - to_double ((s.surface_width : ℚ) * (fbdev_update x y w h s).scale)) / 2))) ∧
    (¬ to_double ((s.xres : ℚ) / (s.surface_width : ℚ))
        > to_double ((s.yres : ℚ) / (s.surface_height : ℚ)) →
      (fbdev_update x y w h s).cx = 0 ∧
      (fbdev_update x y w h s).cy
        = trunc (to_double (to_double ((s.yres : ℚ)
            - to_double ((s.surface_height : ℚ) * (fbdev_update x y w h s).scale)) / 2))) := by
  obtain ⟨gx, gy, _, _, gs⟩ := fbdev_update_geometry x y w h s hact
  obtain ⟨_, _, us, ux, uy⟩ := fbdev_update_resize_scaled s hsc
  rw [if_pos hres] at gx gy gs
  rw [gx, gy, gs]
  exact ⟨us, ux, uy⟩

set_option maxRecDepth 100000 in
theorem resize_scaled_fit_witness :
    state_scale.fb_switch_state = FB_ACTIVE ∧ state_scale.resize_screen ≠ 0 ∧
    state_scale.use_scale ≠ 0 ∧ 0 < state_scale.surface_width ∧
    0 < state_scale.surface_height ∧
    (fbdev_update 0 0 0 0 state_scale).scale
      = min (to_double ((state_scale.xres : ℚ) / (state_scale.surface_width : ℚ)))
            (to_double ((state_scale.yres : ℚ) / (state_scale.surface_height : ℚ))) :=
  ⟨rfl, by decide, by decide, by decide, by decide,
    (resize_scaled_fit 0 0 0 0 state_scale rfl (by decide) (by decide) (by decide)
      (by decide)).1⟩

set_option maxRecDepth 100000 in
/-- Claim C11 as stated fails: for a 58x58 guest surface on a 640x480
framebuffer the exact ratios give `scale = 240/29` and the offset
`(640 - 58 * 240/29) / 2 = 80`, while `fbdev_update` leaves the double nearest
to `240/29`, which is not `240/29`, in `scale`, and `cx = 79`. -/
theorem resize_exact_ratio_counterexample :
    min ((640 : ℚ) / 58) ((480 : ℚ) / 58) = 240 / 29 ∧
    trunc (((640 : ℚ) - 58 * min ((640 : ℚ) / 58) ((480 : ℚ) / 58)) / 2) = 80 ∧
    (fbdev_update 0 0 0 0 state_scale).scale = 4658896166245341 / 562949953421312 ∧
    (fbdev_update 0 0 0 0 state_scale).scale ≠ 240 / 29 ∧
    (fbdev_update 0 0 0 0 state_scale).cx = 79 ∧
    (fbdev_update 0 0 0 0 state_scale).cy = 0 := by
  refine ⟨by decide!, by decide!, by decide!, by decide!, by decide!, by decide!⟩

/-! ## The cursor is not drawn off the surface -/

theorem ptrkept_refl (s : State) : PtrKept s s :=
  ⟨rfl, rfl, rfl, rfl, rfl, rfl, rfl, rfl, emits_refl _ s⟩

theorem ptrkept_trans {s t u : State} (h1 : PtrKept s t) (h2 : PtrKept t u) :
    PtrKept s u := by
  obtain ⟨a1, a2, a3, a4, a5, a6, a7, a8, a9⟩ := h1
  obtain ⟨b1, b2, b3, b4, b5, b6, b7, b8, b9⟩ := h2
  exact ⟨b1.trans a1, b2.trans a2, b3.trans a3, b4.trans a4, b5.trans a5, b6.trans a6,
    b7.trans a7, b8.trans a8, emits_trans a9 b9⟩

theorem ptrkept_congr {s t : State} (h : PtrKept s t) (u : State)
    (e1 : u.mx = t.mx) (e2 : u.my = t.my) (e3 : u.mon = t.mon) (e4 : u.cw = t.cw)
    (e5 : u.ch = t.ch) (e6 : u.ptr_image = t.ptr_image) (e7 : u.ptr_cursor = t.ptr_cursor)
    (e8 : u.resize_screen = t.resize_screen) (e9 : u.trace = t.trace) : PtrKept s u := by
  obtain ⟨a1, a2, a3, a4, a5, a6, a7, a8, a9⟩ := h
  exact ⟨e1.trans a1, e2.trans a2, e3.trans a3, e4.trans a4, e5.trans a5, e6.trans a6,
    e7.trans a7, e8.trans a8, emits_of_trace a9 e9⟩

theorem ptrkept_emit (s : State) (es : List Effect)
    (h : ∀ e ∈ es, not_ptr_composite e = true) : PtrKept s (emit s es) :=
  ⟨rfl, rfl, rfl, rfl, rfl, rfl, rfl, rfl, emits_emit _ s es h⟩

theorem ptrkept_emit_one (s : State) (e : Effect) (h : not_ptr_composite e = true) :
    PtrKept s (emit s [e]) :=
  ptrkept_emit s [e] (by intro x hx; rw [List.mem_singleton] at hx; rw [hx]; exact h)

theorem ptrkept_send_scancode (env : Env) (k up : Nat) (s : State) :
    PtrKept s (send_scancode env k up s) := by
  unfold send_scancode
  dsimp only
  split_ifs
  all_goals first
    | exact ptrkept_emit_one _ _ (by rfl)
    | exact ptrkept_trans (ptrkept_emit_one _ _ (by rfl)) (ptrkept_emit_one _ _ (by rfl))

theorem ptrkept_reset_keys_step (env : Env) (s : State) (n : Nat) :
    PtrKept s (reset_keys_step env s n) := by
  unfold reset_keys_step
  by_cases hd : s.key_down n = true
  · rw [if_pos hd]
    have hq : PtrKept s
        (if env.is_graphic s.trace = true then send_scancode env n 1 s else s) := by
      split_ifs
      · exact ptrkept_send_scancode env n 1 s
      · exact ptrkept_refl s
    dsimp only
    generalize (if env.is_graphic s.trace = true then send_scancode env n 1 s else s) = s1
      at hq ⊢
    exact ptrkept_congr hq _ rfl rfl rfl rfl rfl rfl rfl rfl rfl
  · rw [if_neg hd]
    exact ptrkept_refl s

theorem ptrkept_foldl_reset_keys (env : Env) (l : List Nat) (s : State) :
    PtrKept s (l.foldl (reset_keys_step env) s) := by
  induction l generalizing s with
  | nil => exact ptrkept_refl s
  | cons n rest ih => exact ptrkept_trans (ptrkept_reset_keys_step env s n) (ih _)

theorem ptrkept_reset_keys (env : Env) (s : State) : PtrKept s (reset_keys env s) := by
  unfold reset_keys
  exact ptrkept_foldl_reset_keys env _ s

theorem ptrkept_start_mediumraw (env : Env) (tty : Int) (s : State) :
    PtrKept s (start_mediumraw env tty s) := by
  unfold start_mediumraw
  split_ifs
  · exact ptrkept_refl s
  · refine ⟨?_, ?_, ?_, ?_, ?_, ?_, ?_, ?_, ?_⟩
    · simp only [emit]; split <;> split <;> rfl
    · simp only [emit]; split <;> split <;> rfl
    · simp only [emit]; split <;> split <;> rfl
    · simp only [emit]; split <;> split <;> rfl
    · simp only [emit]; split <;> split <;> rfl
    · simp only [emit]; split <;> split <;> rfl
    · simp only [emit]; split <;> split <;> rfl
    · simp only [emit]; split <;> split <;> rfl
    · simp only [emit]
      split <;> split <;>
        exact ⟨_, by simp only [List.append_assoc]; rfl, by
          simp [not_ptr_composite, is_ptr_composite]⟩

theorem fbdev_switch_acquire_eq (env : Env) (s : State) :
    fbdev_switch_acquire env s
      = { emit (reset_keys env (start_mediumraw env
              (emit s [Effect.ioctl s.tty IoctlReq.VT_RELDISP VT_ACKACQ]).tty
              (emit s [Effect.ioctl s.tty IoctlReq.VT_RELDISP VT_ACKACQ])))
            [Effect.ioctl (reset_keys env (start_mediumraw env
              (emit s [Effect.ioctl s.tty IoctlReq.VT_RELDISP VT_ACKACQ]).tty
              (emit s [Effect.ioctl s.tty IoctlReq.VT_RELDISP VT_ACKACQ]))).tty
              IoctlReq.KDSETMODE KD_GRAPHICS] with
          fb_switch_state := FB_ACTIVE } := rfl

theorem ptrkept_fbdev_switch_acquire (env : Env) (s : State) :
    PtrKept s (fbdev_switch_acquire env s) := by
  have h1 := ptrkept_emit_one s (Effect.ioctl s.tty IoctlReq.VT_RELDISP VT_ACKACQ) rfl
  have h2 := ptrkept_start_mediumraw env
    (emit s [Effect.ioctl s.tty IoctlReq.VT_RELDISP VT_ACKACQ]).tty
    (emit s [Effect.ioctl s.tty IoctlReq.VT_RELDISP VT_ACKACQ])
  have h3 := ptrkept_reset_keys env (start_mediumraw env
    (emit s [Effect.ioctl s.tty IoctlReq.VT_RELDISP VT_ACKACQ]).tty
    (emit s [Effect.ioctl s.tty IoctlReq.VT_RELDISP VT_ACKACQ]))
  have h123 := ptrkept_trans (ptrkept_trans h1 h2) h3
  rw [fbdev_switch_acquire_eq]
  generalize reset_keys env (start_mediumraw env
    (emit s [Effect.ioctl s.tty IoctlReq.VT_RELDISP VT_ACKACQ]).tty
    (emit s [Effect.ioctl s.tty IoctlReq.VT_RELDISP VT_ACKACQ])) = s3 at h123 ⊢
  exact ptrkept_congr (ptrkept_trans h123
      (ptrkept_emit_one s3 (Effect.ioctl s3.tty IoctlReq.KDSETMODE KD_GRAPHICS) rfl)) _
    rfl rfl rfl rfl rfl rfl rfl rfl rfl

theorem ptrkept_fbdev_cls (s : State) : PtrKept s (fbdev_cls s) := by
  unfold fbdev_cls
  exact ptrkept_emit_one _ _ (by rfl)

theorem ptrkept_fbdev_update (x y w h : Int) (s : State) (h0 : s.resize_screen = 0) :
    PtrKept s (fbdev_update x y w h s) := by
  unfold fbdev_update
  by_cases ha : s.fb_switch_state ≠ FB_ACTIVE
  · rw [if_pos ha]; exact ptrkept_refl s
  · have hr : ¬ s.resize_screen ≠ 0 := by simp [h0]
    rw [if_neg ha, if_neg hr]
    dsimp only
    have h2 : PtrKept s
        (if s.redraw_screen ≠ 0 then fbdev_cls { s with redraw_screen := 0 } else s) := by
      split_ifs
      · exact ptrkept_trans
          (ptrkept_congr (ptrkept_refl s) { s with redraw_screen := 0 }
            rfl rfl rfl rfl rfl rfl rfl rfl rfl)
          (ptrkept_fbdev_cls _)
      · exact ptrkept_refl s
    generalize (if s.redraw_screen ≠ 0 then fbdev_cls { s with redraw_screen := 0 } else s)
      = s2 at h2 ⊢
    generalize (if s.redraw_screen ≠ 0 then
      (⟨0, 0, s.surface_width, s.surface_height⟩ : Rect) else ⟨x, y, w, h⟩) = r
    split_ifs
    · exact ptrkept_congr h2 _ rfl rfl rfl rfl rfl rfl rfl rfl rfl
    · exact ptrkept_congr h2 _ rfl rfl rfl rfl rfl rfl rfl rfl rfl

theorem ptrkept_foldl_dispatch (cbs : List Callback) (s : State)
    (h0 : s.resize_screen = 0) (hcb : ∀ cb ∈ cbs, is_gfx_update cb = true) :
    PtrKept s (cbs.foldl dispatch s) := by
  induction cbs generalizing s with
  | nil => exact ptrkept_refl s
  | cons cb rest ih =>
    have hc := hcb cb (List.mem_cons_self _ _)
    have h1 : PtrKept s (dispatch s cb) := by
      cases cb with
      | gfx_update x y w h => exact ptrkept_fbdev_update x y w h s h0
      | gfx_switch w h => simp [is_gfx_update] at hc
      | mouse_set x y o => simp [is_gfx_update] at hc
      | cursor_define c => simp [is_gfx_update] at hc
    exact ptrkept_trans h1
      (ih _ (h1.2.2.2.2.2.2.2.1.trans h0) (fun c hc2 => hcb c (List.mem_cons_of_mem _ hc2)))

theorem ptrkept_fbdev_refresh_update (env : Env) (s : State)
    (h0 : s.resize_screen = 0)
    (hcb : ∀ tr, ∀ cb ∈ env.hw_update_cb tr, is_gfx_update cb = true) :
    PtrKept s (fbdev_refresh_update env s) := by
  unfold fbdev_refresh_update
  dsimp only
  have h1 := ptrkept_emit_one s Effect.hw_update rfl
  have h2 := ptrkept_foldl_dispatch (env.hw_update_cb (emit s [Effect.hw_update]).trace)
    (emit s [Effect.hw_update]) h0 (hcb _)
  have h3 := ptrkept_trans h1 h2
  split_ifs
  · exact ptrkept_trans h3 (ptrkept_fbdev_update 0 0 0 0 _ (h3.2.2.2.2.2.2.2.1.trans h0))
  · exact h3

theorem fbdev_render_ptr_off (s : State)
    (hoff : s.mx < 0 ∨ s.mx ≥ s.cw ∨ s.my < 0 ∨ s.my ≥ s.ch) :
    fbdev_render_ptr s = s := by
  unfold fbdev_render_ptr
  by_cases h : s.mon = 0 ∨ ¬ s.ptr_image = true
  · rw [if_pos h]
  · rw [if_neg h, if_pos hoff]

theorem ptrkept_fbdev_refresh_draw (s : State)
    (hoff : s.mx < 0 ∨ s.mx ≥ s.cw ∨ s.my < 0 ∨ s.my ≥ s.ch) :
    PtrKept s (fbdev_refresh_draw s) := by
  unfold fbdev_refresh_draw
  dsimp only
  have h5 : PtrKept s (if s.ptr_refresh ≠ 0 then fbdev_unrender_ptr s else s) := by
    split_ifs
    · unfold fbdev_unrender_ptr
      split_ifs
      · exact ptrkept_refl s
      · exact ptrkept_congr (ptrkept_refl s) _ rfl rfl rfl rfl rfl rfl rfl rfl rfl
    · exact ptrkept_refl s
  generalize (if s.ptr_refresh ≠ 0 then fbdev_unrender_ptr s else s) = s5 at h5 ⊢
  have h6 : PtrKept s (if s5.dirty ≠ [] then fbdev_render s5 else s5) := by
    split_ifs
    · unfold fbdev_render
      exact ptrkept_trans h5
        (ptrkept_congr (ptrkept_emit_one s5 (Effect.composite s5.swork s5.dirty) rfl) _
          rfl rfl rfl rfl rfl rfl rfl rfl rfl)
    · exact h5
  generalize (if s5.dirty ≠ [] then fbdev_render s5 else s5) = s6 at h6 ⊢
  have hoff6 : s6.mx < 0 ∨ s6.mx ≥ s6.cw ∨ s6.my < 0 ∨ s6.my ≥ s6.ch := by
    obtain ⟨a1, a2, _, a4, a5, _⟩ := h6
    rw [a1, a2, a4, a5]
    exact hoff
  rw [fbdev_render_ptr_off s6 hoff6]
  split_ifs <;> exact h6

theorem fbdev_refresh_render_split (env : Env) (s : State) :
    fbdev_refresh_render env s = fbdev_refresh_draw (fbdev_refresh_update env s) := rfl

theorem ptrkept_fbdev_refresh_render (env : Env) (s : State)
    (hoff : s.mx < 0 ∨ s.mx ≥ s.cw ∨ s.my < 0 ∨ s.my ≥ s.ch)
    (h0 : s.resize_screen = 0)
    (hcb : ∀ tr, ∀ cb ∈ env.hw_update_cb tr, is_gfx_update cb = true) :
    PtrKept s (fbdev_refresh_render env s) := by
  rw [fbdev_refresh_render_split]
  have h1 := ptrkept_fbdev_refresh_update env s h0 hcb
  refine ptrkept_trans h1 (ptrkept_fbdev_refresh_draw _ ?_)
  obtain ⟨a1, a2, _, a4, a5, _⟩ := h1
  rw [a1, a2, a4, a5]
  exact hoff

theorem ptrkept_effects {s t : State} (h : PtrKept s t) :
    ∀ e ∈ effects_since s t, is_ptr_composite e = false := by
  obtain ⟨_, _, _, _, _, _, _, _, es, he, hp⟩ := h
  rw [effects_since_append _ _ _ he]
  intro e hm
  have := hp e hm
  simpa [not_ptr_composite] using this

/-- Claim C13.  In a state in which a cursor is defined and shown and the
pointer lies off the surface (`mx < 0`, `mx >= cw`, `my < 0` or `my >= ch`),
`fbdev_render_ptr` returns without drawing, so the drawing part of
`fbdev_refresh` composites no cursor image; and a whole refresh poll from
such a state, in any console-switch state, composites no cursor image when
no resize is pending and the display update it asks for answers with
`dpy_gfx_update` calls only (calls that move the pointer, change the cursor
or the surface would change the premises). -/
theorem offscreen_pointer_not_composited (env : Env) (s : State) (c : Cursor)
    (hc : s.ptr_cursor = some c) (hi : s.ptr_image = true) (hon : s.mon ≠ 0)
    (hoff : s.mx < 0 ∨ s.mx ≥ s.cw ∨ s.my < 0 ∨ s.my ≥ s.ch) :
    fbdev_render_ptr s = s ∧
    (∀ e ∈ effects_since s (fbdev_refresh_draw s), is_ptr_composite e = false) ∧
    (s.resize_screen = 0 →
      (∀ tr, ∀ cb ∈ env.hw_update_cb tr, is_gfx_update cb = true) →
      ∀ e ∈ effects_since s (fbdev_refresh env s), is_ptr_composite e = false) := by
  refine ⟨fbdev_render_ptr_off s hoff, ptrkept_effects (ptrkept_fbdev_refresh_draw s hoff),
    ?_⟩
  intro h0 hcb
  unfold fbdev_refresh
  by_cases h1 : s.fb_switch_state = FB_REL_REQ
  · rw [if_pos h1]
    obtain ⟨es, he, hr⟩ := fbdev_switch_release_effects s
    rw [effects_since_append _ _ _ he]
    intro e hm
    have hre := hr e hm
    cases e <;> first | rfl | simp [is_render] at hre
  · rw [if_neg h1]
    by_cases h2 : s.fb_switch_state = FB_INACTIVE
    · rw [if_pos h2]
      simp [effects_since]
    · rw [if_neg h2]
      by_cases h3 : s.fb_switch_state = FB_ACQ_REQ
      · rw [if_pos h3]
        dsimp only
        have ha := ptrkept_fbdev_switch_acquire env s
        generalize fbdev_switch_acquire env s = a at ha ⊢
        have ha2 : PtrKept s { a with redraw_screen := a.redraw_screen + 1 } :=
          ptrkept_congr ha _ rfl rfl rfl rfl rfl rfl rfl rfl rfl
        obtain ⟨a1, a2, _, a4, a5, _, _, a8, _⟩ := ha2
        have hr := ptrkept_fbdev_refresh_render env
          { a with redraw_screen := a.redraw_screen + 1 }
          (by rw [a1, a2, a4, a5]; exact hoff) (a8.trans h0) hcb
        exact ptrkept_effects (ptrkept_trans
          (ptrkept_congr ha _ rfl rfl rfl rfl rfl rfl rfl rfl rfl) hr)
      · rw [if_neg h3]
        exact ptrkept_effects (ptrkept_fbdev_refresh_render env s hoff h0 hcb)

set_option maxRecDepth 100000 in
theorem offscreen_pointer_not_composited_witness :
    state_cursor.ptr_cursor = some ⟨16, 16, 0, 0⟩ ∧ state_cursor.ptr_image = true ∧
    state_cursor.mon ≠ 0 ∧ state_cursor.mx < 0 ∧ state_cursor.ptr_refresh ≠ 0 ∧
    fbdev_render_ptr state_cursor = state_cursor ∧
    effects_since state_cursor (fbdev_refresh env0 state_cursor) = [Effect.hw_update] ∧
    effects_since state_cursor
        (fbdev_refresh env0 (fbdev_mouse_set 10 10 1 state_cursor))
      = [Effect.hw_update, Effect.ptr_composite 10 10 16 16] :=
  ⟨rfl, rfl, by decide, by decide, by decide,
    (offscreen_pointer_not_composited env0 state_cursor ⟨16, 16, 0, 0⟩ rfl rfl (by decide)
      (Or.inl (by decide))).1,
    by decide, by decide⟩

/-! ## Start-up: descriptors, tested steps, rollback -/

theorem open_fds_append (T : List Int) (a b : List Effect) :
    open_fds T (a ++ b) = open_fds (open_fds T a) b := by
  induction a generalizing T with
  | nil => rfl
  | cons e rest ih =>
    cases e <;> (simp only [List.cons_append, open_fds]; exact ih _)

theorem open_fds_restore (s : State) (T : List Int) (es : List Effect)
    (h : ∀ e ∈ es, is_restore s e = true) : open_fds T es = T := by
  induction es generalizing T with
  | nil => rfl
  | cons e rest ih =>
    have he := h e (List.mem_cons_self _ _)
    have hr := fun T => ih T (fun x hx => h x (List.mem_cons_of_mem _ hx))
    cases e <;> first
      | (simp [is_restore, is_fd_op] at he; done)
      | (simp only [open_fds]; exact hr T)

theorem open_fds_never_open (T : List Int) (es : List Effect)
    (h : ∀ e ∈ es, is_fd_op e = false) : open_fds T es = T := by
  induction es generalizing T with
  | nil => rfl
  | cons e rest ih =>
    have he := h e (List.mem_cons_self _ _)
    have hr := fun T => ih T (fun x hx => h x (List.mem_cons_of_mem _ hx))
    cases e <;> first
      | (simp [is_fd_op] at he; done)
      | (simp only [open_fds]; exact hr T)

theorem restore_rollback (s : State) (e : Effect) (h : is_restore s e = true) :
    is_rollback s e = true := by
  simp only [is_restore, Bool.and_eq_true] at h
  exact h.1

theorem never_fails_step (env : Env) (tr : List Effect) (e : Effect)
    (h : never_fails e = true) : step_failed env tr e = false := by
  cases e <;> first
    | (simp [never_fails] at h; done)
    | rfl
    | (simp only [never_fails, Bool.not_eq_true'] at h
       simp only [step_failed, h, Bool.and_false])

theorem no_failed_step_append (env : Env) (tr a b : List Effect) :
    no_failed_step env tr (a ++ b)
      = (no_failed_step env tr a && no_failed_step env (tr ++ a) b) := by
  induction a generalizing tr with
  | nil => simp [no_failed_step]
  | cons e rest ih =>
    have h := ih (tr ++ [e])
    rw [show tr ++ [e] ++ rest = tr ++ e :: rest by simp] at h
    simp only [List.cons_append, no_failed_step, Bool.and_assoc]
    exact congrArg _ h

theorem no_failed_step_never (env : Env) (tr es : List Effect)
    (h : ∀ e ∈ es, never_fails e = true) : no_failed_step env tr es = true := by
  induction es generalizing tr with
  | nil => rfl
  | cons e rest ih =>
    simp only [no_failed_step, Bool.and_eq_true, Bool.not_eq_true']
    exact ⟨never_fails_step env _ e (h e (List.mem_cons_self _ _)),
      ih _ (fun x hx => h x (List.mem_cons_of_mem _ hx))⟩

theorem is_rollback_congr (s t : State)
    (h1 : t.fb_ovar = s.fb_ovar) (h2 : t.vt_omode = s.vt_omode)
    (h3 : t.kd_omode = s.kd_omode) (h4 : t.tty_mode = s.tty_mode)
    (h5 : t.orig_vtno = s.orig_vtno) (h6 : t.tty_attributes = s.tty_attributes)
    (h7 : t.tty_flags = s.tty_flags) (e : Effect) :
    is_rollback t e = is_rollback s e := by
  cases e with
  | ioctl fd req a => cases req <;> simp [is_rollback, h3, h4, h5]
  | set_fd_handler fd h => cases h <;> simp [is_rollback]
  | _ => simp [is_rollback, h1, h2, h6, h7]

theorem init_fds_erase (s : State) :
    ((init_fds s).erase s.fb).erase s.tty = [] := by
  unfold init_fds
  by_cases h : s.tty > 0
  · rw [if_pos h]
    by_cases h2 : s.tty = s.fb
    · rw [h2]; simp
    · simp [List.erase_cons, h2]
  · rw [if_neg h]; simp

theorem init_fds_erase_early (s : State) :
    ((if s.tty > 0 then (init_fds s).erase s.tty else init_fds s).erase s.fb) = [] := by
  unfold init_fds
  by_cases h : s.tty > 0
  · rw [if_pos h, if_pos h]; simp
  · rw [if_neg h, if_neg h]; simp

theorem stop_mediumraw_restore (tty : Int) (s : State) :
    ∃ es, stop_mediumraw tty s = { emit s es with tty_mediumraw := false } ∧
      ∀ e ∈ es, is_restore s e = true := by
  unfold stop_mediumraw
  by_cases h : s.tty_mediumraw = true
  · rw [if_neg (by simp [h])]
    refine ⟨_, rfl, ?_⟩
    intro e he
    simp only [List.mem_cons, List.mem_singleton, List.not_mem_nil, or_false] at he
    rcases he with he | he | he <;> subst he <;>
      simp [is_restore, is_rollback, is_fd_op]
  · rw [if_pos (by simpa using h)]
    refine ⟨[], ?_, by simp⟩
    have h' : s.tty_mediumraw = false := by simpa using h
    ext <;> simp [emit, h']

theorem fbdev_activate_vt_shape (env : Env) (tty v : Int) (w : Bool) (s : State) :
    ∃ es, (fbdev_activate_vt env tty v w s).1
        = emit s (Effect.ioctl tty IoctlReq.VT_ACTIVATE v :: es) ∧
      ∀ e ∈ es, e = Effect.ioctl tty IoctlReq.VT_WAITACTIVE v ∨ e = Effect.stderr := by
  unfold fbdev_activate_vt
  dsimp only
  split_ifs
  · exact ⟨[Effect.stderr], by simp [emit], by simp⟩
  · exact ⟨[Effect.ioctl tty IoctlReq.VT_WAITACTIVE v, Effect.stderr], by simp [emit],
      by simp⟩
  · exact ⟨[Effect.ioctl tty IoctlReq.VT_WAITACTIVE v], by simp [emit], by simp⟩
  · exact ⟨[], rfl, by simp⟩

theorem maybe_stderr_shape (c : Prop) [Decidable c] (s : State) :
    ∃ es, (if c then emit s [Effect.stderr] else s) = emit s es ∧
      ∀ e ∈ es, e = Effect.stderr := by
  by_cases h : c
  · rw [if_pos h]
    exact ⟨[Effect.stderr], rfl, by simp⟩
  · rw [if_neg h]
    exact ⟨[], (emit_nil s).symm, by simp⟩

theorem restore_stderr (s : State) : is_restore s Effect.stderr = true := rfl

theorem fbdev_cleanup_tty_restore (env : Env) (s : State) (h : s.tty ≠ -1) :
    ∃ C, fbdev_cleanup_tty env s
        = { emit s (C ++ [Effect.set_fd_handler s.tty Handler.null, Effect.close s.tty]) with
              tty := -1, tty_mediumraw := false } ∧
      (∀ e ∈ C, is_restore s e = true) ∧
      (s.orig_vtno ≠ 0 → Effect.ioctl s.tty IoctlReq.VT_ACTIVATE s.orig_vtno ∈ C) := by
  unfold fbdev_cleanup_tty
  rw [if_pos h]
  dsimp only
  obtain ⟨e1, h1, t1⟩ := stop_mediumraw_restore s.tty s
  rw [h1]
  obtain ⟨e3, h3, t3⟩ := maybe_stderr_shape
    (env.ioctl_fails (emit { emit s e1 with tty_mediumraw := false }
      [Effect.ioctl s.tty IoctlReq.KDSETMODE s.kd_omode]).trace = true)
    (emit { emit s e1 with tty_mediumraw := false }
      [Effect.ioctl s.tty IoctlReq.KDSETMODE s.kd_omode])
  rw [h3]
  obtain ⟨e5, h5, t5⟩ := maybe_stderr_shape
    (env.ioctl_fails (emit (emit (emit { emit s e1 with tty_mediumraw := false }
      [Effect.ioctl s.tty IoctlReq.KDSETMODE s.kd_omode]) e3)
      [Effect.vt_setmode s.tty s.vt_omode]).trace = true)
    (emit (emit (emit { emit s e1 with tty_mediumraw := false }
      [Effect.ioctl s.tty IoctlReq.KDSETMODE s.kd_omode]) e3)
      [Effect.vt_setmode s.tty s.vt_omode])
  rw [h5]
  have hkd : is_restore s (Effect.ioctl s.tty IoctlReq.KDSETMODE s.kd_omode) = true := by
    simp [is_restore, is_rollback, is_fd_op]
  have hvt : is_restore s (Effect.vt_setmode s.tty s.vt_omode) = true := by
    simp [is_restore, is_rollback, is_fd_op]
  by_cases ho : s.orig_vtno ≠ 0
  · rw [if_pos ho]
    obtain ⟨e6, h6, t6⟩ := fbdev_activate_vt_shape env s.tty s.orig_vtno true
      (emit (emit (emit (emit { emit s e1 with tty_mediumraw := false }
        [Effect.ioctl s.tty IoctlReq.KDSETMODE s.kd_omode]) e3)
        [Effect.vt_setmode s.tty s.vt_omode]) e5)
    rw [h6]
    refine ⟨e1 ++ [Effect.ioctl s.tty IoctlReq.KDSETMODE s.kd_omode] ++ e3 ++
        [Effect.vt_setmode s.tty s.vt_omode] ++ e5 ++
        (Effect.ioctl s.tty IoctlReq.VT_ACTIVATE s.orig_vtno :: e6), ?_, ?_, ?_⟩
    · simp [emit, List.append_assoc]
    · intro e he
      simp only [List.mem_append, List.mem_cons, List.mem_singleton, List.not_mem_nil,
        or_false] at he
      rcases he with ((((he | he) | he) | he) | he) | he | he
      · exact t1 e he
      · subst he; exact hkd
      · rw [t3 e he]; rfl
      · subst he; exact hvt
      · rw [t5 e he]; rfl
      · subst he; simp [is_restore, is_rollback, is_fd_op]
      · rcases t6 e he with h7 | h7 <;> subst h7 <;>
          simp [is_restore, is_rollback, is_fd_op]
    · intro _; simp
  · rw [if_neg ho]
    refine ⟨e1 ++ [Effect.ioctl s.tty IoctlReq.KDSETMODE s.kd_omode] ++ e3 ++
        [Effect.vt_setmode s.tty s.vt_omode] ++ e5, ?_, ?_, ?_⟩
    · simp [emit, List.append_assoc]
    · intro e he
      simp only [List.mem_append, List.mem_cons, List.mem_singleton, List.not_mem_nil,
        or_false] at he
      rcases he with (((he | he) | he) | he) | he
      · exact t1 e he
      · subst he; exact hkd
      · rw [t3 e he]; rfl
      · subst he; exact hvt
      · rw [t5 e he]; rfl
    · intro h2; exact absurd h2 ho

theorem fbdev_cleanup_fb_restore (env : Env) (s : State) (h : s.fb ≠ -1) :
    ∃ B, fbdev_cleanup_fb env s = { emit s (B ++ [Effect.close s.fb]) with fb := -1 } ∧
      ∀ e ∈ B, is_restore s e = true := by
  unfold fbdev_cleanup_fb
  rw [if_pos h]
  dsimp only
  obtain ⟨e2, h2, t2⟩ := maybe_stderr_shape
    (env.ioctl_fails (emit s [Effect.put_vscreeninfo s.fb s.fb_ovar]).trace = true)
    (emit s [Effect.put_vscreeninfo s.fb s.fb_ovar])
  rw [h2]
  refine ⟨[Effect.put_vscreeninfo s.fb s.fb_ovar] ++ e2, ?_, ?_⟩
  · simp [emit, List.append_assoc]
  · intro e he
    simp only [List.mem_append, List.mem_cons, List.mem_singleton, List.not_mem_nil,
      or_false] at he
    rcases he with he | he
    · subst he; simp [is_restore, is_rollback, is_fd_op]
    · rw [t2 e he]; rfl

theorem fbdev_cleanup_mem_restore (s s0 : State) :
    ∃ A, fbdev_cleanup_mem s = { emit s A with fb_mem := 0 } ∧
      ∀ e ∈ A, is_restore s0 e = true := by
  unfold fbdev_cleanup_mem
  by_cases h : s.fb_mem ≠ 0
  · rw [if_pos h]
    refine ⟨_, rfl, ?_⟩
    intro e he
    simp only [List.mem_singleton] at he
    subst he; rfl
  · rw [if_neg h]
    have h' : s.fb_mem = 0 := by simpa using h
    refine ⟨[], ?_, by simp⟩
    ext <;> simp [emit, h']

theorem restore_congr (s t : State)
    (h1 : t.fb_ovar = s.fb_ovar) (h2 : t.vt_omode = s.vt_omode)
    (h3 : t.kd_omode = s.kd_omode) (h4 : t.tty_mode = s.tty_mode)
    (h5 : t.orig_vtno = s.orig_vtno) (h6 : t.tty_attributes = s.tty_attributes)
    (h7 : t.tty_flags = s.tty_flags) (e : Effect) (he : is_restore t e = true) :
    is_restore s e = true := by
  simp only [is_restore] at he ⊢
  rw [is_rollback_congr s t h1 h2 h3 h4 h5 h6 h7 e] at he
  exact he

theorem fbdev_cleanup_trace_shape (env : Env) (s : State) (hfb : s.fb ≠ -1)
    (htty : s.tty ≠ -1) :
    ∃ A B C, (fbdev_cleanup env s).trace = s.trace ++ (A ++ ((B ++ [Effect.close s.fb]) ++
        (C ++ [Effect.set_fd_handler s.tty Handler.null, Effect.close s.tty]))) ∧
      (∀ e ∈ A, is_restore s e = true) ∧ (∀ e ∈ B, is_restore s e = true) ∧
      (∀ e ∈ C, is_restore s e = true) ∧
      (s.orig_vtno ≠ 0 → Effect.ioctl s.tty IoctlReq.VT_ACTIVATE s.orig_vtno ∈ C) := by
  unfold fbdev_cleanup
  obtain ⟨A, hA, tA⟩ := fbdev_cleanup_mem_restore (fbdev_cleanup_pixman s) s
  rw [hA]
  obtain ⟨B, hB, tB⟩ := fbdev_cleanup_fb_restore env
    { emit (fbdev_cleanup_pixman s) A with fb_mem := 0 } hfb
  rw [hB]
  obtain ⟨C, hC, tC, mC⟩ := fbdev_cleanup_tty_restore env
    { emit { emit (fbdev_cleanup_pixman s) A with fb_mem := 0 }
        (B ++ [Effect.close
          ({ emit (fbdev_cleanup_pixman s) A with fb_mem := 0 } : State).fb]) with
        fb := -1 } htty
  rw [hC]
  refine ⟨A, B, C, ?_, tA, ?_, ?_, mC⟩
  · simp [emit, fbdev_cleanup_pixman, List.append_assoc]
  · intro e he
    exact restore_congr s ({ emit (fbdev_cleanup_pixman s) A with fb_mem := 0 } : State)
      rfl rfl rfl rfl rfl rfl rfl e (tB e he)
  · intro e he
    exact restore_congr s
      ({ emit { emit (fbdev_cleanup_pixman s) A with fb_mem := 0 }
        (B ++ [Effect.close
          ({ emit (fbdev_cleanup_pixman s) A with fb_mem := 0 } : State).fb]) with
        fb := -1 } : State)
      rfl rfl rfl rfl rfl rfl rfl e (tC e he)

theorem fbdev_cleanup_rollback (env : Env) (s : State) (hfb : s.fb ≠ -1)
    (htty : s.tty ≠ -1) :
    ∃ post, (fbdev_cleanup env s).trace = s.trace ++ post ∧
      (∀ e ∈ post, is_rollback (fbdev_cleanup env s) e = true) ∧
      (∀ T, open_fds T post = (T.erase s.fb).erase s.tty) ∧
      (s.orig_vtno ≠ 0 → Effect.ioctl s.tty IoctlReq.VT_ACTIVATE s.orig_vtno ∈ post) ∧
      (fbdev_cleanup env s).orig_vtno = s.orig_vtno ∧
      (fbdev_cleanup env s).fb_type = s.fb_type ∧
      (fbdev_cleanup env s).bits_per_pixel = s.bits_per_pixel := by
  obtain ⟨A, B, C, htr, tA, tB, tC, mC⟩ := fbdev_cleanup_trace_shape env s hfb htty
  obtain ⟨es, h, _⟩ := fbdev_cleanup_normal env s
  have f1 : (fbdev_cleanup env s).fb_ovar = s.fb_ovar := by rw [h]; rfl
  have f2 : (fbdev_cleanup env s).vt_omode = s.vt_omode := by rw [h]; rfl
  have f3 : (fbdev_cleanup env s).kd_omode = s.kd_omode := by rw [h]; rfl
  have f4 : (fbdev_cleanup env s).tty_mode = s.tty_mode := by rw [h]; rfl
  have f5 : (fbdev_cleanup env s).orig_vtno = s.orig_vtno := by rw [h]; rfl
  have f6 : (fbdev_cleanup env s).tty_attributes = s.tty_attributes := by rw [h]; rfl
  have f7 : (fbdev_cleanup env s).tty_flags = s.tty_flags := by rw [h]; rfl
  have f8 : (fbdev_cleanup env s).fb_type = s.fb_type := by rw [h]; rfl
  have f9 : (fbdev_cleanup env s).bits_per_pixel = s.bits_per_pixel := by rw [h]; rfl
  refine ⟨_, htr, ?_, ?_, ?_, f5, f8, f9⟩
  · intro e he
    rw [is_rollback_congr s _ f1 f2 f3 f4 f5 f6 f7 e]
    simp only [List.mem_append, List.mem_cons, List.mem_singleton, List.not_mem_nil,
      or_false] at he
    rcases he with he | (he | he) | he | he | he
    · exact restore_rollback s e (tA e he)
    · exact restore_rollback s e (tB e he)
    · subst he; rfl
    · exact restore_rollback s e (tC e he)
    · subst he; rfl
    · subst he; rfl
  · intro T
    simp only [open_fds_append, open_fds]
    rw [open_fds_restore s T A tA, open_fds_restore s T B tB,
      open_fds_restore s _ C tC]
  · intro ho
    have := mC ho
    simp only [List.mem_append]
    exact Or.inr (Or.inr (Or.inl this))

theorem init_failed_err (env : Env) (T : List Int) (s0 s : State)
    (pre : List Effect) (e : Effect) (x : List Effect)
    (htr : s.trace = s0.trace ++ (pre ++ e :: x)) (hx : ∀ y ∈ x, y = Effect.stderr)
    (hpo : no_failed_step env s0.trace pre = true)
    (hcause : step_failed env (s0.trace ++ (pre ++ [e])) e = true ∨
      (is_vscreeninfo e = true ∧ pre.any is_fscreeninfo = true ∧
        (s.fb_type ≠ FB_TYPE_PACKED_PIXELS ∨ s.bits_per_pixel ≠ 32)))
    (hfb : s.fb ≠ -1) (htty : s.tty ≠ -1)
    (hT : ((open_fds T (pre ++ [e])).erase s.fb).erase s.tty = []) :
    InitFailed env true T s0 (fbdev_init_err env s) := by
  obtain ⟨post, hp, hr, ho, hv, f5, f8, f9⟩ := fbdev_cleanup_rollback env s hfb htty
  unfold InitFailed fbdev_init_err
  refine ⟨rfl, pre, e, x ++ post, ?_, hpo, ?_, ?_, ?_, ?_⟩
  · show (fbdev_cleanup env s).trace = _
    rw [hp, htr]
    simp
  · show _ ∨ (_ ∧ _ ∧ ((fbdev_cleanup env s).fb_type ≠ _ ∨
      (fbdev_cleanup env s).bits_per_pixel ≠ _))
    rw [f8, f9]
    exact hcause
  · intro y hy
    show is_rollback (fbdev_cleanup env s) y = true
    rcases List.mem_append.mp hy with h | h
    · rw [hx y h]; rfl
    · exact hr y h
  · rw [show pre ++ e :: (x ++ post) = (pre ++ [e]) ++ (x ++ post) by simp,
      open_fds_append, open_fds_append,
      open_fds_never_open _ x (fun y hy => by rw [hx y hy]; rfl), ho, hT]
  · intro _ hne
    have hne2 : s.orig_vtno ≠ 0 := by
      rw [← f5]; exact hne
    refine ⟨s.tty, ?_⟩
    show Effect.ioctl s.tty IoctlReq.VT_ACTIVATE (fbdev_cleanup env s).orig_vtno ∈ x ++ post
    rw [f5]
    exact List.mem_append_right _ (hv hne2)

theorem init_failed_err_early (env : Env) (T : List Int) (s0 s : State)
    (pre : List Effect) (e : Effect)
    (htr : s.trace = s0.trace ++ (pre ++ [e]))
    (hpo : no_failed_step env s0.trace pre = true)
    (hcause : step_failed env (s0.trace ++ (pre ++ [e])) e = true)
    (hfs : (pre ++ [e]).any is_fscreeninfo = false)
    (hT : ((if s.tty > 0 then (open_fds T (pre ++ [e])).erase s.tty
            else open_fds T (pre ++ [e])).erase s.fb) = []) :
    InitFailed env false T s0 (fbdev_init_err_early s) := by
  unfold InitFailed fbdev_init_err_early
  by_cases h : s.tty > 0
  · rw [if_pos h] at hT
    refine ⟨rfl, pre, e, [Effect.close s.tty, Effect.close s.fb], ?_, hpo, Or.inl hcause,
      ?_, ?_, ?_⟩
    · dsimp only
      rw [if_pos h]
      simp [emit, htr]
    · intro y hy
      simp only [List.mem_cons, List.mem_singleton, List.not_mem_nil, or_false] at hy
      rcases hy with hy | hy <;> subst hy <;> rfl
    · rw [show pre ++ e :: [Effect.close s.tty, Effect.close s.fb]
          = (pre ++ [e]) ++ [Effect.close s.tty, Effect.close s.fb] by simp,
        open_fds_append]
      simp only [open_fds]
      exact hT
    · intro hl
      rcases hl with hl | hl
      · exact absurd hl (by decide)
      · rw [hfs] at hl; exact absurd hl (by decide)
  · rw [if_neg h] at hT
    refine ⟨rfl, pre, e, [Effect.close s.fb], ?_, hpo, Or.inl hcause, ?_, ?_, ?_⟩
    · dsimp only
      rw [if_neg h]
      simp [emit, htr]
    · intro y hy
      simp only [List.mem_singleton] at hy
      subst hy; rfl
    · rw [show pre ++ e :: [Effect.close s.fb] = (pre ++ [e]) ++ [Effect.close s.fb] by simp,
        open_fds_append]
      simp only [open_fds]
      exact hT
    · intro hl
      rcases hl with hl | hl
      · exact absurd hl (by decide)
      · rw [hfs] at hl; exact absurd hl (by decide)

theorem init_outcome_lift (env : Env) (late late' : Bool) (T T' : List Int)
    (s s' : State) (a : List Effect) (r : State × Int)
    (htr : s'.trace = s.trace ++ a) (hT : open_fds T a = T')
    (hok : no_failed_step env s.trace a = true)
    (hl : late' = true ∨ (late = false ∧ a.any is_fscreeninfo = false))
    (h : InitOutcome env late' T' s' r) : InitOutcome env late T s r := by
  rcases h with h | h
  · left
    obtain ⟨h1, h2, h3, es, h4, h5⟩ := h
    refine ⟨h1, h2, h3, a ++ es, ?_, ?_⟩
    · rw [h4, htr, List.append_assoc]
    · rw [no_failed_step_append, hok, ← htr, h5]
      rfl
  · right
    obtain ⟨h1, pre, e, post, h2, hpo, h3, h4, h5, h6⟩ := h
    refine ⟨h1, a ++ pre, e, post, ?_, ?_, ?_, h4, ?_, ?_⟩
    · rw [h2, htr]
      simp
    · rw [no_failed_step_append, hok, ← htr, hpo]
      rfl
    · rcases h3 with h3 | ⟨h3, h7, h8⟩
      · left
        rw [htr] at h3
        rw [show s.trace ++ (a ++ pre ++ [e]) = s.trace ++ a ++ (pre ++ [e]) by simp]
        exact h3
      · right
        refine ⟨h3, ?_, h8⟩
        rw [List.any_append, h7, Bool.or_true]
    · rw [show a ++ pre ++ e :: post = a ++ (pre ++ e :: post) by simp, open_fds_append, hT]
      exact h5
    · intro hp
      apply h6
      rcases hl with hl | ⟨hl1, hl2⟩
      · exact Or.inl hl
      · rcases hp with hp | hp
        · rw [hl1] at hp; exact absurd hp (by decide)
        · right
          rw [show a ++ pre ++ [e] = a ++ (pre ++ [e]) by simp, List.any_append, hl2,
            Bool.false_or] at hp
          exact hp

theorem start_mediumraw_init (env : Env) (tty : Int) (s : State) :
    (start_mediumraw env tty s).fb_type = s.fb_type ∧
    (start_mediumraw env tty s).bits_per_pixel = s.bits_per_pixel ∧
    (start_mediumraw env tty s).tty = s.tty ∧
    Emits never_fails s (start_mediumraw env tty s) := by
  unfold start_mediumraw
  split_ifs
  · exact ⟨rfl, rfl, rfl, emits_refl _ s⟩
  · refine ⟨?_, ?_, ?_, ?_⟩
    · simp only [emit]; split <;> split <;> rfl
    · simp only [emit]; split <;> split <;> rfl
    · simp only [emit]; split <;> split <;> rfl
    · simp only [emit]
      split <;> split <;>
        exact ⟨_, by simp only [List.append_assoc]; rfl, by
          simp [never_fails, checked_ioctl]⟩

theorem fbdev_init_finish_done (env : Env) (s : State)
    (hty : s.fb_type = FB_TYPE_PACKED_PIXELS) (hbpp : s.bits_per_pixel = 32) :
    InitDone env s (fbdev_init_finish env s) := by
  unfold fbdev_init_finish
  dsimp only
  obtain ⟨es, h1, t1⟩ := fbdev_activate_vt_shape env s.tty s.vtno true s
  rw [h1]
  have ha : Emits never_fails s
      (fbdev_cls (emit s (Effect.ioctl s.tty IoctlReq.VT_ACTIVATE s.vtno :: es))) := by
    refine ⟨Effect.ioctl s.tty IoctlReq.VT_ACTIVATE s.vtno :: es ++
      [Effect.cls s.fb_mem_offset (s.line_length * s.yres)], ?_, ?_⟩
    · simp [fbdev_cls, emit]
    · intro e he
      simp only [List.mem_append, List.mem_cons, List.mem_singleton, List.not_mem_nil,
        or_false] at he
      rcases he with (he | he) | he
      · subst he; rfl
      · rcases t1 e he with h | h <;> subst h <;> rfl
      · subst he; rfl
  have hf : (fbdev_cls (emit s (Effect.ioctl s.tty IoctlReq.VT_ACTIVATE s.vtno :: es))).fb_type
      = FB_TYPE_PACKED_PIXELS := hty
  have hb : (fbdev_cls (emit s
      (Effect.ioctl s.tty IoctlReq.VT_ACTIVATE s.vtno :: es))).bits_per_pixel = 32 := hbpp
  generalize fbdev_cls (emit s (Effect.ioctl s.tty IoctlReq.VT_ACTIVATE s.vtno :: es)) = s2
    at ha hf hb ⊢
  obtain ⟨m1, m2, _, m4⟩ := start_mediumraw_init env s2.tty s2
  obtain ⟨es2, h2, t2⟩ := emits_trans ha m4
  generalize start_mediumraw env s2.tty s2 = s3 at m1 m2 h2 ⊢
  refine ⟨rfl, m1.trans hf, m2.trans hb,
    es2 ++ [Effect.set_fd_handler s3.tty Handler.read_mediumraw], ?_, ?_⟩
  · show s3.trace ++ _ = _
    rw [h2, List.append_assoc]
  · apply no_failed_step_never
    intro e he
    rcases List.mem_append.mp he with h | h
    · exact t2 e h
    · rw [List.mem_singleton] at h
      subst h; rfl

theorem fbdev_init_graphics_outcome (env : Env) (s : State) (hfb : s.fb ≠ -1)
    (htty : s.tty ≠ -1) (hty : s.fb_type = FB_TYPE_PACKED_PIXELS)
    (hbpp : s.bits_per_pixel = 32) :
    InitOutcome env true (init_fds s) s (fbdev_init_graphics env s) := by
  unfold fbdev_init_graphics
  dsimp only
  by_cases hf : env.ioctl_fails
      (emit s [Effect.ioctl s.tty IoctlReq.KDSETMODE KD_GRAPHICS]).trace = true
  · rw [if_pos hf]
    right
    refine init_failed_err env (init_fds s) s _ []
        (Effect.ioctl s.tty IoctlReq.KDSETMODE KD_GRAPHICS) [] (by simp [emit]) (by simp) rfl
      (Or.inl ?_) hfb htty ?_
    · simp only [step_failed, checked_ioctl, Bool.and_true, List.nil_append]
      exact hf
    · simp only [List.nil_append, open_fds]
      exact init_fds_erase s
  · rw [if_neg hf]
    refine init_outcome_lift env true true (init_fds s) (init_fds s) s _
      [Effect.ioctl s.tty IoctlReq.KDSETMODE KD_GRAPHICS] _ rfl rfl ?_ (Or.inl rfl)
      (Or.inl (fbdev_init_finish_done env _ hty hbpp))
    simp only [no_failed_step, step_failed, checked_ioctl, Bool.and_true]
    simpa [emit] using hf

theorem fbdev_init_pan_outcome (env : Env) (s : State) (hfb : s.fb ≠ -1)
    (htty : s.tty ≠ -1) (hty : s.fb_type = FB_TYPE_PACKED_PIXELS)
    (hbpp : s.bits_per_pixel = 32) :
    InitOutcome env true (init_fds s) s (fbdev_init_pan env s) := by
  unfold fbdev_init_pan
  by_cases hx : s.xoffset ≠ 0 ∨ s.yoffset ≠ 0
  · rw [if_pos hx]
    dsimp only
    by_cases hf : env.ioctl_fails
        (emit { s with xoffset := 0, yoffset := 0 }
          [Effect.pan_display s.fb (fb_var_of { s with xoffset := 0, yoffset := 0 })]).trace
          = true
    · rw [if_pos hf]
      right
      refine init_failed_err env (init_fds s) s _ []
        (Effect.pan_display s.fb (fb_var_of { s with xoffset := 0, yoffset := 0 })) [] (by simp [emit]) (by simp) rfl
        (Or.inl ?_) hfb htty ?_
      · simp only [step_failed, List.nil_append]
        exact hf
      · simp only [List.nil_append, open_fds]
        exact init_fds_erase s
    · rw [if_neg hf]
      refine init_outcome_lift env true true (init_fds s) (init_fds s) s _
        [Effect.pan_display s.fb (fb_var_of { s with xoffset := 0, yoffset := 0 })] _
        rfl rfl ?_ (Or.inl rfl)
        (fbdev_init_graphics_outcome env _ hfb htty hty hbpp)
      simp only [no_failed_step, step_failed, Bool.and_true]
      simpa [emit] using hf
  · rw [if_neg hx]
    exact fbdev_init_graphics_outcome env s hfb htty hty hbpp

theorem fbdev_init_map_outcome (env : Env) (s : State) (hfb : s.fb ≠ -1)
    (htty : s.tty ≠ -1) (hty : s.fb_type = FB_TYPE_PACKED_PIXELS)
    (hbpp : s.bits_per_pixel = 32) :
    InitOutcome env true (init_fds s) s (fbdev_init_map env s) := by
  unfold fbdev_init_map
  dsimp only
  by_cases hf : env.mmap_result s.trace = MAP_FAILED
  · rw [if_pos hf]
    right
    refine init_failed_err env (init_fds s) s _ []
        (Effect.mmap (s.smem_len + (s.smem_start &&& (env.pagesize - 1))) s.fb
        (env.mmap_result s.trace)) [] (by simp [emit]) (by simp) rfl
      (Or.inl ?_) hfb htty ?_
    · simp only [step_failed, decide_eq_true_eq]
      exact hf
    · simp only [List.nil_append, open_fds]
      exact init_fds_erase s
  · rw [if_neg hf]
    refine init_outcome_lift env true true (init_fds s) (init_fds s) s _
      [Effect.mmap (s.smem_len + (s.smem_start &&& (env.pagesize - 1))) s.fb
        (env.mmap_result s.trace)] _
      rfl rfl ?_ (Or.inl rfl)
      (fbdev_init_pan_outcome env _ hfb htty hty hbpp)
    simp only [no_failed_step, step_failed, Bool.and_true]
    simpa using hf

theorem init_fds_congr (s t : State) (h1 : t.tty = s.tty) (h2 : t.fb = s.fb) :
    init_fds t = init_fds s := by
  unfold init_fds
  rw [h1, h2]

theorem fbdev_init_check_outcome (env : Env) (s0 s : State) (T : List Int)
    (pre : List Effect) (e : Effect)
    (htr : s.trace = s0.trace ++ (pre ++ [e]))
    (hok : no_failed_step env s0.trace (pre ++ [e]) = true)
    (hv : is_vscreeninfo e = true) (hfs : pre.any is_fscreeninfo = true)
    (hfb : s.fb ≠ -1) (htty : s.tty ≠ -1)
    (hT : open_fds T (pre ++ [e]) = init_fds s) :
    InitOutcome env true T s0 (fbdev_init_check env s) := by
  unfold fbdev_init_check
  have hpo : no_failed_step env s0.trace pre = true := by
    rw [no_failed_step_append, Bool.and_eq_true] at hok
    exact hok.1
  by_cases h1 : s.fb_type ≠ FB_TYPE_PACKED_PIXELS
  · rw [if_pos h1]
    right
    refine init_failed_err env T s0 s pre e [] (by simpa using htr) (by simp) hpo
      (Or.inr ⟨hv, hfs, Or.inl h1⟩) hfb htty ?_
    rw [hT]
    exact init_fds_erase s
  · rw [if_neg h1]
    by_cases h2 : s.bits_per_pixel ≠ 32
    · rw [if_pos h2]
      right
      refine init_failed_err env T s0 s pre e [] (by simpa using htr) (by simp) hpo
        (Or.inr ⟨hv, hfs, Or.inr h2⟩) hfb htty ?_
      rw [hT]
      exact init_fds_erase s
    · rw [if_neg h2]
      exact init_outcome_lift env true true T (init_fds s) s0 s (pre ++ [e]) _ htr hT hok
        (Or.inl rfl)
        (fbdev_init_map_outcome env s hfb htty (by simpa using h1) (by simpa using h2))

theorem fbdev_init_setup_outcome (env : Env) (s : State) (hfb : s.fb ≠ -1)
    (htty : s.tty ≠ -1) :
    InitOutcome env true (init_fds s) s (fbdev_init_setup env s) := by
  unfold fbdev_init_setup
  dsimp only
  by_cases hf1 : env.ioctl_fails
      (emit s [Effect.ioctl s.fb IoctlReq.FBIOGET_FSCREENINFO 0]).trace = true
  · rw [if_pos hf1]
    right
    refine init_failed_err env (init_fds s) s _ []
      (Effect.ioctl s.fb IoctlReq.FBIOGET_FSCREENINFO 0) [Effect.stderr]
      (by simp [emit]) (by simp) rfl (Or.inl ?_) hfb htty ?_
    · simp only [step_failed, checked_ioctl, Bool.and_true, List.nil_append]
      exact hf1
    · simp only [List.nil_append, open_fds]
      exact init_fds_erase s
  · rw [if_neg hf1]
    have q1 : (set_fb_fix (env.fscreeninfo
        (emit s [Effect.ioctl s.fb IoctlReq.FBIOGET_FSCREENINFO 0]).trace)
        (emit s [Effect.ioctl s.fb IoctlReq.FBIOGET_FSCREENINFO 0])).fb = s.fb := rfl
    have q2 : (set_fb_fix (env.fscreeninfo
        (emit s [Effect.ioctl s.fb IoctlReq.FBIOGET_FSCREENINFO 0]).trace)
        (emit s [Effect.ioctl s.fb IoctlReq.FBIOGET_FSCREENINFO 0])).tty = s.tty := rfl
    have q3 : (set_fb_fix (env.fscreeninfo
        (emit s [Effect.ioctl s.fb IoctlReq.FBIOGET_FSCREENINFO 0]).trace)
        (emit s [Effect.ioctl s.fb IoctlReq.FBIOGET_FSCREENINFO 0])).trace
        = s.trace ++ [Effect.ioctl s.fb IoctlReq.FBIOGET_FSCREENINFO 0] := rfl
    have hf1' : env.ioctl_fails
        (s.trace ++ [Effect.ioctl s.fb IoctlReq.FBIOGET_FSCREENINFO 0]) = false := by
      simpa [emit] using hf1
    generalize set_fb_fix (env.fscreeninfo
        (emit s [Effect.ioctl s.fb IoctlReq.FBIOGET_FSCREENINFO 0]).trace)
        (emit s [Effect.ioctl s.fb IoctlReq.FBIOGET_FSCREENINFO 0]) = S2 at q1 q2 q3 ⊢
    by_cases hf2 : env.ioctl_fails
        (emit S2 [Effect.ioctl S2.fb IoctlReq.FBIOGET_VSCREENINFO 0]).trace = true
    · rw [if_pos hf2]
      right
      refine init_failed_err env (init_fds s) s _
        [Effect.ioctl s.fb IoctlReq.FBIOGET_FSCREENINFO 0]
        (Effect.ioctl S2.fb IoctlReq.FBIOGET_VSCREENINFO 0) []
        (by simp [emit, q3]) (by simp)
        (by simp only [no_failed_step, step_failed, checked_ioctl, Bool.and_true, hf1',
          Bool.not_false])
        (Or.inl ?_)
        (by show S2.fb ≠ -1; rw [q1]; exact hfb)
        (by show S2.tty ≠ -1; rw [q2]; exact htty) ?_
      · simp only [step_failed, checked_ioctl, Bool.and_true]
        simpa [emit, q3] using hf2
      · simp only [List.singleton_append, open_fds]
        show ((init_fds s).erase S2.fb).erase S2.tty = []
        rw [q1, q2]
        exact init_fds_erase s
    · rw [if_neg hf2]
      have hf2' : env.ioctl_fails
          (s.trace ++ [Effect.ioctl s.fb IoctlReq.FBIOGET_FSCREENINFO 0] ++
            [Effect.ioctl S2.fb IoctlReq.FBIOGET_VSCREENINFO 0]) = false := by
        simpa [emit, q3] using hf2
      refine fbdev_init_check_outcome env s _ (init_fds s)
        [Effect.ioctl s.fb IoctlReq.FBIOGET_FSCREENINFO 0]
        (Effect.ioctl S2.fb IoctlReq.FBIOGET_VSCREENINFO 0)
        ?_ ?_ rfl rfl
        (by show S2.fb ≠ -1; rw [q1]; exact hfb)
        (by show S2.tty ≠ -1; rw [q2]; exact htty) ?_
      · show S2.trace ++ [Effect.ioctl S2.fb IoctlReq.FBIOGET_VSCREENINFO 0] = _
        rw [q3]
        simp
      · simp only [List.singleton_append, no_failed_step, step_failed, checked_ioctl,
          Bool.and_true, hf1', hf2', Bool.not_false]
      · simp only [List.singleton_append, open_fds]
        exact (init_fds_congr s _ q2 q1).symm

theorem any_fscreeninfo_false (l : List Effect)
    (h : ∀ e ∈ l, is_fd_op e = false ∧ is_fscreeninfo e = false) :
    l.any is_fscreeninfo = false := by
  rw [List.any_eq_false]
  intro e he
  simp [(h e he).2]

theorem init_checked_ioctl_early (env : Env) (T : List Int) (s0 s : State)
    (pre : List Effect) (fd : Int) (req : IoctlReq)
    (hreq : checked_ioctl fd req = true)
    (hq : is_fscreeninfo (Effect.ioctl fd req 0) = false)
    (htr : s.trace = s0.trace ++ pre)
    (hpo : no_failed_step env s0.trace pre = true)
    (hpre : ∀ e ∈ pre, is_fd_op e = false ∧ is_fscreeninfo e = false)
    (hT : ((if s.tty > 0 then T.erase s.tty else T).erase s.fb) = [])
    (next : State × Int)
    (hnext : env.ioctl_fails (emit s [Effect.ioctl fd req 0]).trace = false →
      InitOutcome env false T s0 next) :
    InitOutcome env false T s0
      (if env.ioctl_fails (emit s [Effect.ioctl fd req 0]).trace = true
        then fbdev_init_err_early (emit s [Effect.ioctl fd req 0]) else next) := by
  by_cases hf : env.ioctl_fails (emit s [Effect.ioctl fd req 0]).trace = true
  · rw [if_pos hf]
    right
    have hop : open_fds T (pre ++ [Effect.ioctl fd req 0]) = T :=
      open_fds_never_open T _ (fun e he => by
        rcases List.mem_append.mp he with h | h
        · exact (hpre e h).1
        · rw [List.mem_singleton] at h; subst h; rfl)
    refine init_failed_err_early env T s0 _ pre (Effect.ioctl fd req 0)
      (by simp [emit, htr]) hpo ?_ ?_ ?_
    · simp only [step_failed, hreq, Bool.and_true]
      simpa [emit, htr] using hf
    · rw [List.any_append, any_fscreeninfo_false pre hpre]
      simp [hq]
    · rw [hop]
      exact hT
  · rw [if_neg hf]
    exact hnext (by simpa using hf)

theorem activate_effects_plain (tty v : Int) (es : List Effect)
    (h : ∀ e ∈ es, e = Effect.ioctl tty IoctlReq.VT_WAITACTIVE v ∨ e = Effect.stderr) :
    ∀ e ∈ Effect.ioctl tty IoctlReq.VT_ACTIVATE v :: es,
      (is_fd_op e = false ∧ is_fscreeninfo e = false) ∧ never_fails e = true := by
  intro e he
  rcases List.mem_cons.mp he with h1 | h1
  · subst h1; exact ⟨⟨rfl, rfl⟩, rfl⟩
  · rcases h e h1 with h2 | h2 <;> subst h2 <;> exact ⟨⟨rfl, rfl⟩, rfl⟩

theorem init_fds_erase_early_of (s S : State) (h1 : S.tty = s.tty) (h2 : S.fb = s.fb) :
    ((if S.tty > 0 then (init_fds s).erase S.tty else init_fds s).erase S.fb) = [] := by
  rw [h1, h2]
  exact init_fds_erase_early s

theorem fbdev_init_save_outcome (env : Env) (s : State) (hfb : s.fb ≠ -1)
    (htty : s.tty ≠ -1) :
    InitOutcome env false (init_fds s) s (fbdev_init_save env s) := by
  unfold fbdev_init_save
  obtain ⟨es, h1, t1⟩ := fbdev_activate_vt_shape env s.tty s.vtno true s
  rw [h1]
  have hA := activate_effects_plain s.tty s.vtno es t1
  generalize Effect.ioctl s.tty IoctlReq.VT_ACTIVATE s.vtno :: es = A at hA ⊢
  have a1 : (emit s A).tty = s.tty := rfl
  have a2 : (emit s A).fb = s.fb := rfl
  have a3 : (emit s A).trace = s.trace ++ A := rfl
  generalize emit s A = S1 at a1 a2 a3 ⊢
  have hokA : no_failed_step env s.trace A = true :=
    no_failed_step_never env s.trace A (fun e he => (hA e he).2)
  refine init_checked_ioctl_early env (init_fds s) s S1 A S1.fb
    IoctlReq.FBIOGET_VSCREENINFO rfl rfl a3 hokA
    (fun e he => (hA e he).1) (init_fds_erase_early_of s S1 a1 a2) _ ?_
  intro hf1
  have hf1' : env.ioctl_fails
      (s.trace ++ A ++ [Effect.ioctl S1.fb IoctlReq.FBIOGET_VSCREENINFO 0]) = false := by
    rw [← a3]; exact hf1
  have hok1 : no_failed_step env s.trace
      (A ++ [Effect.ioctl S1.fb IoctlReq.FBIOGET_VSCREENINFO 0]) = true := by
    rw [no_failed_step_append, hokA]
    simp only [no_failed_step, step_failed, checked_ioctl, Bool.and_true, Bool.true_and,
      hf1', Bool.not_false]
  have b1 : ({ emit S1 [Effect.ioctl S1.fb IoctlReq.FBIOGET_VSCREENINFO 0] with
      fb_ovar := env.vscreeninfo
        (emit S1 [Effect.ioctl S1.fb IoctlReq.FBIOGET_VSCREENINFO 0]).trace } : State).tty
      = s.tty := a1
  have b2 : ({ emit S1 [Effect.ioctl S1.fb IoctlReq.FBIOGET_VSCREENINFO 0] with
      fb_ovar := env.vscreeninfo
        (emit S1 [Effect.ioctl S1.fb IoctlReq.FBIOGET_VSCREENINFO 0]).trace } : State).fb
      = s.fb := a2
  have b3 : ({ emit S1 [Effect.ioctl S1.fb IoctlReq.FBIOGET_VSCREENINFO 0] with
      fb_ovar := env.vscreeninfo
        (emit S1 [Effect.ioctl S1.fb IoctlReq.FBIOGET_VSCREENINFO 0]).trace } : State).trace
      = s.trace ++ (A ++ [Effect.ioctl S1.fb IoctlReq.FBIOGET_VSCREENINFO 0]) := by
    show S1.trace ++ _ = _
    rw [a3, List.append_assoc]
  generalize ({ emit S1 [Effect.ioctl S1.fb IoctlReq.FBIOGET_VSCREENINFO 0] with
      fb_ovar := env.vscreeninfo
        (emit S1 [Effect.ioctl S1.fb IoctlReq.FBIOGET_VSCREENINFO 0]).trace } : State) = S2
    at b1 b2 b3 ⊢
  refine init_checked_ioctl_early env (init_fds s) s S2
    (A ++ [Effect.ioctl S1.fb IoctlReq.FBIOGET_VSCREENINFO 0]) S2.tty
    IoctlReq.KDGETMODE rfl rfl b3 hok1 ?_ (init_fds_erase_early_of s S2 b1 b2) _ ?_
  · intro e he
    rcases List.mem_append.mp he with h | h
    · exact (hA e h).1
    · rw [List.mem_singleton] at h; subst h; exact ⟨rfl, rfl⟩
  intro hf2
  have hf2' : env.ioctl_fails
      (s.trace ++ A ++ [Effect.ioctl S1.fb IoctlReq.FBIOGET_VSCREENINFO 0] ++
        [Effect.ioctl S2.tty IoctlReq.KDGETMODE 0]) = false := by
    have : (emit S2 [Effect.ioctl S2.tty IoctlReq.KDGETMODE 0]).trace
        = s.trace ++ A ++ [Effect.ioctl S1.fb IoctlReq.FBIOGET_VSCREENINFO 0] ++
          [Effect.ioctl S2.tty IoctlReq.KDGETMODE 0] := by
      show S2.trace ++ _ = _
      rw [b3]; simp
    rw [← this]; exact hf2
  have hok2 : no_failed_step env s.trace
      (A ++ [Effect.ioctl S1.fb IoctlReq.FBIOGET_VSCREENINFO 0,
             Effect.ioctl S2.tty IoctlReq.KDGETMODE 0]) = true := by
    rw [no_failed_step_append, hokA]
    simp only [no_failed_step, step_failed, checked_ioctl, Bool.and_true, Bool.true_and,
      hf1', hf2', Bool.not_false]
  have c1 : ({ emit S2 [Effect.ioctl S2.tty IoctlReq.KDGETMODE 0] with
      kd_omode := env.kdgetmode
        (emit S2 [Effect.ioctl S2.tty IoctlReq.KDGETMODE 0]).trace } : State).tty
      = s.tty := b1
  have c2 : ({ emit S2 [Effect.ioctl S2.tty IoctlReq.KDGETMODE 0] with
      kd_omode := env.kdgetmode
        (emit S2 [Effect.ioctl S2.tty IoctlReq.KDGETMODE 0]).trace } : State).fb
      = s.fb := b2
  have c3 : ({ emit S2 [Effect.ioctl S2.tty IoctlReq.KDGETMODE 0] with
      kd_omode := env.kdgetmode
        (emit S2 [Effect.ioctl S2.tty IoctlReq.KDGETMODE 0]).trace } : State).trace
      = s.trace ++ (A ++ [Effect.ioctl S1.fb IoctlReq.FBIOGET_VSCREENINFO 0,
          Effect.ioctl S2.tty IoctlReq.KDGETMODE 0]) := by
    show S2.trace ++ _ = _
    rw [b3]
    simp
  generalize ({ emit S2 [Effect.ioctl S2.tty IoctlReq.KDGETMODE 0] with
      kd_omode := env.kdgetmode
        (emit S2 [Effect.ioctl S2.tty IoctlReq.KDGETMODE 0]).trace } : State) = S3
    at c1 c2 c3 ⊢
  refine init_checked_ioctl_early env (init_fds s) s S3
    (A ++ [Effect.ioctl S1.fb IoctlReq.FBIOGET_VSCREENINFO 0,
           Effect.ioctl S2.tty IoctlReq.KDGETMODE 0]) S3.tty
    IoctlReq.VT_GETMODE rfl rfl c3 hok2 ?_ (init_fds_erase_early_of s S3 c1 c2) _ ?_
  · intro e he
    simp only [List.mem_append, List.mem_cons, List.mem_singleton, List.not_mem_nil,
      or_false] at he
    rcases he with h | h | h
    · exact (hA e h).1
    · subst h; exact ⟨rfl, rfl⟩
    · subst h; exact ⟨rfl, rfl⟩
  intro hf3
  have d1 : ({ emit S3 [Effect.ioctl S3.tty IoctlReq.VT_GETMODE 0] with
      vt_omode := env.vt_getmode
        (emit S3 [Effect.ioctl S3.tty IoctlReq.VT_GETMODE 0]).trace } : State).tty
      = s.tty := c1
  have d2 : ({ emit S3 [Effect.ioctl S3.tty IoctlReq.VT_GETMODE 0] with
      vt_omode := env.vt_getmode
        (emit S3 [Effect.ioctl S3.tty IoctlReq.VT_GETMODE 0]).trace } : State).fb
      = s.fb := c2
  have d3 : ({ emit S3 [Effect.ioctl S3.tty IoctlReq.VT_GETMODE 0] with
      vt_omode := env.vt_getmode
        (emit S3 [Effect.ioctl S3.tty IoctlReq.VT_GETMODE 0]).trace } : State).trace
      = s.trace ++ (A ++ [Effect.ioctl S1.fb IoctlReq.FBIOGET_VSCREENINFO 0,
          Effect.ioctl S2.tty IoctlReq.KDGETMODE 0,
          Effect.ioctl S3.tty IoctlReq.VT_GETMODE 0]) := by
    show S3.trace ++ _ = _
    rw [c3]
    simp
  have hf3' : env.ioctl_fails
      (s.trace ++ A ++ [Effect.ioctl S1.fb IoctlReq.FBIOGET_VSCREENINFO 0] ++
        [Effect.ioctl S2.tty IoctlReq.KDGETMODE 0] ++
        [Effect.ioctl S3.tty IoctlReq.VT_GETMODE 0]) = false := by
    have : (emit S3 [Effect.ioctl S3.tty IoctlReq.VT_GETMODE 0]).trace
        = s.trace ++ A ++ [Effect.ioctl S1.fb IoctlReq.FBIOGET_VSCREENINFO 0] ++
          [Effect.ioctl S2.tty IoctlReq.KDGETMODE 0] ++
          [Effect.ioctl S3.tty IoctlReq.VT_GETMODE 0] := by
      show S3.trace ++ _ = _
      rw [c3]; simp
    rw [← this]; exact hf3
  generalize ({ emit S3 [Effect.ioctl S3.tty IoctlReq.VT_GETMODE 0] with
      vt_omode := env.vt_getmode
        (emit S3 [Effect.ioctl S3.tty IoctlReq.VT_GETMODE 0]).trace } : State) = S4
    at d1 d2 d3 ⊢
  refine init_outcome_lift env false true (init_fds s) (init_fds S4) s S4
    (A ++ [Effect.ioctl S1.fb IoctlReq.FBIOGET_VSCREENINFO 0,
           Effect.ioctl S2.tty IoctlReq.KDGETMODE 0,
           Effect.ioctl S3.tty IoctlReq.VT_GETMODE 0]) _ d3 ?_ ?_ (Or.inl rfl)
    (fbdev_init_setup_outcome env S4 (by rw [d2]; exact hfb) (by rw [d1]; exact htty))
  · rw [init_fds_congr s S4 d1 d2]
    apply open_fds_never_open
    intro e he
    simp only [List.mem_append, List.mem_cons, List.mem_singleton, List.not_mem_nil,
      or_false] at he
    rcases he with h | h | h | h
    · exact (hA e h).1.1
    · subst h; rfl
    · subst h; rfl
    · subst h; rfl
  · rw [no_failed_step_append, hokA]
    simp only [no_failed_step, step_failed, checked_ioctl, Bool.and_true, Bool.true_and,
      hf1', hf2', hf3', Bool.not_false]

theorem init_checked_open_early (env : Env) (T : List Int) (s0 : State)
    (pre : List Effect) (dev : Dev) (fd : Int) (S : State)
    (h1 : S.tty = fd) (h3 : S.trace = s0.trace ++ (pre ++ [Effect.open dev fd]))
    (hpo : no_failed_step env s0.trace pre = true)
    (hpre : pre.any is_fscreeninfo = false)
    (hT : (open_fds T pre).erase S.fb = [])
    (next : State × Int)
    (hnext : fd ≠ -1 → InitOutcome env false T s0 next) :
    InitOutcome env false T s0 (if fd = -1 then fbdev_init_err_early S else next) := by
  by_cases hf : fd = -1
  · rw [if_pos hf]
    right
    refine init_failed_err_early env T s0 S pre (Effect.open dev fd) h3 hpo ?_ ?_ ?_
    · simp only [step_failed, decide_eq_true_eq]
      exact hf
    · rw [List.any_append, hpre]
      rfl
    · have h4 : ¬ S.tty > 0 := by rw [h1, hf]; decide
      rw [if_neg h4, open_fds_append]
      simp only [open_fds, hf, if_true]
      exact hT
  · rw [if_neg hf]
    exact hnext hf

theorem fbdev_init_newvt_outcome (env : Env) (s : State)
    (hopen : ∀ tr, env.open_result tr = -1 ∨ 0 < env.open_result tr)
    (hfb : s.fb ≠ -1) (htty : s.tty > 0) :
    InitOutcome env false (init_fds s) s (fbdev_init_newvt env s) := by
  unfold fbdev_init_newvt
  refine init_checked_ioctl_early env (init_fds s) s s [] s.tty IoctlReq.VT_OPENQRY rfl rfl
    (by simp) rfl (by simp) (init_fds_erase_early s) _ ?_
  intro hf1
  have b1 : ({ emit s [Effect.ioctl s.tty IoctlReq.VT_OPENQRY 0] with
      vtno := env.vt_openqry (emit s [Effect.ioctl s.tty IoctlReq.VT_OPENQRY 0]).trace }
      : State).tty = s.tty := rfl
  have b2 : ({ emit s [Effect.ioctl s.tty IoctlReq.VT_OPENQRY 0] with
      vtno := env.vt_openqry (emit s [Effect.ioctl s.tty IoctlReq.VT_OPENQRY 0]).trace }
      : State).fb = s.fb := rfl
  have b3 : ({ emit s [Effect.ioctl s.tty IoctlReq.VT_OPENQRY 0] with
      vtno := env.vt_openqry (emit s [Effect.ioctl s.tty IoctlReq.VT_OPENQRY 0]).trace }
      : State).trace = s.trace ++ [Effect.ioctl s.tty IoctlReq.VT_OPENQRY 0] := rfl
  generalize ({ emit s [Effect.ioctl s.tty IoctlReq.VT_OPENQRY 0] with
      vtno := env.vt_openqry (emit s [Effect.ioctl s.tty IoctlReq.VT_OPENQRY 0]).trace }
      : State) = S2 at b1 b2 b3 ⊢
  have hck : checked_ioctl S2.tty IoctlReq.VT_GETSTATE = true := by
    simp only [checked_ioctl, decide_eq_true_eq]
    rw [b1]
    omega
  have hf1' : env.ioctl_fails (s.trace ++ [Effect.ioctl s.tty IoctlReq.VT_OPENQRY 0])
      = false := hf1
  refine init_checked_ioctl_early env (init_fds s) s S2
    [Effect.ioctl s.tty IoctlReq.VT_OPENQRY 0] S2.tty IoctlReq.VT_GETSTATE hck rfl b3
    (by simp only [no_failed_step, step_failed, checked_ioctl, Bool.and_true, hf1',
      Bool.not_false])
    (by simp [is_fd_op, is_fscreeninfo]) (init_fds_erase_early_of s S2 b1 b2) _ ?_
  intro hf2
  have c1 : (emit S2 [Effect.ioctl S2.tty IoctlReq.VT_GETSTATE 0]).tty = s.tty := b1
  have c2 : (emit S2 [Effect.ioctl S2.tty IoctlReq.VT_GETSTATE 0]).fb = s.fb := b2
  have c3 : (emit S2 [Effect.ioctl S2.tty IoctlReq.VT_GETSTATE 0]).trace
      = s.trace ++ [Effect.ioctl s.tty IoctlReq.VT_OPENQRY 0,
          Effect.ioctl S2.tty IoctlReq.VT_GETSTATE 0] := by
    show S2.trace ++ _ = _
    rw [b3]; simp
  have hf2' : env.ioctl_fails (s.trace ++ [Effect.ioctl s.tty IoctlReq.VT_OPENQRY 0] ++
      [Effect.ioctl S2.tty IoctlReq.VT_GETSTATE 0]) = false := by
    rw [← b3]; exact hf2
  generalize emit S2 [Effect.ioctl S2.tty IoctlReq.VT_GETSTATE 0] = S3 at c1 c2 c3 ⊢
  have d3 : (emit S3 [Effect.close S3.tty]).trace
      = s.trace ++ [Effect.ioctl s.tty IoctlReq.VT_OPENQRY 0,
          Effect.ioctl S2.tty IoctlReq.VT_GETSTATE 0, Effect.close s.tty] := by
    show S3.trace ++ _ = _
    rw [c3, c1]; simp
  have d2 : (emit S3 [Effect.close S3.tty]).fb = s.fb := c2
  have dv : (emit S3 [Effect.close S3.tty]).vtno = S3.vtno := rfl
  generalize emit S3 [Effect.close S3.tty] = S4 at d2 d3 dv ⊢
  refine init_checked_open_early env (init_fds s) s
    [Effect.ioctl s.tty IoctlReq.VT_OPENQRY 0,
      Effect.ioctl S2.tty IoctlReq.VT_GETSTATE 0, Effect.close s.tty]
    (Dev.tty S4.vtno) (env.open_result S4.trace) _ ?_ ?_ ?_ rfl ?_ _ ?_
  · rfl
  · show S4.trace ++ _ = _
    rw [d3]; simp
  · simp only [no_failed_step, step_failed, hf1', hf2', Bool.false_and, Bool.not_false,
      Bool.and_true]
  · show (open_fds (init_fds s) _).erase S4.fb = []
    rw [d2]
    simp only [open_fds]
    unfold init_fds
    rw [if_pos htty]
    simp
  intro hfd
  have hpos : 0 < env.open_result S4.trace := by
    rcases hopen S4.trace with h | h
    · exact absurd h hfd
    · exact h
  have e1 : (emit { ({ emit S4 [Effect.open (Dev.tty S4.vtno) (env.open_result S4.trace)] with
                  tty := env.open_result S4.trace } : State) with
                orig_vtno := env.vt_active S3.trace } [Effect.stderr]).tty
      = env.open_result S4.trace := rfl
  have e2 : (emit { ({ emit S4 [Effect.open (Dev.tty S4.vtno) (env.open_result S4.trace)] with
                  tty := env.open_result S4.trace } : State) with
                orig_vtno := env.vt_active S3.trace } [Effect.stderr]).fb = s.fb := d2
  have e3 : (emit { ({ emit S4 [Effect.open (Dev.tty S4.vtno) (env.open_result S4.trace)] with
                  tty := env.open_result S4.trace } : State) with
                orig_vtno := env.vt_active S3.trace } [Effect.stderr]).trace
      = s.trace ++ [Effect.ioctl s.tty IoctlReq.VT_OPENQRY 0,
          Effect.ioctl S2.tty IoctlReq.VT_GETSTATE 0, Effect.close s.tty,
          Effect.open (Dev.tty S4.vtno) (env.open_result S4.trace), Effect.stderr] := by
    show S4.trace ++ _ ++ _ = _
    rw [d3]; simp
  generalize (emit { ({ emit S4 [Effect.open (Dev.tty S4.vtno) (env.open_result S4.trace)] with
                  tty := env.open_result S4.trace } : State) with
                orig_vtno := env.vt_active S3.trace } [Effect.stderr]) = S6 at e1 e2 e3 ⊢
  have hi : init_fds S6 = [env.open_result S4.trace, s.fb] := by
    unfold init_fds
    rw [e1, e2, if_pos hpos]
  refine init_outcome_lift env false false (init_fds s) (init_fds S6) s S6
    [Effect.ioctl s.tty IoctlReq.VT_OPENQRY 0,
      Effect.ioctl S2.tty IoctlReq.VT_GETSTATE 0, Effect.close s.tty,
      Effect.open (Dev.tty S4.vtno) (env.open_result S4.trace), Effect.stderr] _
    e3 ?_ ?_ (Or.inr ⟨rfl, rfl⟩)
    (fbdev_init_save_outcome env S6 (by rw [e2]; exact hfb) (by rw [e1]; exact hfd))
  · rw [hi]
    simp only [open_fds, hfd, if_false]
    unfold init_fds
    rw [if_pos htty]
    simp
  · simp only [no_failed_step, step_failed, checked_ioctl, Bool.and_true, hf1', hf2',
      hck, Bool.not_false, decide_eq_true_eq, hfd, decide_False, Bool.not_false]
    rfl

theorem fbdev_init_tty_outcome (env : Env) (s : State)
    (hopen : ∀ tr, env.open_result tr = -1 ∨ 0 < env.open_result tr)
    (hfb : s.fb ≠ -1) :
    InitOutcome env false [s.fb] s (fbdev_init_tty env s) := by
  unfold fbdev_init_tty
  have a1 : (emit { s with tty := 0 } [Effect.ioctl 0 IoctlReq.VT_GETSTATE 0]).tty = 0 := rfl
  have a2 : (emit { s with tty := 0 } [Effect.ioctl 0 IoctlReq.VT_GETSTATE 0]).fb = s.fb :=
    rfl
  have a3 : (emit { s with tty := 0 } [Effect.ioctl 0 IoctlReq.VT_GETSTATE 0]).trace
      = s.trace ++ [Effect.ioctl 0 IoctlReq.VT_GETSTATE 0] := rfl
  generalize emit { s with tty := 0 } [Effect.ioctl 0 IoctlReq.VT_GETSTATE 0] = S1
    at a1 a2 a3 ⊢
  have hck0 : checked_ioctl 0 IoctlReq.VT_GETSTATE = false := by
    simp [checked_ioctl]
  by_cases hp : env.ioctl_fails S1.trace = true
  · show InitOutcome env false [s.fb] s (if env.ioctl_fails S1.trace = true then _ else _)
    rw [if_pos hp]
    refine init_checked_open_early env [s.fb] s
      [Effect.ioctl 0 IoctlReq.VT_GETSTATE 0, Effect.stderr]
      Dev.tty0 (env.open_result (emit S1 [Effect.stderr]).trace) _ ?_ ?_ ?_ rfl ?_ _ ?_
    · rfl
    · show S1.trace ++ _ ++ _ = _
      rw [a3]; simp
    · simp only [no_failed_step, step_failed, hck0, Bool.and_false, Bool.not_false,
        Bool.and_true]
    · show (open_fds [s.fb] _).erase S1.fb = []
      rw [a2]
      simp [open_fds]
    intro hfd
    have hpos : 0 < env.open_result (emit S1 [Effect.stderr]).trace := by
      rcases hopen (emit S1 [Effect.stderr]).trace with h | h
      · exact absurd h hfd
      · exact h
    have e1 : ({ emit (emit S1 [Effect.stderr])
          [Effect.open Dev.tty0 (env.open_result (emit S1 [Effect.stderr]).trace)] with
          tty := env.open_result (emit S1 [Effect.stderr]).trace } : State).tty
        = env.open_result (emit S1 [Effect.stderr]).trace := rfl
    have e2 : ({ emit (emit S1 [Effect.stderr])
          [Effect.open Dev.tty0 (env.open_result (emit S1 [Effect.stderr]).trace)] with
          tty := env.open_result (emit S1 [Effect.stderr]).trace } : State).fb = s.fb := a2
    have e3 : ({ emit (emit S1 [Effect.stderr])
          [Effect.open Dev.tty0 (env.open_result (emit S1 [Effect.stderr]).trace)] with
          tty := env.open_result (emit S1 [Effect.stderr]).trace } : State).trace
        = s.trace ++ [Effect.ioctl 0 IoctlReq.VT_GETSTATE 0, Effect.stderr,
            Effect.open Dev.tty0 (env.open_result (emit S1 [Effect.stderr]).trace)] := by
      show S1.trace ++ _ ++ _ = _
      rw [a3]; simp
    generalize ({ emit (emit S1 [Effect.stderr])
          [Effect.open Dev.tty0 (env.open_result (emit S1 [Effect.stderr]).trace)] with
          tty := env.open_result (emit S1 [Effect.stderr]).trace } : State) = S3
      at e1 e2 e3 ⊢
    have hi : init_fds S3 = [env.open_result (emit S1 [Effect.stderr]).trace, s.fb] := by
      unfold init_fds
      rw [e1, e2, if_pos hpos]
    refine init_outcome_lift env false false [s.fb] (init_fds S3) s S3
      [Effect.ioctl 0 IoctlReq.VT_GETSTATE 0, Effect.stderr,
        Effect.open Dev.tty0 (env.open_result (emit S1 [Effect.stderr]).trace)] _
      e3 ?_ ?_ (Or.inr ⟨rfl, rfl⟩)
      (fbdev_init_newvt_outcome env S3 hopen (by rw [e2]; exact hfb) (by rw [e1]; exact hpos))
    · rw [hi]
      simp only [open_fds, hfd, if_false]
    · simp only [no_failed_step, step_failed, hck0, Bool.and_false, Bool.not_false,
        Bool.and_true, decide_eq_true_eq, hfd, decide_False]
  · show InitOutcome env false [s.fb] s (if env.ioctl_fails S1.trace = true then _ else _)
    rw [if_neg hp]
    have e1 : (emit { S1 with orig_vtno := 0, vtno := env.vt_active S1.trace }
        [Effect.stderr]).tty = 0 := a1
    have e2 : (emit { S1 with orig_vtno := 0, vtno := env.vt_active S1.trace }
        [Effect.stderr]).fb = s.fb := a2
    have e3 : (emit { S1 with orig_vtno := 0, vtno := env.vt_active S1.trace }
        [Effect.stderr]).trace
        = s.trace ++ [Effect.ioctl 0 IoctlReq.VT_GETSTATE 0, Effect.stderr] := by
      show S1.trace ++ _ = _
      rw [a3]; simp
    generalize emit { S1 with orig_vtno := 0, vtno := env.vt_active S1.trace }
        [Effect.stderr] = S2 at e1 e2 e3 ⊢
    have hi : init_fds S2 = [s.fb] := by
      unfold init_fds
      rw [e1, e2]
      rfl
    refine init_outcome_lift env false false [s.fb] (init_fds S2) s S2
      [Effect.ioctl 0 IoctlReq.VT_GETSTATE 0, Effect.stderr] _
      e3 ?_ ?_ (Or.inr ⟨rfl, rfl⟩)
      (fbdev_init_save_outcome env S2 (by rw [e2]; exact hfb) (by rw [e1]; decide))
    · rw [hi]
      rfl
    · simp only [no_failed_step, step_failed, hck0, Bool.and_false, Bool.not_false,
        Bool.and_true]

theorem fbdev_init_outcome (env : Env) (s : State)
    (hopen : ∀ tr, env.open_result tr = -1 ∨ 0 < env.open_result tr) :
    InitOutcome env false [] s (fbdev_init env s) := by
  unfold fbdev_init
  by_cases hf : env.open_result s.trace = -1
  · show InitOutcome env false [] s (if env.open_result s.trace = -1 then _ else _)
    rw [if_pos hf]
    right
    refine ⟨rfl, [], Effect.open Dev.fb (env.open_result s.trace), [], rfl, rfl, Or.inl ?_,
      by simp, ?_, ?_⟩
    · simp only [step_failed, decide_eq_true_eq]
      exact hf
    · simp only [List.nil_append, open_fds, hf, if_true]
    · intro h
      rcases h with h | h
      · exact absurd h (by decide)
      · simp [is_fscreeninfo] at h
  · show InitOutcome env false [] s (if env.open_result s.trace = -1 then _ else _)
    rw [if_neg hf]
    have e2 : ({ emit s [Effect.open Dev.fb (env.open_result s.trace)] with
        fb := env.open_result s.trace } : State).fb = env.open_result s.trace := rfl
    have e3 : ({ emit s [Effect.open Dev.fb (env.open_result s.trace)] with
        fb := env.open_result s.trace } : State).trace
        = s.trace ++ [Effect.open Dev.fb (env.open_result s.trace)] := rfl
    generalize ({ emit s [Effect.open Dev.fb (env.open_result s.trace)] with
        fb := env.open_result s.trace } : State) = S1 at e2 e3 ⊢
    refine init_outcome_lift env false false [] [S1.fb] s S1
      [Effect.open Dev.fb (env.open_result s.trace)] _
      e3 ?_ ?_ (Or.inr ⟨rfl, rfl⟩)
      (fbdev_init_tty_outcome env S1 hopen (by rw [e2]; exact hf))
    · rw [e2]
      simp only [open_fds, hf, if_false]
    · simp only [no_failed_step, step_failed, Bool.and_true, decide_eq_true_eq, hf,
        decide_False, Bool.not_false]

/-- Claim C16, amended.  `fbdev_init` returns 0 or -1.  It returns 0 only when
no tested step failed (the opens, the `ioctl` calls other than the first
`VT_GETSTATE` probe on descriptor 0 and the `VT_ACTIVATE`/`VT_WAITACTIVE`
calls, `mmap`) and the framebuffer is packed-pixel with 32 bits per pixel.
Otherwise it returns -1, and the trace splits at the first tested step `e`
that failed (or at the `FBIOGET_VSCREENINFO` whose answer did not pass the
checks): after `e` come rollback operations only (no acquisition step),
every descriptor opened so far is closed, and, when the failure came at
`FBIOGET_FSCREENINFO` or later and a terminal had been displaced, that
terminal is activated again.  The calls of `open` are taken to return -1 or
a positive descriptor. -/
theorem fbdev_init_rollback (env : Env) (s : State)
    (hopen : ∀ tr, env.open_result tr = -1 ∨ 0 < env.open_result tr) :
    ((fbdev_init env s).2 = 0 ∧
      (fbdev_init env s).1.fb_type = FB_TYPE_PACKED_PIXELS ∧
      (fbdev_init env s).1.bits_per_pixel = 32 ∧
      no_failed_step env s.trace (effects_since s (fbdev_init env s).1) = true) ∨
    ((fbdev_init env s).2 = -1 ∧
      ∃ pre e post,
        effects_since s (fbdev_init env s).1 = pre ++ e :: post ∧
        no_failed_step env s.trace pre = true ∧
        (step_failed env (s.trace ++ (pre ++ [e])) e = true ∨
          (is_vscreeninfo e = true ∧ pre.any is_fscreeninfo = true ∧
            ((fbdev_init env s).1.fb_type ≠ FB_TYPE_PACKED_PIXELS ∨
              (fbdev_init env s).1.bits_per_pixel ≠ 32))) ∧
        (∀ x ∈ post, is_rollback (fbdev_init env s).1 x = true) ∧
        open_fds [] (pre ++ e :: post) = [] ∧
        ((pre ++ [e]).any is_fscreeninfo = true →
          (fbdev_init env s).1.orig_vtno ≠ 0 →
          ∃ fd, Effect.ioctl fd IoctlReq.VT_ACTIVATE (fbdev_init env s).1.orig_vtno
            ∈ post)) := by
  rcases fbdev_init_outcome env s hopen with h | h
  · left
    obtain ⟨h1, h2, h3, es, h4, h5⟩ := h
    refine ⟨h1, h2, h3, ?_⟩
    rw [effects_since_append _ _ _ h4]
    exact h5
  · right
    obtain ⟨h1, pre, e, post, h2, hpo, h3, h4, h5, h6⟩ := h
    refine ⟨h1, pre, e, post, effects_since_append _ _ _ h2, hpo, h3, h4, h5, ?_⟩
    intro hp
    exact h6 (Or.inr hp)

theorem env_mmap_open (tr : List Effect) :
    env_mmap.open_result tr = -1 ∨ 0 < env_mmap.open_result tr := by
  right
  show (0 : Int) < 3 + (tr.length : Int)
  omega

set_option maxRecDepth 100000 in
theorem fbdev_init_rollback_witness :
    (∀ tr, env_mmap.open_result tr = -1 ∨ 0 < env_mmap.open_result tr) ∧
    (fbdev_init env_mmap state_boot).2 = -1 ∧
    (fbdev_init env_mmap state_boot).1.orig_vtno = 1 ∧
    (((fbdev_init env_mmap state_boot).2 = 0 ∧
      (fbdev_init env_mmap state_boot).1.fb_type = FB_TYPE_PACKED_PIXELS ∧
      (fbdev_init env_mmap state_boot).1.bits_per_pixel = 32 ∧
      no_failed_step env_mmap state_boot.trace (effects_since state_boot (fbdev_init env_mmap state_boot).1) = true) ∨
    ((fbdev_init env_mmap state_boot).2 = -1 ∧
      ∃ pre e post,
        effects_since state_boot (fbdev_init env_mmap state_boot).1 = pre ++ e :: post ∧
        no_failed_step env_mmap state_boot.trace pre = true ∧
        (step_failed env_mmap (state_boot.trace ++ (pre ++ [e])) e = true ∨
          (is_vscreeninfo e = true ∧ pre.any is_fscreeninfo = true ∧
            ((fbdev_init env_mmap state_boot).1.fb_type ≠ FB_TYPE_PACKED_PIXELS ∨
              (fbdev_init env_mmap state_boot).1.bits_per_pixel ≠ 32))) ∧
        (∀ x ∈ post, is_rollback (fbdev_init env_mmap state_boot).1 x = true) ∧
        open_fds [] (pre ++ e :: post) = [] ∧
        ((pre ++ [e]).any is_fscreeninfo = true →
          (fbdev_init env_mmap state_boot).1.orig_vtno ≠ 0 →
          ∃ fd, Effect.ioctl fd IoctlReq.VT_ACTIVATE (fbdev_init env_mmap state_boot).1.orig_vtno
            ∈ post))) :=
  ⟨env_mmap_open, by decide, by decide, fbdev_init_rollback env_mmap state_boot env_mmap_open⟩

set_option maxRecDepth 100000 in
/-- Claim C16 as stated fails for "any ioctl": when the process is not started
from a virtual terminal the first `ioctl(0, VT_GETSTATE)` fails, and that only
selects the branch that opens a new terminal; and the `VT_ACTIVATE` call of
`fbdev_activate_vt` fails without effect on `fbdev_init`, which does not look
at the value that function returns.  With both failing, `fbdev_init` returns
0, and after the failed `VT_ACTIVATE` it goes on acquiring (`mmap`). -/
theorem fbdev_init_unchecked_counterexample :
    (fbdev_init env_unchecked state_boot).2 = 0 ∧
    (fbdev_init env_unchecked state_boot).1.trace.take 10
      = [Effect.open Dev.fb 3, Effect.ioctl 0 IoctlReq.VT_GETSTATE 0, Effect.stderr,
         Effect.open Dev.tty0 6, Effect.ioctl 6 IoctlReq.VT_OPENQRY 0,
         Effect.ioctl 6 IoctlReq.VT_GETSTATE 0, Effect.close 6,
         Effect.open (Dev.tty 2) 10, Effect.stderr,
         Effect.ioctl 10 IoctlReq.VT_ACTIVATE 2] ∧
    env_unchecked.ioctl_fails ((fbdev_init env_unchecked state_boot).1.trace.take 2) = true ∧
    env_unchecked.ioctl_fails ((fbdev_init env_unchecked state_boot).1.trace.take 10) = true ∧
    Effect.mmap (4096 * 768) 3 0x10000
      ∈ (fbdev_init env_unchecked state_boot).1.trace.drop 10 := by
  refine ⟨by decide, by decide, by decide, by decide, by decide⟩

set_option maxRecDepth 100000 in
/-- A failure on the way to the label `err_early` after the new terminal was
activated: without a virtual terminal of its own the process opens terminal 2
and activates it in place of terminal 1; `KDGETMODE` then fails, and
`fbdev_init` closes both descriptors and returns -1 without activating
terminal 1 again. -/
theorem fbdev_init_err_early_trace :
    (fbdev_init env_kdgetmode state_boot).2 = -1 ∧
    (fbdev_init env_kdgetmode state_boot).1.orig_vtno = 1 ∧
    (fbdev_init env_kdgetmode state_boot).1.trace
      = [Effect.open Dev.fb 3, Effect.ioctl 0 IoctlReq.VT_GETSTATE 0, Effect.stderr,
         Effect.open Dev.tty0 6, Effect.ioctl 6 IoctlReq.VT_OPENQRY 0,
         Effect.ioctl 6 IoctlReq.VT_GETSTATE 0, Effect.close 6,
         Effect.open (Dev.tty 2) 10, Effect.stderr,
         Effect.ioctl 10 IoctlReq.VT_ACTIVATE 2, Effect.ioctl 10 IoctlReq.VT_WAITACTIVE 2,
         Effect.ioctl 3 IoctlReq.FBIOGET_VSCREENINFO 0, Effect.ioctl 10 IoctlReq.KDGETMODE 0,
         Effect.close 10, Effect.close 3] := by
  refine ⟨by decide, by decide, by decide⟩

end Fbdev
